import Mathlib

/-!
# Castanets media source delegate: seek, readiness and read coordination

A shallow embedding of `MediaSourceDelegateCastanets`
(`content/renderer/media/castanets/media_source_delegate_castanets.cc`), of
the part of `RendererDemuxerCastanets` that feeds it and of
`WebMediaPlayerCastanets::Seek`.

Modelling conventions

* Every member function of the delegate is a function from the delegate's
  fields to the new fields together with the list of calls it made on its
  collaborators (the underlying `ChunkDemuxer`, the demuxer streams, the
  `RendererDemuxerCastanets` client, the task runners and the stored
  callbacks), in program order.
* A pointer is `Bool` (non-null) or `Option`; dereferencing a null pointer and
  running a null callback have no defined behaviour and make the function
  return `none`.
* `DCHECK` and `NOTREACHED` do not stop execution (release build); a `DCHECK`
  whose condition is false is recorded in the list of calls as
  `Event.dcheckFailed`. Thread-affinity checks are not modelled: each member
  function runs as one atomic step.
* Asynchronous completions (`ChunkDemuxer::Seek`, `DemuxerStream::Read`,
  `DecryptingDemuxerStream::Initialize` and `Reset`, posted tasks) are not run by
  the function that requests them: the request is recorded as an event and the
  completion is a separate call.
-/

namespace Castanets

/-! ## Collaborator types -/

/-- The type base::TimeDelta, a signed number of microseconds. -/
abbrev TimeDelta := Int

/-- The constant media::kNoTimestamp (the least 64-bit signed value). -/
def kNoTimestamp : TimeDelta := -9223372036854775808

/-- The enumeration media::PipelineStatus. Only `PIPELINE_OK` and
`PIPELINE_ERROR_INITIALIZATION_FAILED` are named by the delegate; every other
value is `error code`. -/
inductive PipelineStatus
  | PIPELINE_OK
  | PIPELINE_ERROR_INITIALIZATION_FAILED
  | error (code : Nat)
  deriving DecidableEq, Repr

/-- The enumeration media::DemuxerStream::Type. -/
inductive StreamType
  | UNKNOWN
  | AUDIO
  | VIDEO
  | TEXT
  deriving DecidableEq, Repr

/-- The enumeration media::DemuxerStream::Status; `kError` stands for every value
that reaches the `default:` branch of the switch in `OnBufferReady`. -/
inductive StreamStatus
  | kOk
  | kAborted
  | kConfigChanged
  | kError
  deriving DecidableEq, Repr

/-- What a `media::DemuxerStream*` held by the delegate points to: the stream
owned by the `ChunkDemuxer`, or the delegate's own `DecryptingDemuxerStream`
wrapper of that kind. A null pointer is `none : Option StreamRef`. -/
inductive StreamRef
  | chunk
  | decrypting
  deriving DecidableEq, Repr

/-- The fields of media::AudioDecoderConfig that the delegate reads. -/
structure AudioDecoderConfig where
  codec : Nat
  channel_layout : Nat
  samples_per_second : Int
  bytes_per_channel : Int
  extra_data : List Nat
  is_encrypted : Bool
  deriving DecidableEq, Repr

/-- The fields of media::VideoDecoderConfig that the delegate reads. -/
structure VideoDecoderConfig where
  codec : Nat
  natural_size : Int × Int
  extra_data : List Nat
  is_encrypted : Bool
  deriving DecidableEq, Repr

/-- A media::DecoderBuffer as far as `OnBufferReady` looks at it. -/
structure DecoderBuffer where
  end_of_stream : Bool
  data : List Nat
  timestamp : TimeDelta
  duration : TimeDelta
  deriving DecidableEq, Repr

/-- The struct media::DemuxerConfigs (demuxer_stream_player_params_castanets.h). -/
structure DemuxerConfigs where
  audio_codec : Nat
  audio_channels : Int
  audio_sampling_rate : Int
  audio_bit_rate : Int
  is_audio_encrypted : Bool
  audio_extra_data : List Nat
  video_codec : Nat
  video_size : Int × Int
  is_video_encrypted : Bool
  video_extra_data : List Nat
  webm_hdr_info : List Nat
  framerate_num : Int
  framerate_den : Int
  is_framerate_changed : Bool
  duration_ms : Int
  deriving DecidableEq, Repr

/-- The constructor DemuxerConfigs::DemuxerConfigs(); `kUnknownAudioCodec` and
`kUnknownVideoCodec` are the zero of their enumerations, `gfx::Size()` is empty. -/
def DemuxerConfigs.new : DemuxerConfigs :=
  { audio_codec := 0, audio_channels := 0, audio_sampling_rate := 0,
    audio_bit_rate := 0, is_audio_encrypted := false, audio_extra_data := [],
    video_codec := 0, video_size := (0, 0), is_video_encrypted := false,
    video_extra_data := [], webm_hdr_info := [], framerate_num := 0,
    framerate_den := 0, is_framerate_changed := false, duration_ms := 0 }

/-- The struct media::DemuxedBufferMetaData. -/
structure DemuxedBufferMetaData where
  size : Int
  end_of_stream : Bool
  timestamp : TimeDelta
  time_duration : TimeDelta
  type : StreamType
  status : StreamStatus
  tz_handle : Int
  deriving DecidableEq, Repr

/-- The constructor DemuxedBufferMetaData::DemuxedBufferMetaData(); the two
`base::TimeDelta` members are default-constructed (zero). -/
def DemuxedBufferMetaData.new : DemuxedBufferMetaData :=
  { size := 0, end_of_stream := false, timestamp := 0, time_duration := 0,
    type := StreamType.UNKNOWN, status := StreamStatus.kAborted, tz_handle := 0 }

/-- The value of a C++ `int` after a computation whose mathematical result is `x`
(two's complement wrap-around to 32 bits). -/
def wrapInt32 (x : Int) : Int := (x + 2147483648) % 4294967296 - 2147483648

/-- What the delegate can observe of its collaborators at the time of a call:
the first audio and video stream of the `ChunkDemuxer` with their current
decoder configs (`none` when `GetFirstStream` returns null), the configs the
two `DecryptingDemuxerStream` wrappers report (apart from the encrypted flag,
which a wrapper always reports as false), and the function
`media::ChannelLayoutToChannelCount`. -/
structure Demuxer where
  audio : Option AudioDecoderConfig
  video : Option VideoDecoderConfig
  decrypting_audio : AudioDecoderConfig
  decrypting_video : VideoDecoderConfig
  ChannelLayoutToChannelCount : Nat → Int

/-! ## Calls made on collaborators -/

/-- The state-dependent assertions of the delegate. -/
inductive Check
  | GetDemuxerStreamInfo_streams
  | SetCdm_cdm_context
  | SetCdm_cdm_attached_cb
  | SetCdm_not_is_demuxer_ready
  | SetCdm_HasEncryptedStream
  | SetCdm_NOTREACHED
  | InitAudioDecryptingDemuxerStream_cdm_context
  | InitVideoDecryptingDemuxerStream_cdm_context
  | OnAudioDecryptingDemuxerStreamInitDone_chunk_demuxer
  | OnVideoDecryptingDemuxerStreamInitDone_chunk_demuxer
  | NotifyDemuxerReady_is_demuxer_ready
  | OnDemuxerInitDone_chunk_demuxer
  | HasEncryptedStream_streams
  | OnBufferReady_NOTREACHED
  | Stop_not_demuxer_client
  | FinishResettingDecryptingDemuxerStreams_is_seeking
  | Destructor_not_chunk_demuxer
  | Destructor_not_audio_stream
  | Destructor_not_video_stream
  | Destructor_not_audio_decrypting_demuxer_stream
  | Destructor_not_video_decrypting_demuxer_stream
  deriving DecidableEq, Repr

/-- One call made by the delegate on a collaborator. -/
inductive Event
  /-- The call chunk_demuxer_->Seek(t, OnDemuxerSeekDone). -/
  | demuxerSeek (t : TimeDelta)
  /-- The call chunk_demuxer_->AbortPendingReads(). -/
  | demuxerAbortPendingReads
  /-- The call chunk_demuxer_->CancelPendingSeek(t). -/
  | demuxerCancelPendingSeek (t : TimeDelta)
  /-- The call chunk_demuxer_->StartWaitingForSeek(t). -/
  | demuxerStartWaitingForSeek (t : TimeDelta)
  /-- The call chunk_demuxer_->Shutdown(). -/
  | demuxerShutdown
  /-- The call chunk_demuxer_->Stop(). -/
  | demuxerStop
  /-- The call chunk_demuxer_.reset(): the demuxer is released. -/
  | demuxerRelease
  /-- A new ChunkDemuxer is created (InitializeMediaSource). -/
  | demuxerCreate
  /-- The call chunk_demuxer_->Initialize(this, OnDemuxerInitDone, false). -/
  | demuxerInit
  /-- A Read on the stream the handle of kind `type` points to, completing in
  OnBufferReady(type, ...). -/
  | streamRead (stream : StreamRef) (type : StreamType)
  /-- A new DecryptingDemuxerStream of that kind is created and Initialize is
  called on it with the current stream of that kind. -/
  | decryptingStreamInit (type : StreamType)
  /-- The call Reset on the DecryptingDemuxerStream of that kind. -/
  | decryptingStreamReset (type : StreamType)
  /-- The message DemuxerReady(demuxer_client_id, configs). -/
  | DemuxerReady (demuxer_client_id : Int) (configs : DemuxerConfigs)
  /-- The message DemuxerSeekDone(demuxer_client_id, seek time, key frame). -/
  | DemuxerSeekDone (demuxer_client_id : Int) (actual_browser_seek_time : TimeDelta)
      (video_key_frame : TimeDelta)
  /-- The message ReadFromDemuxerAck(demuxer_client_id, stream_data, meta_data). -/
  | ReadFromDemuxerAck (demuxer_client_id : Int) (stream_data : List Nat)
      (meta_data : DemuxedBufferMetaData)
  /-- The call demuxer_client_->AddDelegate(demuxer_client_id, this). -/
  | AddDelegate (demuxer_client_id : Int)
  /-- The call demuxer_client_->RemoveDelegate(demuxer_client_id). -/
  | RemoveDelegate (demuxer_client_id : Int)
  /-- StartSeek(t, is_seeking_pending_seek) is posted to the media task runner. -/
  | postStartSeek (t : TimeDelta) (is_seeking_pending_seek : Bool)
  /-- InitializeDemuxer is posted to the media task runner. -/
  | postInitializeDemuxer
  /-- GetDemuxerStreamInfo is posted to the media task runner. -/
  | postGetDemuxerStreamInfo
  /-- StopDemuxer(stop_cb) is posted to the media task runner. -/
  | postStopDemuxer
  /-- The pending CDM-attached callback is posted to the main loop with the
  given argument. -/
  | postCdmAttached (is_cdm_attached : Bool)
  /-- The callback set_cdm_ready_cb_ is run with a callback bound to SetCdm. -/
  | runSetCdmReadyCb
  /-- The callback update_network_state_cb_ is run with
  PipelineErrorToNetworkState(status). -/
  | runUpdateNetworkState (status : PipelineStatus)
  /-- The closure stop_cb is run. -/
  | runStopCb
  /-- The call main_weak_factory_.InvalidateWeakPtrs(). -/
  | invalidateMainWeakPtrs
  /-- The call media_weak_factory_.InvalidateWeakPtrs(). -/
  | invalidateMediaWeakPtrs
  /-- A DCHECK whose condition was false, or a NOTREACHED that was reached. -/
  | dcheckFailed (check : Check)
  deriving DecidableEq, Repr

/-- The events of a `DCHECK(condition)`. -/
def dcheck (check : Check) (condition : Bool) : List Event :=
  if condition then [] else [Event.dcheckFailed check]

/-! ## The delegate -/

/-- The data members of `MediaSourceDelegateCastanets` that its control flow
depends on. A callback member is `true` when it is not null; a weak pointer
factory is the number of times it has been invalidated. -/
structure Delegate where
  demuxer_client_ : Bool
  demuxer_client_id_ : Int
  media_source_opened_cb_ : Bool
  update_network_state_cb_ : Bool
  duration_change_cb_ : Bool
  waiting_for_decryption_key_cb_ : Bool
  chunk_demuxer_ : Bool
  audio_stream_ : Option StreamRef
  video_stream_ : Option StreamRef
  set_cdm_ready_cb_ : Bool
  cdm_context_ : Bool
  pending_cdm_attached_cb_ : Bool
  emedia_init_data_cb_ : Bool
  audio_decrypting_demuxer_stream_ : Bool
  video_decrypting_demuxer_stream_ : Bool
  seek_time_ : TimeDelta
  pending_seek_ : Bool
  is_seeking_ : Bool
  seeking_pending_seek_ : Bool
  is_demuxer_seek_done_ : Bool
  pending_seek_time_ : TimeDelta
  is_audio_read_fired_ : Bool
  is_video_read_fired_ : Bool
  is_demuxer_ready_ : Bool
  video_key_frame_ : TimeDelta
  main_weak_factory_ : Nat
  media_weak_factory_ : Nat
  deriving DecidableEq, Repr

/-- The result of a member function: the new fields and the calls made, or
`none` when the function dereferences a null pointer or runs a null callback. -/
abbrev Result := Option (Delegate × List Event)

/-- Put the calls `es` in front of the calls of `r`. -/
def Result.after (es : List Event) (r : Result) : Result :=
  r.map fun p => (p.1, es ++ p.2)

/-- Run `r`, then `g` on the fields `r` left, and join the calls of both. -/
def Result.andThen (r : Result) (g : Delegate → Result) : Result :=
  match r with
  | none => none
  | some p => Result.after p.2 (g p.1)

/-- The constructor MediaSourceDelegateCastanets::MediaSourceDelegateCastanets. -/
def Delegate.new (demuxer_client : Bool) (demuxer_client_id : Int) : Delegate :=
  { demuxer_client_ := demuxer_client
    demuxer_client_id_ := demuxer_client_id
    media_source_opened_cb_ := false
    update_network_state_cb_ := false
    duration_change_cb_ := false
    waiting_for_decryption_key_cb_ := false
    chunk_demuxer_ := false
    audio_stream_ := none
    video_stream_ := none
    set_cdm_ready_cb_ := false
    cdm_context_ := false
    pending_cdm_attached_cb_ := false
    emedia_init_data_cb_ := false
    audio_decrypting_demuxer_stream_ := false
    video_decrypting_demuxer_stream_ := false
    seek_time_ := kNoTimestamp
    pending_seek_ := false
    is_seeking_ := false
    seeking_pending_seek_ := false
    is_demuxer_seek_done_ := false
    pending_seek_time_ := kNoTimestamp
    is_audio_read_fired_ := false
    is_video_read_fired_ := false
    is_demuxer_ready_ := false
    video_key_frame_ := kNoTimestamp
    main_weak_factory_ := 0
    media_weak_factory_ := 0 }

/-- The function MediaSourceDelegateCastanets::InitializeMediaSource, called with
six callbacks that are not null (its own assertions). -/
def InitializeMediaSource (d : Delegate) : Delegate × List Event :=
  ({ d with
      media_source_opened_cb_ := true
      emedia_init_data_cb_ := true
      set_cdm_ready_cb_ := true
      update_network_state_cb_ := true
      duration_change_cb_ := true
      waiting_for_decryption_key_cb_ := true
      chunk_demuxer_ := true },
   [Event.demuxerCreate, Event.postInitializeDemuxer])

/-- The function MediaSourceDelegateCastanets::OnDemuxerError: it changes no
field. -/
def OnDemuxerError (status : PipelineStatus) (d : Delegate) : List Event :=
  if status ≠ PipelineStatus.PIPELINE_OK ∧ d.update_network_state_cb_ = true then
    [Event.runUpdateNetworkState status]
  else []

/-! ### Seeking -/

/-- The function MediaSourceDelegateCastanets::SeekInternal. -/
def SeekInternal (seek_time : TimeDelta) (d : Delegate) : Result :=
  if d.chunk_demuxer_ then
    some (d, [Event.demuxerAbortPendingReads, Event.demuxerSeek seek_time])
  else none

/-- The function MediaSourceDelegateCastanets::StartWaitingForSeek. -/
def StartWaitingForSeek (seek_time : TimeDelta) (d : Delegate) : Result :=
  if !d.chunk_demuxer_ then some (d, [])
  else
    some ({ d with
            is_demuxer_seek_done_ := false
            seeking_pending_seek_ := false
            is_seeking_ := true },
          [Event.demuxerStartWaitingForSeek seek_time])

/-- The function MediaSourceDelegateCastanets::CancelPendingSeek. -/
def CancelPendingSeek (seek_time : TimeDelta) (d : Delegate) : Result :=
  if !d.chunk_demuxer_ then some (d, [])
  else
    let d1 := { d with
                is_seeking_ := true
                pending_seek_ := true
                pending_seek_time_ := seek_time }
    if d1.is_demuxer_seek_done_ then
      some ({ d1 with is_demuxer_seek_done_ := false, pending_seek_ := false },
            [Event.demuxerStartWaitingForSeek seek_time,
             Event.postStartSeek seek_time true])
    else
      some (d1, [Event.demuxerCancelPendingSeek seek_time])

/-- The function MediaSourceDelegateCastanets::StartSeek. -/
def StartSeek (seek_time : TimeDelta) (is_seeking_pending_seek : Bool)
    (d : Delegate) : Result :=
  if !d.chunk_demuxer_ then some (d, [])
  else
    let d1 := { d with is_seeking_ := true, is_demuxer_seek_done_ := false }
    if is_seeking_pending_seek then
      SeekInternal seek_time
        { d1 with seeking_pending_seek_ := is_seeking_pending_seek
                  seek_time_ := seek_time }
    else if d1.seeking_pending_seek_ then some (d1, [])
    else SeekInternal seek_time { d1 with seek_time_ := seek_time }

/-- The function
MediaSourceDelegateCastanets::FinishResettingDecryptingDemuxerStreams. -/
def FinishResettingDecryptingDemuxerStreams (d : Delegate) : Result :=
  let d1 := { d with is_seeking_ := false }
  if d1.demuxer_client_ then
    some (d1,
      dcheck Check.FinishResettingDecryptingDemuxerStreams_is_seeking d.is_seeking_ ++
      [Event.DemuxerSeekDone d1.demuxer_client_id_ d1.seek_time_ d1.video_key_frame_])
  else none

/-- The function MediaSourceDelegateCastanets::ResetVideoDecryptingDemuxerStream;
the Reset of the wrapper completes in FinishResettingDecryptingDemuxerStreams. -/
def ResetVideoDecryptingDemuxerStream (d : Delegate) : Result :=
  if d.video_decrypting_demuxer_stream_ then
    some (d, [Event.decryptingStreamReset StreamType.VIDEO])
  else FinishResettingDecryptingDemuxerStreams d

/-- The function MediaSourceDelegateCastanets::ResetAudioDecryptingDemuxerStream;
the Reset of the wrapper completes in ResetVideoDecryptingDemuxerStream. -/
def ResetAudioDecryptingDemuxerStream (d : Delegate) : Result :=
  if d.audio_decrypting_demuxer_stream_ then
    some (d, [Event.decryptingStreamReset StreamType.AUDIO])
  else ResetVideoDecryptingDemuxerStream d

/-- The function MediaSourceDelegateCastanets::OnDemuxerSeekDone. -/
def OnDemuxerSeekDone (_demuxer_seek_time : TimeDelta) (status : PipelineStatus)
    (d : Delegate) : Result :=
  if status ≠ PipelineStatus.PIPELINE_OK then some (d, OnDemuxerError status d)
  else if d.pending_seek_ then
    let d1 := { d with pending_seek_ := false, seek_time_ := d.pending_seek_time_ }
    StartSeek d1.pending_seek_time_ true d1
  else
    ResetAudioDecryptingDemuxerStream
      { d with
        seeking_pending_seek_ := false
        is_seeking_ := false
        is_demuxer_seek_done_ := true }

/-! ### Stream information and readiness -/

/-- The function MediaSourceDelegateCastanets::GetStreamByType for the two kinds
the delegate asks for; it dereferences `chunk_demuxer_`. The result is the
pointer returned by `GetFirstStream`. -/
def GetStreamByType (env : Demuxer) (type : StreamType) (d : Delegate) :
    Option (Option StreamRef) :=
  if d.chunk_demuxer_ then
    match type with
    | StreamType.AUDIO => some (env.audio.map fun _ => StreamRef.chunk)
    | StreamType.VIDEO => some (env.video.map fun _ => StreamRef.chunk)
    | _ => some none
  else none

/-- The config `stream->audio_decoder_config()` of a stream the delegate holds;
`none` when the `ChunkDemuxer` has no audio stream. The config of a
`DecryptingDemuxerStream` is never encrypted (the comment in OnBufferReady:
its `is_encrypted()` always returns false). -/
def audio_decoder_config (env : Demuxer) : StreamRef → Option AudioDecoderConfig
  | StreamRef.chunk => env.audio
  | StreamRef.decrypting => some { env.decrypting_audio with is_encrypted := false }

/-- The config `stream->video_decoder_config()` of a stream the delegate holds;
`none` when the `ChunkDemuxer` has no video stream. The config of a
`DecryptingDemuxerStream` is never encrypted. -/
def video_decoder_config (env : Demuxer) : StreamRef → Option VideoDecoderConfig
  | StreamRef.chunk => env.video
  | StreamRef.decrypting => some { env.decrypting_video with is_encrypted := false }

/-- The expression
`audio_stream_ && audio_stream_->audio_decoder_config().is_encrypted()`. -/
def audioStreamIsEncrypted (env : Demuxer) (d : Delegate) : Option Bool :=
  match d.audio_stream_ with
  | none => some false
  | some s => (audio_decoder_config env s).map fun c => c.is_encrypted

/-- The expression
`video_stream_ && video_stream_->video_decoder_config().is_encrypted()`. -/
def videoStreamIsEncrypted (env : Demuxer) (d : Delegate) : Option Bool :=
  match d.video_stream_ with
  | none => some false
  | some s => (video_decoder_config env s).map fun c => c.is_encrypted

/-- The value returned by MediaSourceDelegateCastanets::HasEncryptedStream (the
video operand is evaluated only when the audio operand is false). -/
def HasEncryptedStream (env : Demuxer) (d : Delegate) : Option Bool :=
  match audioStreamIsEncrypted env d with
  | none => none
  | some true => some true
  | some false => videoStreamIsEncrypted env d

/-- The assertion at the top of HasEncryptedStream. -/
def HasEncryptedStream_dcheck (d : Delegate) : List Event :=
  dcheck Check.HasEncryptedStream_streams
    (d.audio_stream_.isSome || d.video_stream_.isSome)

/-- The audio block of NotifyDemuxerReady: the fields of `configs` written when
`audio_stream_` is not null. -/
def fillAudioConfigs (env : Demuxer) (d : Delegate) (configs : DemuxerConfigs) :
    Option DemuxerConfigs :=
  match d.audio_stream_ with
  | none => some configs
  | some s =>
    match audio_decoder_config env s, GetStreamByType env StreamType.AUDIO d with
    | some audio_config, some (some _) =>
      match env.audio with
      | some first =>
        some { configs with
          audio_codec := audio_config.codec
          audio_channels := env.ChannelLayoutToChannelCount audio_config.channel_layout
          audio_sampling_rate := audio_config.samples_per_second
          is_audio_encrypted := first.is_encrypted
          audio_extra_data := audio_config.extra_data
          audio_bit_rate :=
            wrapInt32 (audio_config.bytes_per_channel * audio_config.samples_per_second * 8) }
      | none => none
    | _, _ => none

/-- The video block of NotifyDemuxerReady: the fields of `configs` written when
`video_stream_` is not null. -/
def fillVideoConfigs (env : Demuxer) (d : Delegate) (configs : DemuxerConfigs) :
    Option DemuxerConfigs :=
  match d.video_stream_ with
  | none => some configs
  | some s =>
    match video_decoder_config env s, GetStreamByType env StreamType.VIDEO d with
    | some video_config, some (some _) =>
      match env.video with
      | some first =>
        some { configs with
          video_codec := video_config.codec
          video_size := video_config.natural_size
          is_video_encrypted := first.is_encrypted
          video_extra_data := video_config.extra_data }
      | none => none
    | _, _ => none

/-- The function MediaSourceDelegateCastanets::NotifyDemuxerReady. -/
def NotifyDemuxerReady (env : Demuxer) (is_cdm_attached : Bool) (d : Delegate) :
    Result :=
  let e0 := dcheck Check.NotifyDemuxerReady_is_demuxer_ready d.is_demuxer_ready_
  let d1 := { d with is_demuxer_ready_ := true }
  let e1 := if d1.pending_cdm_attached_cb_ then [Event.postCdmAttached is_cdm_attached]
            else []
  let d2 := { d1 with pending_cdm_attached_cb_ := false }
  if !d2.demuxer_client_ || (d2.audio_stream_.isNone && d2.video_stream_.isNone) then
    some (d2, e0 ++ e1 ++
      OnDemuxerError PipelineStatus.PIPELINE_ERROR_INITIALIZATION_FAILED d2)
  else
    match (fillAudioConfigs env d2 DemuxerConfigs.new).bind (fillVideoConfigs env d2) with
    | none => none
    | some configs =>
      some (d2, e0 ++ e1 ++ [Event.DemuxerReady d2.demuxer_client_id_ configs])

/-- The function MediaSourceDelegateCastanets::InitAudioDecryptingDemuxerStream;
Initialize completes in OnAudioDecryptingDemuxerStreamInitDone. -/
def InitAudioDecryptingDemuxerStream (d : Delegate) : Delegate × List Event :=
  ({ d with audio_decrypting_demuxer_stream_ := true },
   dcheck Check.InitAudioDecryptingDemuxerStream_cdm_context d.cdm_context_ ++
   [Event.decryptingStreamInit StreamType.AUDIO])

/-- The function MediaSourceDelegateCastanets::InitVideoDecryptingDemuxerStream;
Initialize completes in OnVideoDecryptingDemuxerStreamInitDone. -/
def InitVideoDecryptingDemuxerStream (d : Delegate) : Delegate × List Event :=
  ({ d with video_decrypting_demuxer_stream_ := true },
   dcheck Check.InitVideoDecryptingDemuxerStream_cdm_context d.cdm_context_ ++
   [Event.decryptingStreamInit StreamType.VIDEO])

/-- The function MediaSourceDelegateCastanets::GetDemuxerStreamInfo. Its
assertion on `chunk_demuxer_` is not recorded separately: when it fails, the
stream lookup that follows dereferences the null pointer. -/
def GetDemuxerStreamInfo (env : Demuxer) (d : Delegate) : Result :=
  match GetStreamByType env StreamType.AUDIO d, GetStreamByType env StreamType.VIDEO d with
  | some audio, some video =>
    let d1 := { d with audio_stream_ := audio, video_stream_ := video }
    let e0 := dcheck Check.GetDemuxerStreamInfo_streams
      (d1.audio_stream_.isSome || d1.video_stream_.isSome)
    match HasEncryptedStream env d1 with
    | none => none
    | some true =>
      if d1.set_cdm_ready_cb_ then
        some (d1, e0 ++ HasEncryptedStream_dcheck d1 ++ [Event.runSetCdmReadyCb])
      else none
    | some false =>
      Result.after (e0 ++ HasEncryptedStream_dcheck d1) (NotifyDemuxerReady env false d1)
  | _, _ => none

/-- The function MediaSourceDelegateCastanets::SetCdm, called with a CDM context
pointer and a CDM-attached callback (`true` when not null). Its last assertion
calls HasEncryptedStream, which runs its own assertion first. -/
def SetCdm (env : Demuxer) (cdm_context cdm_attached_cb : Bool) (d : Delegate) :
    Result :=
  let e0 :=
    dcheck Check.SetCdm_cdm_context cdm_context ++
    dcheck Check.SetCdm_cdm_attached_cb cdm_attached_cb ++
    dcheck Check.SetCdm_not_is_demuxer_ready (!d.is_demuxer_ready_) ++
    HasEncryptedStream_dcheck d ++
    dcheck Check.SetCdm_HasEncryptedStream ((HasEncryptedStream env d).getD true)
  let d1 := { d with cdm_context_ := cdm_context
                     pending_cdm_attached_cb_ := cdm_attached_cb }
  match audioStreamIsEncrypted env d1 with
  | none => none
  | some true =>
    some ((InitAudioDecryptingDemuxerStream d1).1,
          e0 ++ (InitAudioDecryptingDemuxerStream d1).2)
  | some false =>
    match videoStreamIsEncrypted env d1 with
    | none => none
    | some true =>
      some ((InitVideoDecryptingDemuxerStream d1).1,
            e0 ++ (InitVideoDecryptingDemuxerStream d1).2)
    | some false => some (d1, e0 ++ [Event.dcheckFailed Check.SetCdm_NOTREACHED])

/-- The function
MediaSourceDelegateCastanets::OnAudioDecryptingDemuxerStreamInitDone. On a
failure status `audio_decrypting_demuxer_stream_.reset()` destroys the wrapper;
an `audio_stream_` that points to the wrapper is left dangling, and
NotifyDemuxerReady reads the config through it when it builds the DemuxerReady
message (that is, when `demuxer_client_` is not null): no defined result. -/
def OnAudioDecryptingDemuxerStreamInitDone (env : Demuxer) (status : PipelineStatus)
    (d : Delegate) : Result :=
  let e0 := dcheck Check.OnAudioDecryptingDemuxerStreamInitDone_chunk_demuxer
    d.chunk_demuxer_
  let d1 := { d with is_audio_read_fired_ := false }
  if status ≠ PipelineStatus.PIPELINE_OK then
    let d2 := { d1 with audio_decrypting_demuxer_stream_ := false }
    if d2.audio_stream_ = some StreamRef.decrypting ∧ d2.demuxer_client_ = true then none
    else Result.after e0 (NotifyDemuxerReady env false d2)
  else
    let d2 := { d1 with
      audio_stream_ :=
        if d1.audio_decrypting_demuxer_stream_ then some StreamRef.decrypting else none }
    match videoStreamIsEncrypted env d2 with
    | none => none
    | some true =>
      some ((InitVideoDecryptingDemuxerStream d2).1,
            e0 ++ (InitVideoDecryptingDemuxerStream d2).2)
    | some false => Result.after e0 (NotifyDemuxerReady env true d2)

/-- The function
MediaSourceDelegateCastanets::OnVideoDecryptingDemuxerStreamInitDone. On a
failure status `video_decrypting_demuxer_stream_.reset()` destroys the wrapper;
a `video_stream_` that points to the wrapper is left dangling, and
NotifyDemuxerReady reads the config through it when it builds the DemuxerReady
message (that is, when `demuxer_client_` is not null): no defined result. -/
def OnVideoDecryptingDemuxerStreamInitDone (env : Demuxer) (status : PipelineStatus)
    (d : Delegate) : Result :=
  let e0 := dcheck Check.OnVideoDecryptingDemuxerStreamInitDone_chunk_demuxer
    d.chunk_demuxer_
  let success : Bool := decide (status = PipelineStatus.PIPELINE_OK)
  let d1 := { d with is_video_read_fired_ := false }
  if !success then
    let d2 := { d1 with video_decrypting_demuxer_stream_ := false }
    if d2.video_stream_ = some StreamRef.decrypting ∧ d2.demuxer_client_ = true then none
    else Result.after e0 (NotifyDemuxerReady env success d2)
  else
    let d2 := { d1 with
      video_stream_ :=
        if d1.video_decrypting_demuxer_stream_ then some StreamRef.decrypting else none }
    Result.after e0 (NotifyDemuxerReady env success d2)

/-! ### Reads -/

/-- The function MediaSourceDelegateCastanets::OnReadFromDemuxer. -/
def OnReadFromDemuxer (type : StreamType) (d : Delegate) : Delegate × List Event :=
  if d.is_seeking_ then (d, [])
  else
    let r1 : Delegate × List Event :=
      match d.audio_stream_ with
      | some s =>
        if type = StreamType.AUDIO ∧ d.is_audio_read_fired_ = false then
          ({ d with is_audio_read_fired_ := true }, [Event.streamRead s type])
        else (d, [])
      | none => (d, [])
    let r2 : Delegate × List Event :=
      match r1.1.video_stream_ with
      | some s =>
        if type = StreamType.VIDEO ∧ r1.1.is_video_read_fired_ = false then
          ({ r1.1 with is_video_read_fired_ := true }, [Event.streamRead s type])
        else (r1.1, [])
      | none => (r1.1, [])
    (r2.1, r1.2 ++ r2.2)

/-- The tail of OnBufferReady: the acknowledgment is sent when `demuxer_client_`
is not null (otherwise an error is logged and nothing is sent). -/
def sendReadFromDemuxerAck (stream_data : List Nat) (meta_data : DemuxedBufferMetaData)
    (d : Delegate) : Result :=
  if d.demuxer_client_ then
    some (d, [Event.ReadFromDemuxerAck d.demuxer_client_id_ stream_data meta_data])
  else some (d, [])

/-- The function MediaSourceDelegateCastanets::OnBufferReady (the CASTANETS
branch of the preprocessor conditionals); `buffer` is `none` for a null
pointer. The `size_t` value `data_size()` is stored in the `int` member
`size`. -/
def OnBufferReady (env : Demuxer) (type : StreamType) (status : StreamStatus)
    (buffer : Option DecoderBuffer) (d : Delegate) : Result :=
  let meta_data : DemuxedBufferMetaData :=
    { DemuxedBufferMetaData.new with status := status, type := type }
  let d1 := if type = StreamType.AUDIO then { d with is_audio_read_fired_ := false } else d
  let d2 := if type = StreamType.VIDEO then { d1 with is_video_read_fired_ := false } else d1
  match status with
  | StreamStatus.kAborted => some (d2, [])
  | StreamStatus.kConfigChanged =>
    match HasEncryptedStream env d2 with
    | none => none
    | some true =>
      let d3 :=
        if type = StreamType.AUDIO then { d2 with is_audio_read_fired_ := true }
        else if type = StreamType.VIDEO then { d2 with is_video_read_fired_ := true }
        else d2
      if d3.set_cdm_ready_cb_ then
        some (d3, HasEncryptedStream_dcheck d2 ++ [Event.runSetCdmReadyCb])
      else none
    | some false =>
      Result.after (HasEncryptedStream_dcheck d2) (NotifyDemuxerReady env false d2)
  | StreamStatus.kOk =>
    match buffer with
    | none => none
    | some b =>
      if b.end_of_stream then
        sendReadFromDemuxerAck [] { meta_data with end_of_stream := true } d2
      else
        sendReadFromDemuxerAck b.data
          { meta_data with
            size := wrapInt32 b.data.length
            timestamp := b.timestamp
            time_duration := b.duration } d2
  | StreamStatus.kError =>
    Result.after [Event.dcheckFailed Check.OnBufferReady_NOTREACHED]
      (sendReadFromDemuxerAck [] meta_data d2)

/-! ### Initialization and teardown -/

/-- The function MediaSourceDelegateCastanets::InitializeDemuxer. -/
def InitializeDemuxer (d : Delegate) : Result :=
  if d.demuxer_client_ ∧ d.chunk_demuxer_ then
    some (d, [Event.AddDelegate d.demuxer_client_id_, Event.demuxerInit])
  else none

/-- The function MediaSourceDelegateCastanets::OnDemuxerInitDone. -/
def OnDemuxerInitDone (status : PipelineStatus) (d : Delegate) : Delegate × List Event :=
  let e0 := dcheck Check.OnDemuxerInitDone_chunk_demuxer d.chunk_demuxer_
  if status ≠ PipelineStatus.PIPELINE_OK then (d, e0 ++ OnDemuxerError status d)
  else (d, e0 ++ [Event.postGetDemuxerStreamInfo])

/-- The function MediaSourceDelegateCastanets::Stop. -/
def Stop (d : Delegate) : Delegate × List Event :=
  if !d.chunk_demuxer_ then (d, dcheck Check.Stop_not_demuxer_client (!d.demuxer_client_))
  else
    ({ d with
        duration_change_cb_ := false
        update_network_state_cb_ := false
        media_source_opened_cb_ := false
        main_weak_factory_ := d.main_weak_factory_ + 1 },
     [Event.invalidateMainWeakPtrs, Event.demuxerShutdown, Event.postStopDemuxer])

/-- The function MediaSourceDelegateCastanets::StopDemuxer; it dereferences
`demuxer_client_` and `chunk_demuxer_`. -/
def StopDemuxer (d : Delegate) : Result :=
  if d.demuxer_client_ ∧ d.chunk_demuxer_ then
    some ({ d with
            demuxer_client_ := false
            audio_stream_ := none
            video_stream_ := none
            audio_decrypting_demuxer_stream_ := false
            video_decrypting_demuxer_stream_ := false
            media_weak_factory_ := d.media_weak_factory_ + 1
            chunk_demuxer_ := false },
          [Event.RemoveDelegate d.demuxer_client_id_, Event.invalidateMediaWeakPtrs,
           Event.demuxerStop, Event.demuxerRelease, Event.runStopCb])
  else none

/-- The destructor MediaSourceDelegateCastanets::~MediaSourceDelegateCastanets:
its five assertions on the fields. -/
def Delegate.destructor (d : Delegate) : List Event :=
  dcheck Check.Destructor_not_chunk_demuxer (!d.chunk_demuxer_) ++
  dcheck Check.Destructor_not_audio_stream d.audio_stream_.isNone ++
  dcheck Check.Destructor_not_video_stream d.video_stream_.isNone ++
  dcheck Check.Destructor_not_audio_decrypting_demuxer_stream
    (!d.audio_decrypting_demuxer_stream_) ++
  dcheck Check.Destructor_not_video_decrypting_demuxer_stream
    (!d.video_decrypting_demuxer_stream_)

/-! ## Sequences of calls -/

/-- One call of a member function of the delegate, with its arguments. -/
inductive Op
  | StartWaitingForSeek (seek_time : TimeDelta)
  | CancelPendingSeek (seek_time : TimeDelta)
  | StartSeek (seek_time : TimeDelta) (is_seeking_pending_seek : Bool)
  | OnDemuxerSeekDone (demuxer_seek_time : TimeDelta) (status : PipelineStatus)
  | ResetVideoDecryptingDemuxerStream
  | FinishResettingDecryptingDemuxerStreams
  | OnReadFromDemuxer (type : StreamType)
  | OnBufferReady (type : StreamType) (status : StreamStatus) (buffer : Option DecoderBuffer)
  | GetDemuxerStreamInfo
  | SetCdm (cdm_context cdm_attached_cb : Bool)
  | OnAudioDecryptingDemuxerStreamInitDone (status : PipelineStatus)
  | OnVideoDecryptingDemuxerStreamInitDone (status : PipelineStatus)
  | OnDemuxerInitDone (status : PipelineStatus)
  | Stop
  | StopDemuxer
  deriving DecidableEq, Repr

/-- The effect of one call. -/
def applyOp (env : Demuxer) : Op → Delegate → Result
  | Op.StartWaitingForSeek t, d => StartWaitingForSeek t d
  | Op.CancelPendingSeek t, d => CancelPendingSeek t d
  | Op.StartSeek t b, d => StartSeek t b d
  | Op.OnDemuxerSeekDone t status, d => OnDemuxerSeekDone t status d
  | Op.ResetVideoDecryptingDemuxerStream, d => ResetVideoDecryptingDemuxerStream d
  | Op.FinishResettingDecryptingDemuxerStreams, d =>
    FinishResettingDecryptingDemuxerStreams d
  | Op.OnReadFromDemuxer type, d => some (OnReadFromDemuxer type d)
  | Op.OnBufferReady type status buffer, d => OnBufferReady env type status buffer d
  | Op.GetDemuxerStreamInfo, d => GetDemuxerStreamInfo env d
  | Op.SetCdm cdm_context cdm_attached_cb, d => SetCdm env cdm_context cdm_attached_cb d
  | Op.OnAudioDecryptingDemuxerStreamInitDone status, d =>
    OnAudioDecryptingDemuxerStreamInitDone env status d
  | Op.OnVideoDecryptingDemuxerStreamInitDone status, d =>
    OnVideoDecryptingDemuxerStreamInitDone env status d
  | Op.OnDemuxerInitDone status, d => some (OnDemuxerInitDone status d)
  | Op.Stop, d => some (Stop d)
  | Op.StopDemuxer, d => StopDemuxer d

/-- The effect of a sequence of calls, one after the other, with the calls they
made in order. -/
def run (env : Demuxer) : List Op → Delegate → Result
  | [], d => some (d, [])
  | op :: ops, d => (applyOp env op d).andThen (run env ops)

/-- The times of the Seek calls made on the underlying demuxer, in order. -/
def seekCalls : List Event → List TimeDelta
  | [] => []
  | Event.demuxerSeek t :: es => t :: seekCalls es
  | _ :: es => seekCalls es

/-- The seek times carried by the DemuxerSeekDone messages sent, in order. -/
def seekDoneMessages : List Event → List TimeDelta
  | [] => []
  | Event.DemuxerSeekDone _ t _ :: es => t :: seekDoneMessages es
  | _ :: es => seekDoneMessages es

/-- The number of DemuxerReady messages sent. -/
def readyCount : List Event → Nat
  | [] => 0
  | Event.DemuxerReady _ _ :: es => readyCount es + 1
  | _ :: es => readyCount es

/-- The streams on which a Read for the given kind was issued, in order. -/
def readCalls (type : StreamType) : List Event → List StreamRef
  | [] => []
  | Event.streamRead s t :: es =>
    if t = type then s :: readCalls type es else readCalls type es
  | _ :: es => readCalls type es

/-- The kinds of the DecryptingDemuxerStream initializations started, in order. -/
def initCalls : List Event → List StreamType
  | [] => []
  | Event.decryptingStreamInit t :: es => t :: initCalls es
  | _ :: es => initCalls es

/-- The arguments with which the pending CDM-attached callback was posted, in
order. -/
def cdmAttachedPosts : List Event → List Bool
  | [] => []
  | Event.postCdmAttached b :: es => b :: cdmAttachedPosts es
  | _ :: es => cdmAttachedPosts es

/-- The argument of the most recent Seek call on the underlying demuxer after
the calls `es`, when `last` was the most recent one before them. -/
def lastSeek (last : Option TimeDelta) : List Event → Option TimeDelta
  | [] => last
  | Event.demuxerSeek t :: es => lastSeek (some t) es
  | _ :: es => lastSeek last es

/-- Every DemuxerSeekDone message among the calls `es` carries the argument of
the most recent Seek call made before it, if there is one (`last` is the most
recent Seek argument before `es`). -/
def seekDoneCarriesLastSeek (last : Option TimeDelta) : List Event → Bool
  | [] => true
  | Event.demuxerSeek t :: es => seekDoneCarriesLastSeek (some t) es
  | Event.DemuxerSeekDone _ t _ :: es =>
    (match last with
     | some s => decide (t = s)
     | none => true) && seekDoneCarriesLastSeek last es
  | _ :: es => seekDoneCarriesLastSeek last es

/-- The calls of the seek coordination: the four public seek functions and the
two completions of the decrypting-stream resets. -/
def Op.isSeekOp : Op → Bool
  | Op.StartWaitingForSeek _ => true
  | Op.CancelPendingSeek _ => true
  | Op.StartSeek _ _ => true
  | Op.OnDemuxerSeekDone _ _ => true
  | Op.ResetVideoDecryptingDemuxerStream => true
  | Op.FinishResettingDecryptingDemuxerStreams => true
  | _ => false

/-- The stream handle of a kind (`audio_stream_` or `video_stream_`). -/
def Delegate.stream (d : Delegate) : StreamType → Option StreamRef
  | StreamType.AUDIO => d.audio_stream_
  | StreamType.VIDEO => d.video_stream_
  | _ => none

/-- The read-fired flag of a kind (`is_audio_read_fired_` or
`is_video_read_fired_`). -/
def Delegate.readFired (d : Delegate) : StreamType → Bool
  | StreamType.AUDIO => d.is_audio_read_fired_
  | StreamType.VIDEO => d.is_video_read_fired_
  | _ => false

/-- The stream pointers the delegate holds are pointers to streams the
`ChunkDemuxer` still has (or to the delegate's own wrappers), and the demuxer
is alive. -/
def streamsValid (env : Demuxer) (d : Delegate) : Bool :=
  d.chunk_demuxer_ &&
  (d.audio_stream_.isNone || env.audio.isSome) &&
  (d.video_stream_.isNone || env.video.isSome)

/-! ### The seek traffic between the delegate and the underlying demuxer -/

/-- The function RendererDemuxerCastanets::OnDemuxerSeekRequest for a delegate
that is registered under the client id of the message. -/
def OnDemuxerSeekRequest (time_to_seek : TimeDelta) (d : Delegate) : Result :=
  StartSeek time_to_seek false d

/-- The StartSeek tasks posted to the media task runner, in order. -/
def postedStartSeeks : List Event → List (TimeDelta × Bool)
  | [] => []
  | Event.postStartSeek t b :: es => (t, b) :: postedStartSeeks es
  | _ :: es => postedStartSeeks es

/-- The delegate together with the seek work in flight around it: the number of
Seek calls on the underlying demuxer whose completion callback has not run
yet, and the StartSeek tasks posted by CancelPendingSeek that have not run
yet. -/
structure SeekSystem where
  delegate : Delegate
  outstanding : Nat
  posted : List (TimeDelta × Bool)
  deriving DecidableEq, Repr

/-- One step of the seek traffic. -/
inductive SeekStep
  /-- The player calls StartWaitingForSeek. -/
  | StartWaitingForSeek (seek_time : TimeDelta)
  /-- The player calls CancelPendingSeek. -/
  | CancelPendingSeek (seek_time : TimeDelta)
  /-- An inbound DemuxerSeekRequest message: StartSeek(time_to_seek, false). -/
  | DemuxerSeekRequest (time_to_seek : TimeDelta)
  /-- The oldest posted StartSeek task runs. -/
  | RunPostedStartSeek
  /-- The completion callback of one outstanding Seek runs. -/
  | SeekCompleted (demuxer_seek_time : TimeDelta) (status : PipelineStatus)
  deriving DecidableEq, Repr

/-- The system after a call of the delegate that returned `r`, when `completed`
outstanding seeks were completed by the step. -/
def SeekSystem.record (s : SeekSystem) (completed : Nat) (r : Result) :
    Option SeekSystem :=
  r.map fun p =>
    { delegate := p.1
      outstanding := s.outstanding - completed + (seekCalls p.2).length
      posted := s.posted ++ postedStartSeeks p.2 }

/-- One step of the seek traffic; `none` when the step is not possible (no
posted task to run, no outstanding Seek to complete) or the call has no
defined behaviour. -/
def SeekSystem.step (s : SeekSystem) : SeekStep → Option SeekSystem
  | SeekStep.StartWaitingForSeek t => s.record 0 (StartWaitingForSeek t s.delegate)
  | SeekStep.CancelPendingSeek t => s.record 0 (CancelPendingSeek t s.delegate)
  | SeekStep.DemuxerSeekRequest t => s.record 0 (OnDemuxerSeekRequest t s.delegate)
  | SeekStep.RunPostedStartSeek =>
    match s.posted with
    | [] => none
    | task :: rest =>
      SeekSystem.record { s with posted := rest } 0 (StartSeek task.1 task.2 s.delegate)
  | SeekStep.SeekCompleted t status =>
    if s.outstanding = 0 then none
    else s.record 1 (OnDemuxerSeekDone t status s.delegate)

/-- A sequence of steps of the seek traffic. -/
def SeekSystem.steps (s : SeekSystem) : List SeekStep → Option SeekSystem
  | [] => some s
  | step :: rest => (s.step step).bind fun s1 => s1.steps rest

/-- The steps that run StartSeek. -/
def SeekStep.startsSeek : SeekStep → Bool
  | SeekStep.DemuxerSeekRequest _ => true
  | SeekStep.RunPostedStartSeek => true
  | _ => false

/-- A sequence of steps of the seek traffic in which StartSeek (an inbound
request or a posted task) runs only while no Seek is outstanding; `none` also
when the sequence does not keep to that. -/
def SeekSystem.serializedSteps (s : SeekSystem) : List SeekStep → Option SeekSystem
  | [] => some s
  | step :: rest =>
    if step.startsSeek && decide (s.outstanding ≠ 0) then none
    else (s.step step).bind fun s1 => s1.serializedSteps rest

/-! ### One initialization of the streams -/

/-- The calls of one initialization of the streams. -/
inductive InitCall
  | GetDemuxerStreamInfo
  | SetCdm
  | OnAudioDecryptingDemuxerStreamInitDone
  | OnVideoDecryptingDemuxerStreamInitDone
  deriving DecidableEq, Repr

/-- The init-done callbacks that follow the calls `es`: the callback of every
DecryptingDemuxerStream initialization started in `es` runs with the status
given for its kind, and so does the callback of an initialization started by
such a callback. Each callback is listed with the calls it made. -/
def initDoneCallbacks (env : Demuxer) (audio_status video_status : PipelineStatus)
    (d : Delegate) (es : List Event) : Option (Delegate × List (InitCall × List Event)) :=
  if Event.decryptingStreamInit StreamType.AUDIO ∈ es then
    match OnAudioDecryptingDemuxerStreamInitDone env audio_status d with
    | none => none
    | some (d1, es1) =>
      if Event.decryptingStreamInit StreamType.VIDEO ∈ es1 then
        match OnVideoDecryptingDemuxerStreamInitDone env video_status d1 with
        | none => none
        | some (d2, es2) =>
          some (d2, [(InitCall.OnAudioDecryptingDemuxerStreamInitDone, es1),
                     (InitCall.OnVideoDecryptingDemuxerStreamInitDone, es2)])
      else some (d1, [(InitCall.OnAudioDecryptingDemuxerStreamInitDone, es1)])
  else if Event.decryptingStreamInit StreamType.VIDEO ∈ es then
    match OnVideoDecryptingDemuxerStreamInitDone env video_status d with
    | none => none
    | some (d1, es1) => some (d1, [(InitCall.OnVideoDecryptingDemuxerStreamInitDone, es1)])
  else some (d, [])

/-- One initialization run: GetDemuxerStreamInfo, then SetCdm when
GetDemuxerStreamInfo asked for a CDM (it ran `set_cdm_ready_cb_`), then the
init-done callbacks of the initializations started, with the given outcomes.
Each call is listed with the calls it made on the collaborators. -/
def initializationRun (env : Demuxer) (cdm_context cdm_attached_cb : Bool)
    (audio_status video_status : PipelineStatus) (d : Delegate) :
    Option (Delegate × List (InitCall × List Event)) :=
  match GetDemuxerStreamInfo env d with
  | none => none
  | some (d1, es1) =>
    if Event.runSetCdmReadyCb ∈ es1 then
      match SetCdm env cdm_context cdm_attached_cb d1 with
      | none => none
      | some (d2, es2) =>
        match initDoneCallbacks env audio_status video_status d2 es2 with
        | none => none
        | some (d3, calls) =>
          some (d3, (InitCall.GetDemuxerStreamInfo, es1) :: (InitCall.SetCdm, es2) :: calls)
    else some (d1, [(InitCall.GetDemuxerStreamInfo, es1)])

/-- All calls made on the collaborators during a run, in order. -/
def allEvents (calls : List (InitCall × List Event)) : List Event :=
  (calls.map fun c => c.2).flatten

/-- The calls of the run that sent a DemuxerReady message, in order. -/
def readySenders (calls : List (InitCall × List Event)) : List InitCall :=
  (calls.filter fun c => decide (readyCount c.2 ≠ 0)).map fun c => c.1

/-! ### Concrete inputs -/

/-- A delegate right after construction with a demuxer client and
InitializeMediaSource: the demuxer is alive, no stream is known yet, no seek
is in progress. -/
def initializedDelegate : Delegate :=
  (InitializeMediaSource (Delegate.new true 1)).1

/-- An audio decoder config (stereo, 44100 Hz, two bytes per channel). -/
def sampleAudioConfig (is_encrypted : Bool) : AudioDecoderConfig :=
  { codec := 1, channel_layout := 3, samples_per_second := 44100,
    bytes_per_channel := 2, extra_data := [], is_encrypted := is_encrypted }

/-- A video decoder config (640 by 480). -/
def sampleVideoConfig (is_encrypted : Bool) : VideoDecoderConfig :=
  { codec := 1, natural_size := (640, 480), extra_data := [], is_encrypted := is_encrypted }

/-- A demuxer with an audio and a video stream with the given encryption flags;
the decrypting wrappers report configs that are not encrypted. -/
def sampleDemuxer (audio_encrypted video_encrypted : Bool) : Demuxer :=
  { audio := some (sampleAudioConfig audio_encrypted)
    video := some (sampleVideoConfig video_encrypted)
    decrypting_audio := sampleAudioConfig false
    decrypting_video := sampleVideoConfig false
    ChannelLayoutToChannelCount := fun layout => if layout = 3 then 2 else 1 }

/-- The invariant of the seek coordination: the demuxer and the client are alive
and `seek_time_` is the argument of the most recent Seek call, if there was
one (`last`). -/
def SeekInv (last : Option TimeDelta) (d : Delegate) : Prop :=
  d.chunk_demuxer_ = true ∧ d.demuxer_client_ = true ∧ ∀ t, last = some t → d.seek_time_ = t

/-- The number of read completions of a kind (OnBufferReady calls) in a sequence
of calls. -/
def completedReads (type : StreamType) : List Op → Nat
  | [] => 0
  | Op.OnBufferReady t _ _ :: ops =>
    if t = type then completedReads type ops + 1 else completedReads type ops
  | _ :: ops => completedReads type ops

/-- The number of Reads of a kind issued during a sequence of calls and not
completed by an OnBufferReady call of the sequence. -/
def outstandingReads (env : Demuxer) (type : StreamType) (ops : List Op) (d : Delegate) :
    Option Nat :=
  (run env ops d).map fun p => (readCalls type p.2).length - completedReads type ops

/-- The first audio stream of the demuxer exists and its config is encrypted. -/
def Demuxer.audioEncrypted (env : Demuxer) : Bool :=
  match env.audio with
  | some c => c.is_encrypted
  | none => false

/-- The first video stream of the demuxer exists and its config is encrypted. -/
def Demuxer.videoEncrypted (env : Demuxer) : Bool :=
  match env.video with
  | some c => c.is_encrypted
  | none => false

/-- The fields of the delegate after the two stream pointers have been fetched
from the demuxer (the first two statements of GetDemuxerStreamInfo). -/
def withDemuxerStreams (env : Demuxer) (d : Delegate) : Delegate :=
  { d with
    audio_stream_ := env.audio.map fun _ => StreamRef.chunk
    video_stream_ := env.video.map fun _ => StreamRef.chunk }

/-- The configs carried by the DemuxerReady messages sent, in order. -/
def readyConfigs : List Event → List DemuxerConfigs
  | [] => []
  | Event.DemuxerReady _ configs :: es => configs :: readyConfigs es
  | _ :: es => readyConfigs es

/-- The number of init-done callbacks of the decrypting streams (of either kind)
in a sequence of calls. -/
def completedInits : List Op → Nat
  | [] => 0
  | Op.OnAudioDecryptingDemuxerStreamInitDone _ :: ops => completedInits ops + 1
  | Op.OnVideoDecryptingDemuxerStreamInitDone _ :: ops => completedInits ops + 1
  | _ :: ops => completedInits ops

/-- The number of DecryptingDemuxerStream initializations started during a
sequence of calls whose init-done callback has not run by the end of the
sequence. -/
def initializationsInProgress (env : Demuxer) (ops : List Op) (d : Delegate) :
    Option Nat :=
  (run env ops d).map fun p => (initCalls p.2).length - completedInits ops

/-- The assertions that failed during a sequence of calls, in order. -/
def failedChecks : List Event → List Check
  | [] => []
  | Event.dcheckFailed c :: es => c :: failedChecks es
  | _ :: es => failedChecks es

/-- The four seek functions of the delegate: the three requests and the
completion of ChunkDemuxer::Seek. -/
def Op.isSeekFunction : Op → Bool
  | Op.StartWaitingForSeek _ => true
  | Op.CancelPendingSeek _ => true
  | Op.StartSeek _ _ => true
  | Op.OnDemuxerSeekDone _ _ => true
  | _ => false

/-! ## The player -/

/-- The data members of `WebMediaPlayerCastanets` that `Seek` reads or writes
(`content/renderer/media/castanets/webmediaplayer_castanets.cc`). A pointer
is `true` when it is not null. -/
structure WebMediaPlayerCastanets where
  manager_ : Bool
  player_id_ : Int
  media_source_delegate_ : Bool
  is_seeking_ : Bool
  seek_time_ : TimeDelta
  pending_seek_ : Bool
  pending_seek_time_ : TimeDelta
  deriving DecidableEq, Repr

/-- One call made by WebMediaPlayerCastanets::Seek on a collaborator. -/
inductive PlayerEvent
  /-- The call media_source_delegate_->CancelPendingSeek(t). -/
  | delegateCancelPendingSeek (seek_time : TimeDelta)
  /-- The call media_source_delegate_->StartWaitingForSeek(t). -/
  | delegateStartWaitingForSeek (seek_time : TimeDelta)
  /-- The call manager_->Seek(player_id, t), which sends the Seek message. -/
  | managerSeek (player_id : Int) (time : TimeDelta)
  deriving DecidableEq, Repr

/-- The function WebMediaPlayerCastanets::Seek; `new_seek_time` is the value of
`base::TimeDelta::FromSecondsD(seconds)`. It dereferences `manager_` when no
seek is in progress. -/
def WebMediaPlayerCastanets.Seek (new_seek_time : TimeDelta)
    (p : WebMediaPlayerCastanets) : Option (WebMediaPlayerCastanets × List PlayerEvent) :=
  if p.is_seeking_ then
    let queue : Option (WebMediaPlayerCastanets × List PlayerEvent) :=
      let p1 := { p with pending_seek_ := true, pending_seek_time_ := new_seek_time }
      some (p1,
        if p1.media_source_delegate_ then
          [PlayerEvent.delegateCancelPendingSeek p1.pending_seek_time_]
        else [])
    if new_seek_time = p.seek_time_ then
      if p.media_source_delegate_ then queue
      else some ({ p with pending_seek_ := false }, [])
    else queue
  else
    let p1 := { p with is_seeking_ := true, seek_time_ := new_seek_time }
    let e1 :=
      if p1.media_source_delegate_ then [PlayerEvent.delegateStartWaitingForSeek p1.seek_time_]
      else []
    if p1.manager_ then some (p1, e1 ++ [PlayerEvent.managerSeek p1.player_id_ p1.seek_time_])
    else none

/-! ## Theorems -/

/-! ### Sequencing of results -/

@[simp] theorem Result.after_none (es : List Event) : Result.after es none = none := rfl

@[simp] theorem Result.after_some (es : List Event) (d : Delegate) (es2 : List Event) :
    Result.after es (some (d, es2)) = some (d, es ++ es2) := rfl

@[simp] theorem Result.after_nil (r : Result) : Result.after [] r = r := by
  cases r <;> simp [Result.after]

@[simp] theorem Result.after_after (es1 es2 : List Event) (r : Result) :
    Result.after es1 (Result.after es2 r) = Result.after (es1 ++ es2) r := by
  cases r <;> simp [Result.after]

@[simp] theorem Result.none_andThen (g : Delegate → Result) :
    Result.andThen none g = none := rfl

@[simp] theorem Result.some_andThen (d : Delegate) (es : List Event) (g : Delegate → Result) :
    Result.andThen (some (d, es)) g = Result.after es (g d) := rfl

theorem Result.after_andThen (es : List Event) (r : Result) (g : Delegate → Result) :
    (Result.after es r).andThen g = Result.after es (r.andThen g) := by
  cases r with
  | none => rfl
  | some p =>
    cases h : g p.1 with
    | none => simp [Result.after, Result.andThen, h]
    | some q => simp [Result.after, Result.andThen, h, List.append_assoc]

theorem Result.andThen_assoc (r : Result) (f g : Delegate → Result) :
    (r.andThen f).andThen g = r.andThen fun d => (f d).andThen g := by
  cases r with
  | none => rfl
  | some p =>
    obtain ⟨d, es⟩ := p
    simp only [Result.some_andThen, Result.after_andThen]

/-! ### Runs -/

theorem run_append (env : Demuxer) (xs ys : List Op) (d : Delegate) :
    run env (xs ++ ys) d = (run env xs d).andThen (run env ys) := by
  induction xs generalizing d with
  | nil => simp [run]
  | cons op ops ih =>
    simp only [List.cons_append, run, Result.andThen_assoc]
    congr 1
    funext d1
    exact ih d1

theorem applyOp_cancel (env : Demuxer) (t : TimeDelta) (d : Delegate)
    (hdemux : d.chunk_demuxer_ = true) (hdone : d.is_demuxer_seek_done_ = false) :
    applyOp env (Op.CancelPendingSeek t) d =
      some ({ d with is_seeking_ := true, pending_seek_ := true, pending_seek_time_ := t },
            [Event.demuxerCancelPendingSeek t]) := by
  simp [applyOp, CancelPendingSeek, hdemux, hdone]

theorem run_cancels (env : Demuxer) (ts : List TimeDelta) (hts : ts ≠ []) (d : Delegate)
    (hdemux : d.chunk_demuxer_ = true) (hdone : d.is_demuxer_seek_done_ = false) :
    run env (ts.map Op.CancelPendingSeek) d =
      some ({ d with is_seeking_ := true, pending_seek_ := true,
                     pending_seek_time_ := ts.getLast hts },
            ts.map Event.demuxerCancelPendingSeek) := by
  induction ts generalizing d with
  | nil => exact absurd rfl hts
  | cons t rest ih =>
    simp only [List.map_cons, run]
    rw [applyOp_cancel env t d hdemux hdone, Result.some_andThen]
    cases rest with
    | nil => rfl
    | cons t2 rest2 =>
      have h1 := ih (by simp)
        ({ d with is_seeking_ := true, pending_seek_ := true, pending_seek_time_ := t })
        hdemux hdone
      rw [h1]
      rfl

theorem seekCalls_append (xs ys : List Event) :
    seekCalls (xs ++ ys) = seekCalls xs ++ seekCalls ys := by
  induction xs with
  | nil => rfl
  | cons e es ih => cases e <;> simp [seekCalls, ih]

theorem seekDoneMessages_append (xs ys : List Event) :
    seekDoneMessages (xs ++ ys) = seekDoneMessages xs ++ seekDoneMessages ys := by
  induction xs with
  | nil => rfl
  | cons e es ih => cases e <;> simp [seekDoneMessages, ih]

theorem seekCalls_cancels (ts : List TimeDelta) :
    seekCalls (ts.map Event.demuxerCancelPendingSeek) = [] := by
  induction ts with
  | nil => rfl
  | cons t ts ih => simpa [seekCalls] using ih

theorem seekDoneMessages_cancels (ts : List TimeDelta) :
    seekDoneMessages (ts.map Event.demuxerCancelPendingSeek) = [] := by
  induction ts with
  | nil => rfl
  | cons t ts ih => simpa [seekDoneMessages] using ih

/-! ### Seek coalescing -/

/-- C1 (seek coalescing). From a delegate with a live demuxer and client, no
decrypting streams and no superseding seek being executed, for every `t0` and
every non-empty list `t1..tn`: StartSeek(t0, false), then
CancelPendingSeek(t1), ..., CancelPendingSeek(tn), then two OnDemuxerSeekDone
calls with PIPELINE_OK make exactly the Seek calls `[t0, tn]` on the
underlying demuxer, send exactly one DemuxerSeekDone, which carries `tn`, and
leave `is_seeking_` and `pending_seek_` false. (The values of `is_seeking_`,
`pending_seek_` and `is_demuxer_seek_done_` before the first call do not
matter: StartSeek and CancelPendingSeek overwrite them.) -/
theorem seek_coalescing (env : Demuxer) (d : Delegate) (t0 : TimeDelta)
    (ts : List TimeDelta) (hts : ts ≠ []) (done1 done2 : TimeDelta)
    (hdemux : d.chunk_demuxer_ = true) (hclient : d.demuxer_client_ = true)
    (haudio : d.audio_decrypting_demuxer_stream_ = false)
    (hvideo : d.video_decrypting_demuxer_stream_ = false)
    (hsps : d.seeking_pending_seek_ = false) :
    ∃ d2 es,
      run env (Op.StartSeek t0 false :: (ts.map Op.CancelPendingSeek ++
        [Op.OnDemuxerSeekDone done1 PipelineStatus.PIPELINE_OK,
         Op.OnDemuxerSeekDone done2 PipelineStatus.PIPELINE_OK])) d = some (d2, es) ∧
      seekCalls es = [t0, ts.getLast hts] ∧
      seekDoneMessages es = [ts.getLast hts] ∧
      d2.is_seeking_ = false ∧ d2.pending_seek_ = false := by
  have h1 : applyOp env (Op.StartSeek t0 false) d =
      some ({ d with is_seeking_ := true, is_demuxer_seek_done_ := false, seek_time_ := t0 },
            [Event.demuxerAbortPendingReads, Event.demuxerSeek t0]) := by
    simp [applyOp, StartSeek, SeekInternal, hdemux, hsps]
  have h2 := run_cancels env ts hts
    ({ d with is_seeking_ := true, is_demuxer_seek_done_ := false, seek_time_ := t0 })
    hdemux rfl
  simp only [run, h1, Result.some_andThen, run_append, h2]
  simp [run, applyOp, OnDemuxerSeekDone, StartSeek, SeekInternal, hdemux,
    ResetAudioDecryptingDemuxerStream, ResetVideoDecryptingDemuxerStream,
    FinishResettingDecryptingDemuxerStreams, haudio, hvideo, hclient, dcheck]
  refine ⟨_, _, ⟨rfl, rfl⟩, ?_, ?_, rfl, rfl⟩
  · simp [seekCalls, seekCalls_append, seekCalls_cancels]
  · simp [seekDoneMessages, seekDoneMessages_append, seekDoneMessages_cancels]

/-- C1 at `t0 = 5s`, `t1 = 9s` on a freshly initialized delegate: the Seek calls
are 5s then 9s and the one DemuxerSeekDone carries 9s. -/
theorem seek_coalescing_witness :
    ∃ d2 es,
      run (sampleDemuxer false false)
        (Op.StartSeek 5000000 false :: ([9000000].map Op.CancelPendingSeek ++
          [Op.OnDemuxerSeekDone 5000000 PipelineStatus.PIPELINE_OK,
           Op.OnDemuxerSeekDone 9000000 PipelineStatus.PIPELINE_OK]))
        initializedDelegate = some (d2, es) ∧
      seekCalls es = [5000000, 9000000] ∧
      seekDoneMessages es = [9000000] ∧
      d2.is_seeking_ = false ∧ d2.pending_seek_ = false :=
  seek_coalescing (sampleDemuxer false false) initializedDelegate 5000000 [9000000]
    (by simp) 5000000 9000000 rfl rfl rfl rfl rfl

/-! ### Single outstanding seek -/

theorem seekCalls_StartWaitingForSeek (t : TimeDelta) (d d2 : Delegate) (es : List Event)
    (h : StartWaitingForSeek t d = some (d2, es)) : seekCalls es = [] := by
  unfold StartWaitingForSeek at h
  split at h <;> simp at h <;> obtain ⟨_, rfl⟩ := h <;> rfl

theorem seekCalls_CancelPendingSeek (t : TimeDelta) (d d2 : Delegate) (es : List Event)
    (h : CancelPendingSeek t d = some (d2, es)) : seekCalls es = [] := by
  unfold CancelPendingSeek at h
  split at h
  · simp at h; obtain ⟨_, rfl⟩ := h; rfl
  · simp only at h
    split at h <;> simp at h <;> obtain ⟨_, rfl⟩ := h <;> rfl

theorem seekCalls_SeekInternal (t : TimeDelta) (d d2 : Delegate) (es : List Event)
    (h : SeekInternal t d = some (d2, es)) : seekCalls es = [t] := by
  unfold SeekInternal at h
  split at h <;> simp at h
  obtain ⟨_, rfl⟩ := h; rfl

theorem seekCalls_StartSeek_length (t : TimeDelta) (b : Bool) (d d2 : Delegate)
    (es : List Event) (h : StartSeek t b d = some (d2, es)) :
    (seekCalls es).length ≤ 1 := by
  unfold StartSeek at h
  split at h
  · simp at h; obtain ⟨_, rfl⟩ := h; simp [seekCalls]
  · simp only at h
    split at h
    · simp [seekCalls_SeekInternal _ _ _ _ h]
    · split at h
      · simp at h; obtain ⟨_, rfl⟩ := h; simp [seekCalls]
      · simp [seekCalls_SeekInternal _ _ _ _ h]

theorem seekCalls_OnDemuxerError (status : PipelineStatus) (d : Delegate) :
    seekCalls (OnDemuxerError status d) = [] := by
  unfold OnDemuxerError
  split <;> rfl

theorem seekCalls_dcheck (c : Check) (b : Bool) : seekCalls (dcheck c b) = [] := by
  cases b <;> rfl

theorem seekCalls_FinishResetting (d d2 : Delegate) (es : List Event)
    (h : FinishResettingDecryptingDemuxerStreams d = some (d2, es)) : seekCalls es = [] := by
  unfold FinishResettingDecryptingDemuxerStreams at h
  simp only at h
  split at h <;> simp at h
  obtain ⟨_, rfl⟩ := h
  simp [seekCalls_append, seekCalls_dcheck, seekCalls]

theorem seekCalls_ResetVideo (d d2 : Delegate) (es : List Event)
    (h : ResetVideoDecryptingDemuxerStream d = some (d2, es)) : seekCalls es = [] := by
  unfold ResetVideoDecryptingDemuxerStream at h
  split at h
  · simp at h; obtain ⟨_, rfl⟩ := h; rfl
  · exact seekCalls_FinishResetting _ _ _ h

theorem seekCalls_ResetAudio (d d2 : Delegate) (es : List Event)
    (h : ResetAudioDecryptingDemuxerStream d = some (d2, es)) : seekCalls es = [] := by
  unfold ResetAudioDecryptingDemuxerStream at h
  split at h
  · simp at h; obtain ⟨_, rfl⟩ := h; rfl
  · exact seekCalls_ResetVideo _ _ _ h

theorem seekCalls_OnDemuxerSeekDone_length (t : TimeDelta) (status : PipelineStatus)
    (d d2 : Delegate) (es : List Event) (h : OnDemuxerSeekDone t status d = some (d2, es)) :
    (seekCalls es).length ≤ 1 := by
  unfold OnDemuxerSeekDone at h
  split at h
  · simp at h; obtain ⟨_, rfl⟩ := h; simp [seekCalls_OnDemuxerError]
  · split at h
    · exact seekCalls_StartSeek_length _ _ _ _ _ h
    · simp [seekCalls_ResetAudio _ _ _ h]

theorem SeekSystem.step_outstanding (s s2 : SeekSystem) (step : SeekStep)
    (hs : s.outstanding ≤ 1)
    (hok : (step.startsSeek && decide (s.outstanding ≠ 0)) = false)
    (h : s.step step = some s2) : s2.outstanding ≤ 1 := by
  cases step with
  | StartWaitingForSeek t =>
    simp only [SeekSystem.step, SeekSystem.record, Option.map_eq_some'] at h
    obtain ⟨⟨d, es⟩, hr, rfl⟩ := h
    simp [seekCalls_StartWaitingForSeek _ _ _ _ hr, hs]
  | CancelPendingSeek t =>
    simp only [SeekSystem.step, SeekSystem.record, Option.map_eq_some'] at h
    obtain ⟨⟨d, es⟩, hr, rfl⟩ := h
    simp [seekCalls_CancelPendingSeek _ _ _ _ hr, hs]
  | DemuxerSeekRequest t =>
    simp only [SeekSystem.step, SeekSystem.record, Option.map_eq_some',
      OnDemuxerSeekRequest] at h
    obtain ⟨⟨d, es⟩, hr, rfl⟩ := h
    have h0 : s.outstanding = 0 := by simpa [SeekStep.startsSeek] using hok
    have := seekCalls_StartSeek_length _ _ _ _ _ hr
    simp only [h0]; omega
  | RunPostedStartSeek =>
    have h0 : s.outstanding = 0 := by simpa [SeekStep.startsSeek] using hok
    simp only [SeekSystem.step] at h
    split at h
    · simp at h
    · simp only [SeekSystem.record, Option.map_eq_some'] at h
      obtain ⟨⟨d, es⟩, hr, rfl⟩ := h
      have := seekCalls_StartSeek_length _ _ _ _ _ hr
      simp only [h0]; omega
  | SeekCompleted t status =>
    simp only [SeekSystem.step] at h
    split at h
    · simp at h
    · simp only [SeekSystem.record, Option.map_eq_some'] at h
      obtain ⟨⟨d, es⟩, hr, rfl⟩ := h
      have := seekCalls_OnDemuxerSeekDone_length _ _ _ _ _ hr
      simp only; omega

/-- C2, as amended (single outstanding seek). In every state reached by a
sequence of StartWaitingForSeek, CancelPendingSeek, inbound DemuxerSeekRequest,
posted StartSeek task and Seek completion steps in which StartSeek (inbound or
posted) runs only while no Seek is outstanding, at most one Seek call on the
underlying demuxer is outstanding: the player-side calls issue no Seek and a
completion re-issues at most one. -/
theorem serialized_seeks_single_outstanding (steps : List SeekStep) (s s2 : SeekSystem)
    (hs : s.outstanding ≤ 1) (hrun : s.serializedSteps steps = some s2) :
    s2.outstanding ≤ 1 := by
  induction steps generalizing s with
  | nil =>
    simp only [SeekSystem.serializedSteps, Option.some.injEq] at hrun
    exact hrun ▸ hs
  | cons step rest ih =>
    simp only [SeekSystem.serializedSteps] at hrun
    split at hrun
    · simp at hrun
    · rename_i hok
      cases h1 : s.step step with
      | none => simp [h1] at hrun
      | some s1 =>
        simp only [h1, Option.some_bind] at hrun
        exact ih s1 (SeekSystem.step_outstanding s s1 step hs (by simpa using hok) h1) hrun

/-- C2 as amended, on a run that exists: a seek to 5s superseded by a seek to 9s
on a freshly initialized delegate keeps to the condition and ends with no Seek
outstanding. -/
theorem serialized_seeks_single_outstanding_witness :
    ∃ s2,
      (SeekSystem.mk initializedDelegate 0 []).serializedSteps
        [SeekStep.StartWaitingForSeek 5000000, SeekStep.DemuxerSeekRequest 5000000,
         SeekStep.CancelPendingSeek 9000000,
         SeekStep.SeekCompleted 5000000 PipelineStatus.PIPELINE_OK,
         SeekStep.SeekCompleted 9000000 PipelineStatus.PIPELINE_OK] = some s2 ∧
      s2.delegate.seek_time_ = 9000000 ∧ s2.outstanding ≤ 1 :=
  ⟨{ delegate := { initializedDelegate with
                   seek_time_ := 9000000
                   pending_seek_time_ := 9000000
                   is_demuxer_seek_done_ := true }
     outstanding := 0
     posted := [] },
   rfl, rfl,
   serialized_seeks_single_outstanding
     [SeekStep.StartWaitingForSeek 5000000, SeekStep.DemuxerSeekRequest 5000000,
      SeekStep.CancelPendingSeek 9000000,
      SeekStep.SeekCompleted 5000000 PipelineStatus.PIPELINE_OK,
      SeekStep.SeekCompleted 9000000 PipelineStatus.PIPELINE_OK]
     (SeekSystem.mk initializedDelegate 0 []) _ (Nat.zero_le 1) rfl⟩

/-- C2 as stated fails: two inbound DemuxerSeekRequest messages with no
completion in between are both passed to the underlying demuxer, so two Seek
calls are outstanding (the second to the later time). -/
theorem single_outstanding_seek_counterexample :
    ((SeekSystem.mk initializedDelegate 0 []).steps
      [SeekStep.DemuxerSeekRequest 1000000, SeekStep.DemuxerSeekRequest 2000000]).map
      (fun s => (s.outstanding, s.delegate.seek_time_)) = some (2, 2000000) := by
  rfl

/-! ### The acknowledged seek time -/

theorem lastSeek_append (last : Option TimeDelta) (xs ys : List Event) :
    lastSeek last (xs ++ ys) = lastSeek (lastSeek last xs) ys := by
  induction xs generalizing last with
  | nil => rfl
  | cons e es ih => cases e <;> simp [lastSeek, ih]

theorem seekDoneCarriesLastSeek_append (last : Option TimeDelta) (xs ys : List Event) :
    seekDoneCarriesLastSeek last (xs ++ ys) =
      (seekDoneCarriesLastSeek last xs && seekDoneCarriesLastSeek (lastSeek last xs) ys) := by
  induction xs generalizing last with
  | nil => simp [seekDoneCarriesLastSeek, lastSeek]
  | cons e es ih => cases e <;> simp [seekDoneCarriesLastSeek, lastSeek, ih, Bool.and_assoc]

theorem applyOp_seek_inv (env : Demuxer) (op : Op) (hop : op.isSeekOp = true)
    (last : Option TimeDelta) (d : Delegate) (hinv : SeekInv last d) :
    ∃ d1 e1, applyOp env op d = some (d1, e1) ∧ SeekInv (lastSeek last e1) d1 ∧
      seekDoneCarriesLastSeek last e1 = true := by
  obtain ⟨hdemux, hclient, hlast⟩ := hinv
  have hfinish : ∀ d0 : Delegate, d0.chunk_demuxer_ = true → d0.demuxer_client_ = true →
      (∀ t, last = some t → d0.seek_time_ = t) →
      ∃ d1 e1, FinishResettingDecryptingDemuxerStreams d0 = some (d1, e1) ∧
        SeekInv (lastSeek last e1) d1 ∧ seekDoneCarriesLastSeek last e1 = true := by
    intro d0 h1 h2 h3
    cases hs : d0.is_seeking_ <;> cases last <;>
      simp [FinishResettingDecryptingDemuxerStreams, h1, h2, hs, dcheck, lastSeek, SeekInv,
        seekDoneCarriesLastSeek, and_assoc] <;> exact h3 _ rfl
  have hvideo : ∀ d0 : Delegate, d0.chunk_demuxer_ = true → d0.demuxer_client_ = true →
      (∀ t, last = some t → d0.seek_time_ = t) →
      ∃ d1 e1, ResetVideoDecryptingDemuxerStream d0 = some (d1, e1) ∧
        SeekInv (lastSeek last e1) d1 ∧ seekDoneCarriesLastSeek last e1 = true := by
    intro d0 h1 h2 h3
    unfold ResetVideoDecryptingDemuxerStream
    split
    · exact ⟨_, _, rfl, ⟨h1, h2, h3⟩, rfl⟩
    · exact hfinish d0 h1 h2 h3
  cases op with
  | StartWaitingForSeek t =>
    simp [applyOp, StartWaitingForSeek, hdemux, hclient, SeekInv, lastSeek,
      seekDoneCarriesLastSeek, and_assoc]
    exact hlast
  | CancelPendingSeek t =>
    cases hd : d.is_demuxer_seek_done_ <;>
      simp [applyOp, CancelPendingSeek, hdemux, hclient, hd, SeekInv, lastSeek,
        seekDoneCarriesLastSeek, and_assoc] <;> exact hlast
  | StartSeek t b =>
    cases b <;> cases hsp : d.seeking_pending_seek_ <;>
      simp [applyOp, StartSeek, SeekInternal, hdemux, hclient, hsp, SeekInv, lastSeek,
        seekDoneCarriesLastSeek, and_assoc]
    exact hlast
  | OnDemuxerSeekDone t status =>
    by_cases hst : status = PipelineStatus.PIPELINE_OK
    · subst hst
      cases hp : d.pending_seek_
      · simp only [applyOp, OnDemuxerSeekDone, ne_eq, not_true_eq_false, if_false, hp,
          Bool.false_eq_true, ResetAudioDecryptingDemuxerStream]
        split
        · exact ⟨_, _, rfl, ⟨hdemux, hclient, hlast⟩, rfl⟩
        · exact hvideo _ hdemux hclient hlast
      · simp [applyOp, OnDemuxerSeekDone, StartSeek, SeekInternal, hdemux, hclient, hp,
          SeekInv, lastSeek, seekDoneCarriesLastSeek, and_assoc]
    · refine ⟨d, OnDemuxerError status d, by simp [applyOp, OnDemuxerSeekDone, hst], ?_, ?_⟩
      · unfold OnDemuxerError
        split <;> exact ⟨hdemux, hclient, hlast⟩
      · unfold OnDemuxerError
        split <;> rfl
  | ResetVideoDecryptingDemuxerStream => exact hvideo d hdemux hclient hlast
  | FinishResettingDecryptingDemuxerStreams => exact hfinish d hdemux hclient hlast
  | _ => simp [Op.isSeekOp] at hop

theorem run_seek_inv (env : Demuxer) (ops : List Op)
    (hops : ∀ op ∈ ops, op.isSeekOp = true) (last : Option TimeDelta) (d : Delegate)
    (hinv : SeekInv last d) :
    ∃ d2 es, run env ops d = some (d2, es) ∧ SeekInv (lastSeek last es) d2 ∧
      seekDoneCarriesLastSeek last es = true := by
  induction ops generalizing last d with
  | nil => exact ⟨d, [], rfl, hinv, rfl⟩
  | cons op rest ih =>
    obtain ⟨d1, e1, h1, hinv1, hc1⟩ :=
      applyOp_seek_inv env op (hops op (List.mem_cons_self _ _)) last d hinv
    obtain ⟨d2, e2, h2, hinv2, hc2⟩ :=
      ih (fun o ho => hops o (List.mem_cons_of_mem _ ho)) (lastSeek last e1) d1 hinv1
    refine ⟨d2, e1 ++ e2, by simp [run, h1, h2], ?_, ?_⟩
    · rw [lastSeek_append]; exact hinv2
    · rw [seekDoneCarriesLastSeek_append, hc1, hc2]; rfl

/-- C3 (the seek-complete acknowledgment carries the last executed target). For
every sequence of StartWaitingForSeek, CancelPendingSeek, StartSeek and
OnDemuxerSeekDone calls (with any arguments, and with the completions of the
decrypting-stream resets in between) on a delegate with a live demuxer and
client, the calls are all defined, `seek_time_` afterwards equals the argument
of the most recent Seek call on the underlying demuxer whenever one was made,
and every DemuxerSeekDone message sent carries the argument of the most recent
Seek call made before it. -/
theorem seek_done_carries_last_seek (env : Demuxer) (ops : List Op) (d : Delegate)
    (hops : ∀ op ∈ ops, op.isSeekOp = true)
    (hdemux : d.chunk_demuxer_ = true) (hclient : d.demuxer_client_ = true) :
    ∃ d2 es, run env ops d = some (d2, es) ∧
      (∀ t, lastSeek none es = some t → d2.seek_time_ = t) ∧
      seekDoneCarriesLastSeek none es = true := by
  obtain ⟨d2, es, h, hinv, hc⟩ :=
    run_seek_inv env ops hops none d ⟨hdemux, hclient, by simp⟩
  exact ⟨d2, es, h, hinv.2.2, hc⟩

/-- C3 on a seek to 5s superseded by a seek to 9s, whose completions report
other times (1s and 2s) than the ones asked for. -/
theorem seek_done_carries_last_seek_witness :
    ∃ d2 es,
      run (sampleDemuxer false false)
        [Op.StartWaitingForSeek 5000000, Op.StartSeek 5000000 false,
         Op.CancelPendingSeek 9000000,
         Op.OnDemuxerSeekDone 1000000 PipelineStatus.PIPELINE_OK,
         Op.OnDemuxerSeekDone 2000000 PipelineStatus.PIPELINE_OK]
        initializedDelegate = some (d2, es) ∧
      (∀ t, lastSeek none es = some t → d2.seek_time_ = t) ∧
      seekDoneCarriesLastSeek none es = true :=
  seek_done_carries_last_seek (sampleDemuxer false false)
    [Op.StartWaitingForSeek 5000000, Op.StartSeek 5000000 false,
     Op.CancelPendingSeek 9000000,
     Op.OnDemuxerSeekDone 1000000 PipelineStatus.PIPELINE_OK,
     Op.OnDemuxerSeekDone 2000000 PipelineStatus.PIPELINE_OK]
    initializedDelegate (by decide) rfl rfl

/-! ### Reads -/

/-- C4 (duplicate read suppression). For each kind in {AUDIO, VIDEO}, when the
delegate is not seeking, the stream of that kind is present and its read-fired
flag is clear, the first OnReadFromDemuxer(kind) issues exactly one Read, on
that stream, and a second OnReadFromDemuxer(kind) with no OnBufferReady in
between issues none and leaves every field of the delegate unchanged. -/
theorem duplicate_read_suppressed (type : StreamType) (d : Delegate) (s : StreamRef)
    (htype : type = StreamType.AUDIO ∨ type = StreamType.VIDEO)
    (hseeking : d.is_seeking_ = false) (hstream : d.stream type = some s)
    (hfired : d.readFired type = false) :
    (OnReadFromDemuxer type d).2 = [Event.streamRead s type] ∧
    OnReadFromDemuxer type (OnReadFromDemuxer type d).1 = ((OnReadFromDemuxer type d).1, []) ∧
    readCalls type ((OnReadFromDemuxer type d).2 ++
      (OnReadFromDemuxer type (OnReadFromDemuxer type d).1).2) = [s] := by
  rcases htype with rfl | rfl
  · simp only [Delegate.stream, Delegate.readFired] at hstream hfired
    cases hv : d.video_stream_ <;>
      simp [OnReadFromDemuxer, hseeking, hstream, hfired, hv, readCalls]
  · simp only [Delegate.stream, Delegate.readFired] at hstream hfired
    cases ha : d.audio_stream_ <;>
      simp [OnReadFromDemuxer, hseeking, hstream, hfired, ha, readCalls]

/-- C4 for the video stream of a freshly initialized delegate that holds a video
stream. -/
theorem duplicate_read_suppressed_witness :
    (OnReadFromDemuxer StreamType.VIDEO
      { initializedDelegate with video_stream_ := some StreamRef.chunk }).2 =
        [Event.streamRead StreamRef.chunk StreamType.VIDEO] ∧
    OnReadFromDemuxer StreamType.VIDEO (OnReadFromDemuxer StreamType.VIDEO
      { initializedDelegate with video_stream_ := some StreamRef.chunk }).1 =
      ((OnReadFromDemuxer StreamType.VIDEO
        { initializedDelegate with video_stream_ := some StreamRef.chunk }).1, []) ∧
    readCalls StreamType.VIDEO
      ((OnReadFromDemuxer StreamType.VIDEO
        { initializedDelegate with video_stream_ := some StreamRef.chunk }).2 ++
       (OnReadFromDemuxer StreamType.VIDEO (OnReadFromDemuxer StreamType.VIDEO
        { initializedDelegate with video_stream_ := some StreamRef.chunk }).1).2) =
      [StreamRef.chunk] :=
  duplicate_read_suppressed StreamType.VIDEO
    { initializedDelegate with video_stream_ := some StreamRef.chunk } StreamRef.chunk
    (Or.inr rfl) rfl rfl rfl

/-- C6 (reads are suppressed while seeking). For every stream kind and every
delegate state with `is_seeking_` true, OnReadFromDemuxer(kind) makes no call
at all, so no Read on any stream, and changes no field, so both read-fired
flags are unchanged. -/
theorem read_suppressed_while_seeking (type : StreamType) (d : Delegate)
    (hseeking : d.is_seeking_ = true) :
    OnReadFromDemuxer type d = (d, []) ∧
    (∀ kind, readCalls kind (OnReadFromDemuxer type d).2 = []) ∧
    (OnReadFromDemuxer type d).1.is_audio_read_fired_ = d.is_audio_read_fired_ ∧
    (OnReadFromDemuxer type d).1.is_video_read_fired_ = d.is_video_read_fired_ := by
  have h : OnReadFromDemuxer type d = (d, []) := by simp [OnReadFromDemuxer, hseeking]
  simp [h, readCalls]

/-- C6 for an audio read request on a delegate that holds an audio stream and is
seeking. -/
theorem read_suppressed_while_seeking_witness :
    OnReadFromDemuxer StreamType.AUDIO
      { initializedDelegate with audio_stream_ := some StreamRef.chunk, is_seeking_ := true } =
      ({ initializedDelegate with audio_stream_ := some StreamRef.chunk, is_seeking_ := true },
       []) :=
  (read_suppressed_while_seeking StreamType.AUDIO
    { initializedDelegate with audio_stream_ := some StreamRef.chunk, is_seeking_ := true }
    rfl).1

/-- C5 (at most one outstanding read per stream) fails on the code: an init-done
callback clears the read-fired flag of its kind even when a Read of that kind
is outstanding. First run: an audio Read is requested before the audio
decrypting stream has been initialized; the failed initialization clears
`is_audio_read_fired_` and the next request issues a second Read on the same
stream. Second run: after readiness (audio negotiation failed, both streams
stay encrypted and unwrapped) an audio Read is outstanding when a video read
returns kConfigChanged; the re-negotiation runs the audio initialization again,
which clears the flag, and the next audio request issues a second Read. In both
runs two audio Reads are outstanding at the end. -/
theorem outstanding_reads_failing_input :
    outstandingReads (sampleDemuxer true false) StreamType.AUDIO
      [Op.GetDemuxerStreamInfo, Op.OnReadFromDemuxer StreamType.AUDIO, Op.SetCdm true true,
       Op.OnAudioDecryptingDemuxerStreamInitDone (PipelineStatus.error 1),
       Op.OnReadFromDemuxer StreamType.AUDIO] initializedDelegate = some 2 ∧
    (run (sampleDemuxer true true)
      [Op.GetDemuxerStreamInfo, Op.SetCdm true true,
       Op.OnAudioDecryptingDemuxerStreamInitDone (PipelineStatus.error 1),
       Op.OnReadFromDemuxer StreamType.AUDIO, Op.OnReadFromDemuxer StreamType.VIDEO,
       Op.OnBufferReady StreamType.VIDEO StreamStatus.kConfigChanged none,
       Op.SetCdm true true,
       Op.OnAudioDecryptingDemuxerStreamInitDone (PipelineStatus.error 1),
       Op.OnReadFromDemuxer StreamType.AUDIO] initializedDelegate).map
      (fun p => readCalls StreamType.AUDIO p.2) = some [StreamRef.chunk, StreamRef.chunk] ∧
    outstandingReads (sampleDemuxer true true) StreamType.AUDIO
      [Op.GetDemuxerStreamInfo, Op.SetCdm true true,
       Op.OnAudioDecryptingDemuxerStreamInitDone (PipelineStatus.error 1),
       Op.OnReadFromDemuxer StreamType.AUDIO, Op.OnReadFromDemuxer StreamType.VIDEO,
       Op.OnBufferReady StreamType.VIDEO StreamStatus.kConfigChanged none,
       Op.SetCdm true true,
       Op.OnAudioDecryptingDemuxerStreamInitDone (PipelineStatus.error 1),
       Op.OnReadFromDemuxer StreamType.AUDIO] initializedDelegate = some 2 := by
  refine ⟨?_, ?_, ?_⟩ <;> rfl

/-! ### Readiness -/

theorem mem_dcheck (e : Event) (c : Check) (b : Bool) :
    e ∈ dcheck c b ↔ (b = false ∧ e = Event.dcheckFailed c) := by
  cases b <;> simp [dcheck]

theorem readyCount_append (xs ys : List Event) :
    readyCount (xs ++ ys) = readyCount xs + readyCount ys := by
  induction xs with
  | nil => simp [readyCount]
  | cons e es ih =>
    cases e <;> simp [readyCount, ih]
    omega

theorem readyCount_dcheck (c : Check) (b : Bool) : readyCount (dcheck c b) = 0 := by
  cases b <;> rfl

theorem initCalls_append (xs ys : List Event) :
    initCalls (xs ++ ys) = initCalls xs ++ initCalls ys := by
  induction xs with
  | nil => rfl
  | cons e es ih => cases e <;> simp [initCalls, ih]

theorem initCalls_dcheck (c : Check) (b : Bool) : initCalls (dcheck c b) = [] := by
  cases b <;> rfl

theorem cdmAttachedPosts_append (xs ys : List Event) :
    cdmAttachedPosts (xs ++ ys) = cdmAttachedPosts xs ++ cdmAttachedPosts ys := by
  induction xs with
  | nil => rfl
  | cons e es ih => cases e <;> simp [cdmAttachedPosts, ih]

theorem cdmAttachedPosts_dcheck (c : Check) (b : Bool) : cdmAttachedPosts (dcheck c b) = [] := by
  cases b <;> rfl

theorem mem_initCalls (t : StreamType) (es : List Event) :
    Event.decryptingStreamInit t ∈ es ↔ t ∈ initCalls es := by
  induction es with
  | nil => simp [initCalls]
  | cons e es ih => cases e <;> simp [initCalls, ih]

/-- NotifyDemuxerReady with a client, a live demuxer and valid stream pointers,
one of them not null: it is defined, it sets `is_demuxer_ready_`, clears
`pending_cdm_attached_cb_` and changes no other field, and its calls are the
failed assertion (when `is_demuxer_ready_` was false), the post of the pending
CDM-attached callback (when there is one) and one DemuxerReady message. -/
theorem NotifyDemuxerReady_sends (env : Demuxer) (b : Bool) (d : Delegate)
    (hclient : d.demuxer_client_ = true) (hvalid : streamsValid env d = true)
    (hstream : d.audio_stream_.isSome = true ∨ d.video_stream_.isSome = true) :
    ∃ configs, NotifyDemuxerReady env b d =
        some ({ d with is_demuxer_ready_ := true, pending_cdm_attached_cb_ := false },
          dcheck Check.NotifyDemuxerReady_is_demuxer_ready d.is_demuxer_ready_ ++
          (if d.pending_cdm_attached_cb_ then [Event.postCdmAttached b] else []) ++
          [Event.DemuxerReady d.demuxer_client_id_ configs]) := by
  simp only [streamsValid, Bool.and_eq_true, Bool.or_eq_true] at hvalid
  obtain ⟨⟨hdemux, ha⟩, hv⟩ := hvalid
  cases hda : d.audio_stream_ with
  | none =>
    cases hdv : d.video_stream_ with
    | none => simp [hda, hdv] at hstream
    | some sv =>
      cases hev : env.video with
      | none => simp [hdv, hev] at hv
      | some cv =>
        cases sv <;>
          simp [NotifyDemuxerReady, hclient, hda, hdv, hev, fillAudioConfigs,
            fillVideoConfigs, video_decoder_config, GetStreamByType, hdemux]
  | some sa =>
    cases hea : env.audio with
    | none => simp [hda, hea] at ha
    | some ca =>
      cases hdv : d.video_stream_ with
      | none =>
        cases sa <;>
          simp [NotifyDemuxerReady, hclient, hda, hdv, hea, fillAudioConfigs,
            fillVideoConfigs, audio_decoder_config, GetStreamByType, hdemux]
      | some sv =>
        cases hev : env.video with
        | none => simp [hdv, hev] at hv
        | some cv =>
          cases sa <;> cases sv <;>
            simp [NotifyDemuxerReady, hclient, hda, hdv, hea, hev, fillAudioConfigs,
              fillVideoConfigs, audio_decoder_config, video_decoder_config, GetStreamByType,
              hdemux]

/-- What the calls of a readiness notification amount to: one DemuxerReady, no
initialization started, no CDM request, and the pending CDM-attached callback
posted with the argument of the notification when there was one. -/
theorem notifyEvents_facts (c : Check) (r p b : Bool) (id : Int) (configs : DemuxerConfigs) :
    readyCount (dcheck c r ++ (if p then [Event.postCdmAttached b] else []) ++
      [Event.DemuxerReady id configs]) = 1 ∧
    initCalls (dcheck c r ++ (if p then [Event.postCdmAttached b] else []) ++
      [Event.DemuxerReady id configs]) = [] ∧
    cdmAttachedPosts (dcheck c r ++ (if p then [Event.postCdmAttached b] else []) ++
      [Event.DemuxerReady id configs]) = (if p then [b] else []) ∧
    Event.runSetCdmReadyCb ∉ (dcheck c r ++ (if p then [Event.postCdmAttached b] else []) ++
      [Event.DemuxerReady id configs]) := by
  cases r <;> cases p <;> simp [dcheck, readyCount, initCalls, cdmAttachedPosts]

theorem streamsValid_withDemuxerStreams (env : Demuxer) (d : Delegate)
    (hdemux : d.chunk_demuxer_ = true) :
    streamsValid env (withDemuxerStreams env d) = true := by
  cases ha : env.audio <;> cases hv : env.video <;>
    simp [streamsValid, withDemuxerStreams, hdemux, ha, hv]

theorem audioStreamIsEncrypted_withDemuxerStreams (env : Demuxer) (d : Delegate) :
    audioStreamIsEncrypted env (withDemuxerStreams env d) = some env.audioEncrypted := by
  cases ha : env.audio <;>
    simp [audioStreamIsEncrypted, withDemuxerStreams, Demuxer.audioEncrypted, ha,
      audio_decoder_config]

theorem videoStreamIsEncrypted_withDemuxerStreams (env : Demuxer) (d : Delegate) :
    videoStreamIsEncrypted env (withDemuxerStreams env d) = some env.videoEncrypted := by
  cases hv : env.video <;>
    simp [videoStreamIsEncrypted, withDemuxerStreams, Demuxer.videoEncrypted, hv,
      video_decoder_config]

theorem HasEncryptedStream_withDemuxerStreams (env : Demuxer) (d : Delegate) :
    HasEncryptedStream env (withDemuxerStreams env d) =
      some (env.audioEncrypted || env.videoEncrypted) := by
  simp only [HasEncryptedStream, audioStreamIsEncrypted_withDemuxerStreams,
    videoStreamIsEncrypted_withDemuxerStreams]
  cases env.audioEncrypted <;> simp

/-- GetDemuxerStreamInfo on a live demuxer, in terms of the fields after the
stream lookup. -/
theorem GetDemuxerStreamInfo_eq (env : Demuxer) (d : Delegate)
    (hdemux : d.chunk_demuxer_ = true) :
    GetDemuxerStreamInfo env d =
      if (env.audioEncrypted || env.videoEncrypted) = true then
        if d.set_cdm_ready_cb_ = true then
          some (withDemuxerStreams env d,
            dcheck Check.GetDemuxerStreamInfo_streams (env.audio.isSome || env.video.isSome) ++
            HasEncryptedStream_dcheck (withDemuxerStreams env d) ++ [Event.runSetCdmReadyCb])
        else none
      else
        Result.after
          (dcheck Check.GetDemuxerStreamInfo_streams (env.audio.isSome || env.video.isSome) ++
            HasEncryptedStream_dcheck (withDemuxerStreams env d))
          (NotifyDemuxerReady env false (withDemuxerStreams env d)) := by
  have h := HasEncryptedStream_withDemuxerStreams env d
  unfold GetDemuxerStreamInfo
  simp only [GetStreamByType, if_pos hdemux]
  change (match HasEncryptedStream env (withDemuxerStreams env d) with
    | none => none
    | some true => _
    | some false => _) = _
  rw [h]
  cases env.audioEncrypted <;> cases env.videoEncrypted <;>
    simp [withDemuxerStreams, Option.isSome_map']

/-- SetCdm when the audio stream is encrypted: only the audio initialization is
started. -/
theorem SetCdm_audio (env : Demuxer) (c cb : Bool) (d : Delegate)
    (ha : audioStreamIsEncrypted env d = some true) :
    ∃ es, SetCdm env c cb d =
        some ({ d with cdm_context_ := c, pending_cdm_attached_cb_ := cb,
                       audio_decrypting_demuxer_stream_ := true }, es) ∧
      readyCount es = 0 ∧ initCalls es = [StreamType.AUDIO] ∧ cdmAttachedPosts es = [] := by
  simp only [audioStreamIsEncrypted] at ha
  simp only [SetCdm, audioStreamIsEncrypted, ha, InitAudioDecryptingDemuxerStream]
  refine ⟨_, rfl, ?_, ?_, ?_⟩
  · simp [readyCount_append, readyCount_dcheck, readyCount, HasEncryptedStream_dcheck]
  · simp [initCalls_append, initCalls_dcheck, initCalls, HasEncryptedStream_dcheck]
  · simp [cdmAttachedPosts_append, cdmAttachedPosts_dcheck, cdmAttachedPosts,
      HasEncryptedStream_dcheck]

/-- SetCdm when only the video stream is encrypted: the video initialization is
started. -/
theorem SetCdm_video (env : Demuxer) (c cb : Bool) (d : Delegate)
    (ha : audioStreamIsEncrypted env d = some false)
    (hv : videoStreamIsEncrypted env d = some true) :
    ∃ es, SetCdm env c cb d =
        some ({ d with cdm_context_ := c, pending_cdm_attached_cb_ := cb,
                       video_decrypting_demuxer_stream_ := true }, es) ∧
      readyCount es = 0 ∧ initCalls es = [StreamType.VIDEO] ∧ cdmAttachedPosts es = [] := by
  simp only [audioStreamIsEncrypted] at ha
  simp only [videoStreamIsEncrypted] at hv
  simp only [SetCdm, audioStreamIsEncrypted, videoStreamIsEncrypted, ha, hv,
    InitVideoDecryptingDemuxerStream]
  refine ⟨_, rfl, ?_, ?_, ?_⟩
  · simp [readyCount_append, readyCount_dcheck, readyCount, HasEncryptedStream_dcheck]
  · simp [initCalls_append, initCalls_dcheck, initCalls, HasEncryptedStream_dcheck]
  · simp [cdmAttachedPosts_append, cdmAttachedPosts_dcheck, cdmAttachedPosts,
      HasEncryptedStream_dcheck]

/-- A handle whose config is encrypted is the demuxer's own stream, not a
wrapper. -/
theorem audio_own_of_encrypted (env : Demuxer) (d : Delegate)
    (h : audioStreamIsEncrypted env d = some true) :
    d.audio_stream_ ≠ some StreamRef.decrypting := by
  intro hs
  simp [audioStreamIsEncrypted, hs, audio_decoder_config] at h

theorem video_own_of_encrypted (env : Demuxer) (d : Delegate)
    (h : videoStreamIsEncrypted env d = some true) :
    d.video_stream_ ≠ some StreamRef.decrypting := by
  intro hs
  simp [videoStreamIsEncrypted, hs, video_decoder_config] at h

/-- The audio init-done callback after a failed initialization: the wrapper is
dropped, the stream pointers stay, and readiness is notified with `false`
whether or not the video stream is encrypted. -/
theorem OnAudioInitDone_failed (env : Demuxer) (status : PipelineStatus) (d : Delegate)
    (hstatus : status ≠ PipelineStatus.PIPELINE_OK)
    (hclient : d.demuxer_client_ = true) (hvalid : streamsValid env d = true)
    (hstream : d.audio_stream_.isSome = true ∨ d.video_stream_.isSome = true)
    (hown : d.audio_stream_ ≠ some StreamRef.decrypting) :
    ∃ es, OnAudioDecryptingDemuxerStreamInitDone env status d =
        some ({ d with is_audio_read_fired_ := false
                       audio_decrypting_demuxer_stream_ := false
                       is_demuxer_ready_ := true
                       pending_cdm_attached_cb_ := false }, es) ∧
      readyCount es = 1 ∧ initCalls es = [] ∧
      cdmAttachedPosts es = (if d.pending_cdm_attached_cb_ then [false] else []) := by
  obtain ⟨configs, hn⟩ := NotifyDemuxerReady_sends env false
    ({ d with is_audio_read_fired_ := false, audio_decrypting_demuxer_stream_ := false })
    hclient hvalid hstream
  obtain ⟨f1, f2, f3, _⟩ := notifyEvents_facts Check.NotifyDemuxerReady_is_demuxer_ready
    d.is_demuxer_ready_ d.pending_cdm_attached_cb_ false d.demuxer_client_id_ configs
  simp only [OnAudioDecryptingDemuxerStreamInitDone, hstatus, ne_eq, not_false_eq_true,
    if_true, hown, false_and, if_false, hn, Result.after_some]
  refine ⟨_, rfl, ?_, ?_, ?_⟩
  · simp only [readyCount_append, readyCount_dcheck] at f1 ⊢
    simpa using f1
  · simp only [initCalls_append, initCalls_dcheck] at f2 ⊢
    simpa using f2
  · simp only [cdmAttachedPosts_append, cdmAttachedPosts_dcheck] at f3 ⊢
    simpa using f3

/-- The audio init-done callback after a successful initialization when the video
stream is encrypted: the audio pointer becomes the wrapper, the video
initialization is started and no readiness is notified. -/
theorem OnAudioInitDone_ok_video (env : Demuxer) (d : Delegate)
    (hv : videoStreamIsEncrypted env d = some true) :
    ∃ es, OnAudioDecryptingDemuxerStreamInitDone env PipelineStatus.PIPELINE_OK d =
        some ({ d with is_audio_read_fired_ := false
                       audio_stream_ :=
                         if d.audio_decrypting_demuxer_stream_ then some StreamRef.decrypting
                         else none
                       video_decrypting_demuxer_stream_ := true }, es) ∧
      readyCount es = 0 ∧ initCalls es = [StreamType.VIDEO] ∧ cdmAttachedPosts es = [] := by
  simp only [videoStreamIsEncrypted] at hv
  simp only [OnAudioDecryptingDemuxerStreamInitDone, ne_eq, not_true_eq_false, if_false,
    videoStreamIsEncrypted, hv, InitVideoDecryptingDemuxerStream]
  refine ⟨_, rfl, ?_, ?_, ?_⟩
  · simp [readyCount_append, readyCount_dcheck, readyCount]
  · simp [initCalls_append, initCalls_dcheck, initCalls]
  · simp [cdmAttachedPosts_append, cdmAttachedPosts_dcheck, cdmAttachedPosts]

/-- The audio init-done callback after a successful initialization when the video
stream is absent or not encrypted: the audio pointer becomes the wrapper and
readiness is notified with `true`. -/
theorem OnAudioInitDone_ok_novideo (env : Demuxer) (d : Delegate)
    (hv : videoStreamIsEncrypted env d = some false)
    (hclient : d.demuxer_client_ = true) (hvalid : streamsValid env d = true)
    (haudio : d.audio_stream_.isSome = true)
    (hdds : d.audio_decrypting_demuxer_stream_ = true) :
    ∃ es, OnAudioDecryptingDemuxerStreamInitDone env PipelineStatus.PIPELINE_OK d =
        some ({ d with is_audio_read_fired_ := false
                       audio_stream_ := some StreamRef.decrypting
                       is_demuxer_ready_ := true
                       pending_cdm_attached_cb_ := false }, es) ∧
      readyCount es = 1 ∧ initCalls es = [] ∧
      cdmAttachedPosts es = (if d.pending_cdm_attached_cb_ then [true] else []) := by
  have hvalid2 : streamsValid env
      ({ d with is_audio_read_fired_ := false, audio_stream_ := some StreamRef.decrypting }) =
      true := by
    simp only [streamsValid, Bool.and_eq_true, Bool.or_eq_true] at hvalid ⊢
    obtain ⟨⟨h1, h2⟩, h3⟩ := hvalid
    refine ⟨⟨h1, Or.inr ?_⟩, h3⟩
    rcases h2 with h2 | h2
    · simp [Option.isNone_iff_eq_none] at h2
      simp [h2] at haudio
    · exact h2
  obtain ⟨configs, hn⟩ := NotifyDemuxerReady_sends env true
    ({ d with is_audio_read_fired_ := false, audio_stream_ := some StreamRef.decrypting })
    hclient hvalid2 (Or.inl rfl)
  obtain ⟨f1, f2, f3, _⟩ := notifyEvents_facts Check.NotifyDemuxerReady_is_demuxer_ready
    d.is_demuxer_ready_ d.pending_cdm_attached_cb_ true d.demuxer_client_id_ configs
  simp only [videoStreamIsEncrypted] at hv
  simp only [OnAudioDecryptingDemuxerStreamInitDone, ne_eq, not_true_eq_false, if_false,
    videoStreamIsEncrypted, hv, if_pos hdds, hn, Result.after_some]
  refine ⟨_, rfl, ?_, ?_, ?_⟩
  · simp only [readyCount_append, readyCount_dcheck] at f1 ⊢
    simpa using f1
  · simp only [initCalls_append, initCalls_dcheck] at f2 ⊢
    simpa using f2
  · simp only [cdmAttachedPosts_append, cdmAttachedPosts_dcheck] at f3 ⊢
    simpa using f3

/-- The video init-done callback after a successful initialization: the video
pointer becomes the wrapper and readiness is notified with `true`. -/
theorem OnVideoInitDone_ok (env : Demuxer) (d : Delegate)
    (hclient : d.demuxer_client_ = true) (hvalid : streamsValid env d = true)
    (hvideo : d.video_stream_.isSome = true)
    (hdds : d.video_decrypting_demuxer_stream_ = true) :
    ∃ es, OnVideoDecryptingDemuxerStreamInitDone env PipelineStatus.PIPELINE_OK d =
        some ({ d with is_video_read_fired_ := false
                       video_stream_ := some StreamRef.decrypting
                       is_demuxer_ready_ := true
                       pending_cdm_attached_cb_ := false }, es) ∧
      readyCount es = 1 ∧ initCalls es = [] ∧
      cdmAttachedPosts es = (if d.pending_cdm_attached_cb_ then [true] else []) := by
  have hvalid2 : streamsValid env
      ({ d with is_video_read_fired_ := false, video_stream_ := some StreamRef.decrypting }) =
      true := by
    simp only [streamsValid, Bool.and_eq_true, Bool.or_eq_true] at hvalid ⊢
    obtain ⟨⟨h1, h2⟩, h3⟩ := hvalid
    refine ⟨⟨h1, h2⟩, Or.inr ?_⟩
    rcases h3 with h3 | h3
    · simp [Option.isNone_iff_eq_none] at h3
      simp [h3] at hvideo
    · exact h3
  obtain ⟨configs, hn⟩ := NotifyDemuxerReady_sends env true
    ({ d with is_video_read_fired_ := false, video_stream_ := some StreamRef.decrypting })
    hclient hvalid2 (Or.inr rfl)
  obtain ⟨f1, f2, f3, _⟩ := notifyEvents_facts Check.NotifyDemuxerReady_is_demuxer_ready
    d.is_demuxer_ready_ d.pending_cdm_attached_cb_ true d.demuxer_client_id_ configs
  simp only [OnVideoDecryptingDemuxerStreamInitDone, decide_True, Bool.not_true,
    Bool.false_eq_true, if_false, if_pos hdds, hn, Result.after_some]
  refine ⟨_, rfl, ?_, ?_, ?_⟩
  · simp only [readyCount_append, readyCount_dcheck] at f1 ⊢
    simpa using f1
  · simp only [initCalls_append, initCalls_dcheck] at f2 ⊢
    simpa using f2
  · simp only [cdmAttachedPosts_append, cdmAttachedPosts_dcheck] at f3 ⊢
    simpa using f3

/-- The video init-done callback after a failed initialization: the wrapper is
dropped, the stream pointers stay and readiness is notified with `false`. -/
theorem OnVideoInitDone_failed (env : Demuxer) (status : PipelineStatus) (d : Delegate)
    (hstatus : status ≠ PipelineStatus.PIPELINE_OK)
    (hclient : d.demuxer_client_ = true) (hvalid : streamsValid env d = true)
    (hstream : d.audio_stream_.isSome = true ∨ d.video_stream_.isSome = true)
    (hown : d.video_stream_ ≠ some StreamRef.decrypting) :
    ∃ es, OnVideoDecryptingDemuxerStreamInitDone env status d =
        some ({ d with is_video_read_fired_ := false
                       video_decrypting_demuxer_stream_ := false
                       is_demuxer_ready_ := true
                       pending_cdm_attached_cb_ := false }, es) ∧
      readyCount es = 1 ∧ initCalls es = [] ∧
      cdmAttachedPosts es = (if d.pending_cdm_attached_cb_ then [false] else []) := by
  obtain ⟨configs, hn⟩ := NotifyDemuxerReady_sends env false
    ({ d with is_video_read_fired_ := false, video_decrypting_demuxer_stream_ := false })
    hclient hvalid hstream
  obtain ⟨f1, f2, f3, _⟩ := notifyEvents_facts Check.NotifyDemuxerReady_is_demuxer_ready
    d.is_demuxer_ready_ d.pending_cdm_attached_cb_ false d.demuxer_client_id_ configs
  have hdec : decide (status = PipelineStatus.PIPELINE_OK) = false := by simp [hstatus]
  simp only [OnVideoDecryptingDemuxerStreamInitDone, hdec, Bool.not_false, if_true, hown,
    false_and, if_false, hn, Result.after_some]
  refine ⟨_, rfl, ?_, ?_, ?_⟩
  · simp only [readyCount_append, readyCount_dcheck] at f1 ⊢
    simpa using f1
  · simp only [initCalls_append, initCalls_dcheck] at f2 ⊢
    simpa using f2
  · simp only [cdmAttachedPosts_append, cdmAttachedPosts_dcheck] at f3 ⊢
    simpa using f3

theorem audio_isSome_of_audioEncrypted (env : Demuxer) (h : env.audioEncrypted = true) :
    env.audio.isSome = true := by
  cases ha : env.audio <;> simp [Demuxer.audioEncrypted, ha] at h ⊢

theorem video_isSome_of_videoEncrypted (env : Demuxer) (h : env.videoEncrypted = true) :
    env.video.isSome = true := by
  cases hv : env.video <;> simp [Demuxer.videoEncrypted, hv] at h ⊢

/-- The outcome of an initialization run with no encrypted stream. -/
theorem initializationRun_clear (env : Demuxer) (c cb : Bool) (sa sv : PipelineStatus)
    (d : Delegate) (hclient : d.demuxer_client_ = true) (hdemux : d.chunk_demuxer_ = true)
    (hstream : env.audio.isSome = true ∨ env.video.isSome = true)
    (ha : env.audioEncrypted = false) (hv : env.videoEncrypted = false) :
    ∃ d2 es, initializationRun env c cb sa sv d =
        some (d2, [(InitCall.GetDemuxerStreamInfo, es)]) ∧
      readyCount es = 1 ∧ initCalls es = [] ∧
      cdmAttachedPosts es = (if d.pending_cdm_attached_cb_ then [false] else []) := by
  obtain ⟨configs, hn⟩ := NotifyDemuxerReady_sends env false (withDemuxerStreams env d)
    hclient (streamsValid_withDemuxerStreams env d hdemux)
    (by simpa [withDemuxerStreams] using hstream)
  obtain ⟨f1, f2, f3, f4⟩ := notifyEvents_facts Check.NotifyDemuxerReady_is_demuxer_ready
    d.is_demuxer_ready_ d.pending_cdm_attached_cb_ false d.demuxer_client_id_ configs
  have hg := GetDemuxerStreamInfo_eq env d hdemux
  simp only [ha, hv, Bool.or_false, Bool.false_eq_true, if_false, hn, Result.after_some] at hg
  have hmem : Event.runSetCdmReadyCb ∉
      (dcheck Check.GetDemuxerStreamInfo_streams (env.audio.isSome || env.video.isSome) ++
        HasEncryptedStream_dcheck (withDemuxerStreams env d) ++
      (dcheck Check.NotifyDemuxerReady_is_demuxer_ready
          (withDemuxerStreams env d).is_demuxer_ready_ ++
        (if (withDemuxerStreams env d).pending_cdm_attached_cb_ = true then
          [Event.postCdmAttached false] else []) ++
        [Event.DemuxerReady (withDemuxerStreams env d).demuxer_client_id_ configs])) := by
    intro hmem
    rw [List.mem_append] at hmem
    rcases hmem with hmem | hmem
    · simp [mem_dcheck, HasEncryptedStream_dcheck] at hmem
    · exact f4 hmem
  simp only [initializationRun, hg, if_neg hmem]
  refine ⟨_, _, rfl, ?_, ?_, ?_⟩
  · rw [readyCount_append]
    simp only [readyCount_append, readyCount_dcheck, HasEncryptedStream_dcheck] at f1 ⊢
    simpa [withDemuxerStreams] using f1
  · rw [initCalls_append]
    simp only [initCalls_append, initCalls_dcheck, HasEncryptedStream_dcheck] at f2 ⊢
    simpa [withDemuxerStreams] using f2
  · rw [cdmAttachedPosts_append]
    simp only [cdmAttachedPosts_append, cdmAttachedPosts_dcheck, HasEncryptedStream_dcheck]
      at f3 ⊢
    simpa [withDemuxerStreams] using f3

/-- The start of an initialization run with an encrypted stream: GetDemuxerStreamInfo
asks for a CDM and sends nothing else. -/
theorem GetDemuxerStreamInfo_encrypted (env : Demuxer) (d : Delegate)
    (hdemux : d.chunk_demuxer_ = true) (hcb : d.set_cdm_ready_cb_ = true)
    (henc : (env.audioEncrypted || env.videoEncrypted) = true) :
    ∃ es, GetDemuxerStreamInfo env d = some (withDemuxerStreams env d, es) ∧
      Event.runSetCdmReadyCb ∈ es ∧ readyCount es = 0 ∧ initCalls es = [] ∧
      cdmAttachedPosts es = [] := by
  have hg := GetDemuxerStreamInfo_eq env d hdemux
  simp only [henc, if_true, hcb] at hg
  refine ⟨_, hg, by simp, ?_, ?_, ?_⟩
  · simp [readyCount_append, readyCount_dcheck, HasEncryptedStream_dcheck, readyCount]
  · simp [initCalls_append, initCalls_dcheck, HasEncryptedStream_dcheck, initCalls]
  · simp [cdmAttachedPosts_append, cdmAttachedPosts_dcheck, HasEncryptedStream_dcheck,
      cdmAttachedPosts]

theorem audio_isSome_of_encrypted (env : Demuxer) (d : Delegate)
    (h : audioStreamIsEncrypted env d = some true) : d.audio_stream_.isSome = true := by
  cases ha : d.audio_stream_ <;> simp [audioStreamIsEncrypted, ha] at h ⊢

theorem video_isSome_of_encrypted (env : Demuxer) (d : Delegate)
    (h : videoStreamIsEncrypted env d = some true) : d.video_stream_.isSome = true := by
  cases hv : d.video_stream_ <;> simp [videoStreamIsEncrypted, hv] at h ⊢

/-- The video init-done callback with any status, after the video initialization
was started on the demuxer's video stream: readiness is notified, with `true`
exactly on PIPELINE_OK. -/
theorem OnVideoInitDone_any (env : Demuxer) (status : PipelineStatus) (d : Delegate)
    (hclient : d.demuxer_client_ = true) (hvalid : streamsValid env d = true)
    (hvideo : d.video_stream_.isSome = true)
    (hdds : d.video_decrypting_demuxer_stream_ = true)
    (hown : d.video_stream_ ≠ some StreamRef.decrypting) :
    ∃ d2 es, OnVideoDecryptingDemuxerStreamInitDone env status d = some (d2, es) ∧
      readyCount es = 1 ∧ initCalls es = [] ∧
      cdmAttachedPosts es =
        (if d.pending_cdm_attached_cb_ then [decide (status = PipelineStatus.PIPELINE_OK)]
         else []) := by
  by_cases hs : status = PipelineStatus.PIPELINE_OK
  · subst hs
    obtain ⟨es, h, f1, f2, f3⟩ := OnVideoInitDone_ok env d hclient hvalid hvideo hdds
    exact ⟨_, es, h, f1, f2, by simpa using f3⟩
  · obtain ⟨es, h, f1, f2, f3⟩ :=
      OnVideoInitDone_failed env status d hs hclient hvalid (Or.inr hvideo) hown
    exact ⟨_, es, h, f1, f2, by simpa [hs] using f3⟩

/-- Negotiation when the audio stream is encrypted and its initialization fails:
SetCdm starts the audio initialization and the audio init-done callback
notifies readiness; no video initialization is started, encrypted or not. -/
theorem negotiation_audio_failed (env : Demuxer) (c cb : Bool) (sa sv : PipelineStatus)
    (d : Delegate) (hclient : d.demuxer_client_ = true) (hvalid : streamsValid env d = true)
    (ha : audioStreamIsEncrypted env d = some true)
    (hsa : sa ≠ PipelineStatus.PIPELINE_OK) :
    ∃ d2 es2 d3 es3, SetCdm env c cb d = some (d2, es2) ∧
      readyCount es2 = 0 ∧ initCalls es2 = [StreamType.AUDIO] ∧ cdmAttachedPosts es2 = [] ∧
      initDoneCallbacks env sa sv d2 es2 =
        some (d3, [(InitCall.OnAudioDecryptingDemuxerStreamInitDone, es3)]) ∧
      readyCount es3 = 1 ∧ initCalls es3 = [] ∧
      cdmAttachedPosts es3 = (if cb then [false] else []) := by
  obtain ⟨es2, h2, f1, f2, f3⟩ := SetCdm_audio env c cb d ha
  obtain ⟨d3, es3, h3, g1, g2, g3⟩ : ∃ d3 es3,
      OnAudioDecryptingDemuxerStreamInitDone env sa
        ({ d with cdm_context_ := c, pending_cdm_attached_cb_ := cb,
                  audio_decrypting_demuxer_stream_ := true }) = some (d3, es3) ∧
      readyCount es3 = 1 ∧ initCalls es3 = [] ∧
      cdmAttachedPosts es3 = (if cb then [false] else []) := by
    obtain ⟨es3, h3, g⟩ := OnAudioInitDone_failed env sa
      ({ d with cdm_context_ := c, pending_cdm_attached_cb_ := cb,
                audio_decrypting_demuxer_stream_ := true })
      hsa hclient hvalid (Or.inl (audio_isSome_of_encrypted env d ha))
      (audio_own_of_encrypted env d ha)
    exact ⟨_, es3, h3, g⟩
  have m1 : Event.decryptingStreamInit StreamType.AUDIO ∈ es2 := by
    rw [mem_initCalls, f2]; simp
  have m2 : Event.decryptingStreamInit StreamType.VIDEO ∉ es3 := by
    rw [mem_initCalls, g2]; simp
  refine ⟨_, es2, d3, es3, h2, f1, f2, f3, ?_, g1, g2, g3⟩
  simp only [initDoneCallbacks, if_pos m1, h3, if_neg m2]

/-- Negotiation when the audio stream is encrypted, its initialization succeeds
and the video stream is absent or not encrypted. -/
theorem negotiation_audio_only (env : Demuxer) (c cb : Bool) (sv : PipelineStatus)
    (d : Delegate) (hclient : d.demuxer_client_ = true) (hvalid : streamsValid env d = true)
    (ha : audioStreamIsEncrypted env d = some true)
    (hv : videoStreamIsEncrypted env d = some false) :
    ∃ d2 es2 d3 es3, SetCdm env c cb d = some (d2, es2) ∧
      readyCount es2 = 0 ∧ initCalls es2 = [StreamType.AUDIO] ∧ cdmAttachedPosts es2 = [] ∧
      initDoneCallbacks env PipelineStatus.PIPELINE_OK sv d2 es2 =
        some (d3, [(InitCall.OnAudioDecryptingDemuxerStreamInitDone, es3)]) ∧
      readyCount es3 = 1 ∧ initCalls es3 = [] ∧
      cdmAttachedPosts es3 = (if cb then [true] else []) := by
  obtain ⟨es2, h2, f1, f2, f3⟩ := SetCdm_audio env c cb d ha
  obtain ⟨d3, es3, h3, g1, g2, g3⟩ : ∃ d3 es3,
      OnAudioDecryptingDemuxerStreamInitDone env PipelineStatus.PIPELINE_OK
        ({ d with cdm_context_ := c, pending_cdm_attached_cb_ := cb,
                  audio_decrypting_demuxer_stream_ := true }) = some (d3, es3) ∧
      readyCount es3 = 1 ∧ initCalls es3 = [] ∧
      cdmAttachedPosts es3 = (if cb then [true] else []) := by
    obtain ⟨es3, h3, g⟩ := OnAudioInitDone_ok_novideo env
      ({ d with cdm_context_ := c, pending_cdm_attached_cb_ := cb,
                audio_decrypting_demuxer_stream_ := true })
      hv hclient hvalid (audio_isSome_of_encrypted env d ha) rfl
    exact ⟨_, es3, h3, g⟩
  have m1 : Event.decryptingStreamInit StreamType.AUDIO ∈ es2 := by
    rw [mem_initCalls, f2]; simp
  have m2 : Event.decryptingStreamInit StreamType.VIDEO ∉ es3 := by
    rw [mem_initCalls, g2]; simp
  refine ⟨_, es2, d3, es3, h2, f1, f2, f3, ?_, g1, g2, g3⟩
  simp only [initDoneCallbacks, if_pos m1, h3, if_neg m2]

/-- Negotiation when both streams are encrypted and the audio initialization
succeeds: SetCdm starts only the audio initialization, the audio init-done
callback starts the video initialization and notifies nothing, and the video
init-done callback notifies readiness. -/
theorem negotiation_both (env : Demuxer) (c cb : Bool) (sv : PipelineStatus)
    (d : Delegate) (hclient : d.demuxer_client_ = true) (hvalid : streamsValid env d = true)
    (ha : audioStreamIsEncrypted env d = some true)
    (hv : videoStreamIsEncrypted env d = some true) :
    ∃ d2 es2 d3 es3 es4, SetCdm env c cb d = some (d2, es2) ∧
      readyCount es2 = 0 ∧ initCalls es2 = [StreamType.AUDIO] ∧ cdmAttachedPosts es2 = [] ∧
      initDoneCallbacks env PipelineStatus.PIPELINE_OK sv d2 es2 =
        some (d3, [(InitCall.OnAudioDecryptingDemuxerStreamInitDone, es3),
                   (InitCall.OnVideoDecryptingDemuxerStreamInitDone, es4)]) ∧
      readyCount es3 = 0 ∧ initCalls es3 = [StreamType.VIDEO] ∧ cdmAttachedPosts es3 = [] ∧
      readyCount es4 = 1 ∧ initCalls es4 = [] ∧
      cdmAttachedPosts es4 =
        (if cb then [decide (sv = PipelineStatus.PIPELINE_OK)] else []) := by
  obtain ⟨es2, h2, f1, f2, f3⟩ := SetCdm_audio env c cb d ha
  obtain ⟨d3, es3, h3, g1, g2, g3, p1, p2, p3, p4, p5, p6⟩ : ∃ d3 es3,
      OnAudioDecryptingDemuxerStreamInitDone env PipelineStatus.PIPELINE_OK
        ({ d with cdm_context_ := c, pending_cdm_attached_cb_ := cb,
                  audio_decrypting_demuxer_stream_ := true }) = some (d3, es3) ∧
      readyCount es3 = 0 ∧ initCalls es3 = [StreamType.VIDEO] ∧ cdmAttachedPosts es3 = [] ∧
      d3.demuxer_client_ = true ∧ streamsValid env d3 = true ∧
      d3.video_stream_.isSome = true ∧ d3.video_decrypting_demuxer_stream_ = true ∧
      d3.pending_cdm_attached_cb_ = cb ∧
      d3.video_stream_ ≠ some StreamRef.decrypting := by
    obtain ⟨es3, h3, g⟩ := OnAudioInitDone_ok_video env
      ({ d with cdm_context_ := c, pending_cdm_attached_cb_ := cb,
                audio_decrypting_demuxer_stream_ := true }) hv
    refine ⟨_, es3, h3, g.1, g.2.1, g.2.2, hclient, ?_,
      video_isSome_of_encrypted env d hv, rfl, rfl, video_own_of_encrypted env d hv⟩
    have haud := audio_isSome_of_encrypted env d ha
    simp only [streamsValid, Bool.and_eq_true, Bool.or_eq_true] at hvalid ⊢
    obtain ⟨⟨k1, k2⟩, k3⟩ := hvalid
    refine ⟨⟨k1, Or.inr ?_⟩, k3⟩
    rcases k2 with k2 | k2
    · simp [Option.isNone_iff_eq_none] at k2
      simp [k2] at haud
    · exact k2
  obtain ⟨d4, es4, h4, k1, k2, k3⟩ := OnVideoInitDone_any env sv d3 p1 p2 p3 p4 p6
  have m1 : Event.decryptingStreamInit StreamType.AUDIO ∈ es2 := by
    rw [mem_initCalls, f2]; simp
  have m2 : Event.decryptingStreamInit StreamType.VIDEO ∈ es3 := by
    rw [mem_initCalls, g2]; simp
  rw [p5] at k3
  refine ⟨_, es2, d4, es3, es4, h2, f1, f2, f3, ?_, g1, g2, g3, k1, k2, k3⟩
  simp only [initDoneCallbacks, if_pos m1, h3, if_pos m2, h4]

/-- Negotiation when only the video stream is encrypted. -/
theorem negotiation_video_only (env : Demuxer) (c cb : Bool) (sa sv : PipelineStatus)
    (d : Delegate) (hclient : d.demuxer_client_ = true) (hvalid : streamsValid env d = true)
    (ha : audioStreamIsEncrypted env d = some false)
    (hv : videoStreamIsEncrypted env d = some true) :
    ∃ d2 es2 d3 es4, SetCdm env c cb d = some (d2, es2) ∧
      readyCount es2 = 0 ∧ initCalls es2 = [StreamType.VIDEO] ∧ cdmAttachedPosts es2 = [] ∧
      initDoneCallbacks env sa sv d2 es2 =
        some (d3, [(InitCall.OnVideoDecryptingDemuxerStreamInitDone, es4)]) ∧
      readyCount es4 = 1 ∧ initCalls es4 = [] ∧
      cdmAttachedPosts es4 =
        (if cb then [decide (sv = PipelineStatus.PIPELINE_OK)] else []) := by
  obtain ⟨es2, h2, f1, f2, f3⟩ := SetCdm_video env c cb d ha hv
  obtain ⟨d4, es4, h4, k1, k2, k3⟩ := OnVideoInitDone_any env sv
    ({ d with cdm_context_ := c, pending_cdm_attached_cb_ := cb,
              video_decrypting_demuxer_stream_ := true })
    hclient hvalid (video_isSome_of_encrypted env d hv) rfl
    (video_own_of_encrypted env d hv)
  simp only at k3
  have m1 : Event.decryptingStreamInit StreamType.AUDIO ∉ es2 := by
    rw [mem_initCalls, f2]; simp
  have m2 : Event.decryptingStreamInit StreamType.VIDEO ∈ es2 := by
    rw [mem_initCalls, f2]; simp
  refine ⟨_, es2, d4, es4, h2, f1, f2, f3, ?_, k1, k2, k3⟩
  simp only [initDoneCallbacks, if_neg m1, if_pos m2, h4]

/-- The outcome of every initialization run: exactly one DemuxerReady is sent; it
is sent by GetDemuxerStreamInfo when no stream is encrypted, by the video
init-done callback when the video initialization was started, and by the audio
init-done callback otherwise; the video initialization is started exactly when
the video stream is encrypted and the audio stream is not encrypted or its
initialization succeeded. -/
theorem initializationRun_outcome (env : Demuxer) (c cb : Bool) (sa sv : PipelineStatus)
    (d : Delegate) (hclient : d.demuxer_client_ = true) (hdemux : d.chunk_demuxer_ = true)
    (hcb : d.set_cdm_ready_cb_ = true)
    (hstream : env.audio.isSome = true ∨ env.video.isSome = true) :
    ∃ d2 calls, initializationRun env c cb sa sv d = some (d2, calls) ∧
      readyCount (allEvents calls) = 1 ∧
      readySenders calls =
        [if env.audioEncrypted then
           (if sa = PipelineStatus.PIPELINE_OK ∧ env.videoEncrypted = true then
              InitCall.OnVideoDecryptingDemuxerStreamInitDone
            else InitCall.OnAudioDecryptingDemuxerStreamInitDone)
         else if env.videoEncrypted then InitCall.OnVideoDecryptingDemuxerStreamInitDone
         else InitCall.GetDemuxerStreamInfo] ∧
      initCalls (allEvents calls) =
        (if env.audioEncrypted then
           (if sa = PipelineStatus.PIPELINE_OK ∧ env.videoEncrypted = true then
              [StreamType.AUDIO, StreamType.VIDEO]
            else [StreamType.AUDIO])
         else if env.videoEncrypted then [StreamType.VIDEO]
         else []) := by
  have hvalid := streamsValid_withDemuxerStreams env d hdemux
  have hae := audioStreamIsEncrypted_withDemuxerStreams env d
  have hve := videoStreamIsEncrypted_withDemuxerStreams env d
  have hclient1 : (withDemuxerStreams env d).demuxer_client_ = true := hclient
  by_cases henc : (env.audioEncrypted || env.videoEncrypted) = true
  · obtain ⟨es1, h1, mem1, r1, i1, _⟩ := GetDemuxerStreamInfo_encrypted env d hdemux hcb henc
    cases ha : env.audioEncrypted
    · have hv : env.videoEncrypted = true := by simpa [ha] using henc
      rw [ha] at hae
      rw [hv] at hve
      obtain ⟨d2, es2, d3, es4, h2, r2, i2, _, hcalls, r4, i4, _⟩ :=
        negotiation_video_only env c cb sa sv _ hclient1 hvalid hae hve
      refine ⟨d3, [(InitCall.GetDemuxerStreamInfo, es1), (InitCall.SetCdm, es2),
        (InitCall.OnVideoDecryptingDemuxerStreamInitDone, es4)],
        by simp only [initializationRun, h1, if_pos mem1, h2, hcalls], ?_, ?_, ?_⟩
      · simp [allEvents, readyCount_append, r1, r2, r4]
      · simp [readySenders, r1, r2, r4, hv]
      · simp [allEvents, initCalls_append, i1, i2, i4, hv]
    · rw [ha] at hae
      by_cases hsa : sa = PipelineStatus.PIPELINE_OK
      · subst hsa
        cases hv : env.videoEncrypted
        · rw [hv] at hve
          obtain ⟨d2, es2, d3, es3, h2, r2, i2, _, hcalls, r3, i3, _⟩ :=
            negotiation_audio_only env c cb sv _ hclient1 hvalid hae hve
          refine ⟨d3, [(InitCall.GetDemuxerStreamInfo, es1), (InitCall.SetCdm, es2),
            (InitCall.OnAudioDecryptingDemuxerStreamInitDone, es3)],
            by simp only [initializationRun, h1, if_pos mem1, h2, hcalls], ?_, ?_, ?_⟩
          · simp [allEvents, readyCount_append, r1, r2, r3]
          · simp [readySenders, r1, r2, r3]
          · simp [allEvents, initCalls_append, i1, i2, i3]
        · rw [hv] at hve
          obtain ⟨d2, es2, d3, es3, es4, h2, r2, i2, _, hcalls, r3, i3, _, r4, i4, _⟩ :=
            negotiation_both env c cb sv _ hclient1 hvalid hae hve
          refine ⟨d3, [(InitCall.GetDemuxerStreamInfo, es1), (InitCall.SetCdm, es2),
            (InitCall.OnAudioDecryptingDemuxerStreamInitDone, es3),
            (InitCall.OnVideoDecryptingDemuxerStreamInitDone, es4)],
            by simp only [initializationRun, h1, if_pos mem1, h2, hcalls], ?_, ?_, ?_⟩
          · simp [allEvents, readyCount_append, r1, r2, r3, r4]
          · simp [readySenders, r1, r2, r3, r4]
          · simp [allEvents, initCalls_append, i1, i2, i3, i4]
      · obtain ⟨d2, es2, d3, es3, h2, r2, i2, _, hcalls, r3, i3, _⟩ :=
          negotiation_audio_failed env c cb sa sv _ hclient1 hvalid hae hsa
        refine ⟨d3, [(InitCall.GetDemuxerStreamInfo, es1), (InitCall.SetCdm, es2),
          (InitCall.OnAudioDecryptingDemuxerStreamInitDone, es3)],
          by simp only [initializationRun, h1, if_pos mem1, h2, hcalls], ?_, ?_, ?_⟩
        · simp [allEvents, readyCount_append, r1, r2, r3]
        · simp [readySenders, r1, r2, r3, hsa]
        · simp [allEvents, initCalls_append, i1, i2, i3, hsa]
  · have ha : env.audioEncrypted = false := by
      cases h : env.audioEncrypted <;> simp [h] at henc ⊢
    have hv : env.videoEncrypted = false := by
      cases h : env.videoEncrypted <;> simp [h] at henc ⊢
    obtain ⟨d2, es, h, r, i, _⟩ :=
      initializationRun_clear env c cb sa sv d hclient hdemux hstream ha hv
    refine ⟨d2, _, h, ?_, ?_, ?_⟩
    · simp [allEvents, r]
    · simp [readySenders, r, ha, hv]
    · simp [allEvents, i, ha, hv]

/-- C7 (readiness fires exactly once per initialization). For every encryption
configuration of the streams (none, audio only, video only, both) and every
outcome of each decrypting-stream initialization, one initialization run -
GetDemuxerStreamInfo, then SetCdm when a CDM was asked for, then the init-done
callbacks of the initializations started - is defined and sends DemuxerReady
exactly once, given that the demuxer is alive, `demuxer_client_` and
`set_cdm_ready_cb_` are set and the demuxer has an audio or a video stream. -/
theorem readiness_fires_once (env : Demuxer) (cdm_context cdm_attached_cb : Bool)
    (audio_status video_status : PipelineStatus) (d : Delegate)
    (hclient : d.demuxer_client_ = true) (hdemux : d.chunk_demuxer_ = true)
    (hcb : d.set_cdm_ready_cb_ = true)
    (hstream : env.audio.isSome = true ∨ env.video.isSome = true) :
    ∃ d2 calls,
      initializationRun env cdm_context cdm_attached_cb audio_status video_status d =
        some (d2, calls) ∧
      readyCount (allEvents calls) = 1 := by
  obtain ⟨d2, calls, h, r, _⟩ := initializationRun_outcome env cdm_context cdm_attached_cb
    audio_status video_status d hclient hdemux hcb hstream
  exact ⟨d2, calls, h, r⟩

/-- C7 on a freshly initialized delegate with both streams encrypted, a
successful audio and a failed video initialization. -/
theorem readiness_fires_once_witness :
    ∃ d2 calls,
      initializationRun (sampleDemuxer true true) true true PipelineStatus.PIPELINE_OK
        (PipelineStatus.error 1) initializedDelegate = some (d2, calls) ∧
      readyCount (allEvents calls) = 1 :=
  readiness_fires_once (sampleDemuxer true true) true true PipelineStatus.PIPELINE_OK
    (PipelineStatus.error 1) initializedDelegate rfl rfl rfl (Or.inl rfl)

/-- C8 (both streams encrypted, both initializations succeed). The initialization
run consists of GetDemuxerStreamInfo, SetCdm, the audio init-done callback and
the video init-done callback, in that order; SetCdm starts the audio
initialization only; the video initialization is started only by the audio
init-done callback; no DemuxerReady is sent by the first three calls and one is
sent by the video init-done callback, which also posts the pending
CDM-attached callback (the one SetCdm was given), with the value true. -/
theorem both_encrypted_negotiation_order (env : Demuxer) (cdm_context : Bool)
    (d : Delegate) (hclient : d.demuxer_client_ = true) (hdemux : d.chunk_demuxer_ = true)
    (hcb : d.set_cdm_ready_cb_ = true)
    (ha : env.audioEncrypted = true) (hv : env.videoEncrypted = true) :
    ∃ d2 es1 es2 es3 es4,
      initializationRun env cdm_context true PipelineStatus.PIPELINE_OK
        PipelineStatus.PIPELINE_OK d =
        some (d2, [(InitCall.GetDemuxerStreamInfo, es1), (InitCall.SetCdm, es2),
                   (InitCall.OnAudioDecryptingDemuxerStreamInitDone, es3),
                   (InitCall.OnVideoDecryptingDemuxerStreamInitDone, es4)]) ∧
      initCalls es1 = [] ∧ initCalls es2 = [StreamType.AUDIO] ∧
      initCalls es3 = [StreamType.VIDEO] ∧ initCalls es4 = [] ∧
      readyCount es1 = 0 ∧ readyCount es2 = 0 ∧ readyCount es3 = 0 ∧ readyCount es4 = 1 ∧
      cdmAttachedPosts es1 = [] ∧ cdmAttachedPosts es2 = [] ∧ cdmAttachedPosts es3 = [] ∧
      cdmAttachedPosts es4 = [true] := by
  have hvalid := streamsValid_withDemuxerStreams env d hdemux
  have hae := audioStreamIsEncrypted_withDemuxerStreams env d
  have hve := videoStreamIsEncrypted_withDemuxerStreams env d
  have hclient1 : (withDemuxerStreams env d).demuxer_client_ = true := hclient
  rw [ha] at hae
  rw [hv] at hve
  obtain ⟨es1, h1, mem1, r1, i1, c1⟩ :=
    GetDemuxerStreamInfo_encrypted env d hdemux hcb (by simp [ha])
  obtain ⟨d2, es2, d3, es3, es4, h2, r2, i2, c2, hcalls, r3, i3, c3, r4, i4, c4⟩ :=
    negotiation_both env cdm_context true PipelineStatus.PIPELINE_OK _ hclient1 hvalid hae hve
  refine ⟨d3, es1, es2, es3, es4,
    by simp only [initializationRun, h1, if_pos mem1, h2, hcalls],
    i1, i2, i3, i4, r1, r2, r3, r4, c1, c2, c3, by simpa using c4⟩

/-- C8 on a freshly initialized delegate and a demuxer with an encrypted audio and
an encrypted video stream. -/
theorem both_encrypted_negotiation_order_witness :
    ∃ d2 es1 es2 es3 es4,
      initializationRun (sampleDemuxer true true) true true PipelineStatus.PIPELINE_OK
        PipelineStatus.PIPELINE_OK initializedDelegate =
        some (d2, [(InitCall.GetDemuxerStreamInfo, es1), (InitCall.SetCdm, es2),
                   (InitCall.OnAudioDecryptingDemuxerStreamInitDone, es3),
                   (InitCall.OnVideoDecryptingDemuxerStreamInitDone, es4)]) ∧
      initCalls es1 = [] ∧ initCalls es2 = [StreamType.AUDIO] ∧
      initCalls es3 = [StreamType.VIDEO] ∧ initCalls es4 = [] ∧
      readyCount es1 = 0 ∧ readyCount es2 = 0 ∧ readyCount es3 = 0 ∧ readyCount es4 = 1 ∧
      cdmAttachedPosts es1 = [] ∧ cdmAttachedPosts es2 = [] ∧ cdmAttachedPosts es3 = [] ∧
      cdmAttachedPosts es4 = [true] :=
  both_encrypted_negotiation_order (sampleDemuxer true true) true initializedDelegate
    rfl rfl rfl rfl rfl

/-- C9, as amended (readiness timing). In every initialization run in which some
stream is encrypted, DemuxerReady is sent by exactly one call: by the audio
init-done callback directly after a failed audio initialization, whether or not
the video stream is encrypted (no video initialization is started then); by the
audio init-done callback after a successful audio initialization when the video
stream is absent or not encrypted; and by the video init-done callback in the
two remaining cases, in which the video initialization was started. -/
theorem readiness_timing (env : Demuxer) (cdm_context cdm_attached_cb : Bool)
    (audio_status video_status : PipelineStatus) (d : Delegate)
    (hclient : d.demuxer_client_ = true) (hdemux : d.chunk_demuxer_ = true)
    (hcb : d.set_cdm_ready_cb_ = true)
    (henc : env.audioEncrypted = true ∨ env.videoEncrypted = true) :
    ∃ d2 calls,
      initializationRun env cdm_context cdm_attached_cb audio_status video_status d =
        some (d2, calls) ∧
      (env.audioEncrypted = true → audio_status ≠ PipelineStatus.PIPELINE_OK →
        readySenders calls = [InitCall.OnAudioDecryptingDemuxerStreamInitDone] ∧
        initCalls (allEvents calls) = [StreamType.AUDIO]) ∧
      (env.audioEncrypted = true → audio_status = PipelineStatus.PIPELINE_OK →
        env.videoEncrypted = false →
        readySenders calls = [InitCall.OnAudioDecryptingDemuxerStreamInitDone] ∧
        initCalls (allEvents calls) = [StreamType.AUDIO]) ∧
      (env.audioEncrypted = true → audio_status = PipelineStatus.PIPELINE_OK →
        env.videoEncrypted = true →
        readySenders calls = [InitCall.OnVideoDecryptingDemuxerStreamInitDone] ∧
        initCalls (allEvents calls) = [StreamType.AUDIO, StreamType.VIDEO]) ∧
      (env.audioEncrypted = false → env.videoEncrypted = true →
        readySenders calls = [InitCall.OnVideoDecryptingDemuxerStreamInitDone] ∧
        initCalls (allEvents calls) = [StreamType.VIDEO]) := by
  have hstream : env.audio.isSome = true ∨ env.video.isSome = true := by
    rcases henc with h | h
    · exact Or.inl (audio_isSome_of_audioEncrypted env h)
    · exact Or.inr (video_isSome_of_videoEncrypted env h)
  obtain ⟨d2, calls, h, _, hs, hi⟩ := initializationRun_outcome env cdm_context
    cdm_attached_cb audio_status video_status d hclient hdemux hcb hstream
  refine ⟨d2, calls, h, ?_, ?_, ?_, ?_⟩
  · intro ha hsa
    simp [hs, hi, ha, hsa]
  · intro ha hsa hv
    simp [hs, hi, ha, hsa, hv]
  · intro ha hsa hv
    simp [hs, hi, ha, hsa, hv]
  · intro ha hv
    simp [hs, hi, ha, hv]

/-- C9 as amended, on a freshly initialized delegate with both streams encrypted
and a failed audio initialization. -/
theorem readiness_timing_witness :
    ∃ d2 calls,
      initializationRun (sampleDemuxer true true) true true (PipelineStatus.error 1)
        PipelineStatus.PIPELINE_OK initializedDelegate = some (d2, calls) ∧
      readySenders calls = [InitCall.OnAudioDecryptingDemuxerStreamInitDone] ∧
      initCalls (allEvents calls) = [StreamType.AUDIO] := by
  obtain ⟨d2, calls, h, h1, _⟩ := readiness_timing (sampleDemuxer true true) true true
    (PipelineStatus.error 1) PipelineStatus.PIPELINE_OK initializedDelegate rfl rfl rfl
    (Or.inl rfl)
  exact ⟨d2, calls, h, h1 rfl (by decide)⟩

/-- C9 as stated fails: with an encrypted audio and an encrypted video stream and
a failed audio initialization, DemuxerReady is sent by the audio init-done
callback although the video stream is present, encrypted and not negotiated
(the only initialization started is the audio one). -/
theorem readiness_timing_counterexample :
    (sampleDemuxer true true).videoEncrypted = true ∧
    (initializationRun (sampleDemuxer true true) true true (PipelineStatus.error 1)
      PipelineStatus.PIPELINE_OK initializedDelegate).map
      (fun p => (readySenders p.2, initCalls (allEvents p.2), p.1.video_stream_,
        p.1.video_decrypting_demuxer_stream_)) =
      some ([InitCall.OnAudioDecryptingDemuxerStreamInitDone], [StreamType.AUDIO],
        some StreamRef.chunk, false) := by
  constructor <;> rfl

/-- C10 (a failed video initialization does not stop audio). If the video
decrypting-stream initialization fails, OnVideoDecryptingDemuxerStreamInitDone
still sends DemuxerReady (once) and leaves `audio_stream_`,
`is_audio_read_fired_` and `is_seeking_` unchanged, so that a following
OnReadFromDemuxer(AUDIO), with an audio stream, no seek in progress and no
audio read in flight, issues a Read on the audio stream. The video handle is
the stream the initialization was started on, not the wrapper that the
callback destroys. -/
theorem video_init_failure_keeps_audio (env : Demuxer) (status : PipelineStatus)
    (d : Delegate) (hstatus : status ≠ PipelineStatus.PIPELINE_OK)
    (hclient : d.demuxer_client_ = true) (hvalid : streamsValid env d = true)
    (hstream : d.audio_stream_.isSome = true ∨ d.video_stream_.isSome = true)
    (hown : d.video_stream_ ≠ some StreamRef.decrypting) :
    ∃ d2 es, OnVideoDecryptingDemuxerStreamInitDone env status d = some (d2, es) ∧
      readyCount es = 1 ∧
      d2.audio_stream_ = d.audio_stream_ ∧
      d2.is_audio_read_fired_ = d.is_audio_read_fired_ ∧
      d2.is_seeking_ = d.is_seeking_ ∧
      ∀ s, d.audio_stream_ = some s → d.is_seeking_ = false →
        d.is_audio_read_fired_ = false →
        (OnReadFromDemuxer StreamType.AUDIO d2).2 = [Event.streamRead s StreamType.AUDIO] := by
  obtain ⟨es, h, r, _⟩ :=
    OnVideoInitDone_failed env status d hstatus hclient hvalid hstream hown
  refine ⟨_, es, h, r, rfl, rfl, rfl, ?_⟩
  intro s hs hseek hfired
  cases hv : d.video_stream_ <;> simp [OnReadFromDemuxer, hs, hseek, hfired, hv]

/-- C10 on a delegate that holds both streams of a demuxer with an encrypted
video stream, with the video initialization in progress. -/
theorem video_init_failure_keeps_audio_witness :
    ∃ d2 es,
      OnVideoDecryptingDemuxerStreamInitDone (sampleDemuxer false true)
        (PipelineStatus.error 1)
        { initializedDelegate with
          audio_stream_ := some StreamRef.chunk
          video_stream_ := some StreamRef.chunk
          video_decrypting_demuxer_stream_ := true } = some (d2, es) ∧
      readyCount es = 1 ∧
      (OnReadFromDemuxer StreamType.AUDIO d2).2 =
        [Event.streamRead StreamRef.chunk StreamType.AUDIO] := by
  obtain ⟨d2, es, h, r, _, _, _, hread⟩ :=
    video_init_failure_keeps_audio (sampleDemuxer false true) (PipelineStatus.error 1)
      { initializedDelegate with
        audio_stream_ := some StreamRef.chunk
        video_stream_ := some StreamRef.chunk
        video_decrypting_demuxer_stream_ := true }
      (by decide) rfl rfl (Or.inl rfl) (by decide)
  exact ⟨d2, es, h, r, hread StreamRef.chunk rfl rfl rfl⟩

/-! ### Seek failure, aborted reads and buffer packaging -/

/-- C11, as amended (state after a failed seek). For every delegate state,
OnDemuxerSeekDone with a status other than PIPELINE_OK changes no field of the
delegate: `is_seeking_` keeps its value (it stays true when the failed seek was
in progress), and so do `pending_seek_` and `seeking_pending_seek_`. A later
StartSeek(t, false) on a live demuxer is accepted and issues Seek(t) when
`seeking_pending_seek_` is false, and is ignored (no Seek, `seek_time_`
unchanged) while `seeking_pending_seek_` is still set; without a demuxer it
does nothing. -/
theorem seek_failure_keeps_state (env : Demuxer) (t t2 : TimeDelta)
    (status : PipelineStatus) (d : Delegate)
    (hstatus : status ≠ PipelineStatus.PIPELINE_OK) :
    OnDemuxerSeekDone t status d = some (d, OnDemuxerError status d) ∧
    (d.chunk_demuxer_ = true → d.seeking_pending_seek_ = false →
      ∃ d2 es,
        run env [Op.OnDemuxerSeekDone t status, Op.StartSeek t2 false] d = some (d2, es) ∧
        seekCalls es = [t2] ∧ d2.seek_time_ = t2 ∧ d2.is_seeking_ = true) ∧
    (d.chunk_demuxer_ = true → d.seeking_pending_seek_ = true →
      ∃ d2 es,
        run env [Op.OnDemuxerSeekDone t status, Op.StartSeek t2 false] d = some (d2, es) ∧
        seekCalls es = [] ∧ d2.seek_time_ = d.seek_time_ ∧ d2.is_seeking_ = true ∧
        d2.seeking_pending_seek_ = true ∧ d2.pending_seek_ = d.pending_seek_) ∧
    (d.chunk_demuxer_ = false →
      ∃ es,
        run env [Op.OnDemuxerSeekDone t status, Op.StartSeek t2 false] d = some (d, es) ∧
        seekCalls es = []) := by
  have h1 : OnDemuxerSeekDone t status d = some (d, OnDemuxerError status d) := by
    simp [OnDemuxerSeekDone, hstatus]
  refine ⟨h1, fun hdemux hsps => ?_, fun hdemux hsps => ?_, fun hdemux => ?_⟩
  · simp only [run, applyOp, h1, Result.some_andThen]
    simp only [StartSeek, hdemux, hsps, SeekInternal, Bool.not_true, Bool.false_eq_true,
      if_false, if_true, Result.some_andThen, Result.after_some]
    refine ⟨_, _, rfl, ?_, rfl, rfl⟩
    simp [seekCalls_append, seekCalls_OnDemuxerError, seekCalls]
  · simp only [run, applyOp, h1, Result.some_andThen]
    simp only [StartSeek, hdemux, hsps, Bool.not_true, Bool.false_eq_true,
      if_false, if_true, Result.some_andThen, Result.after_some]
    refine ⟨_, _, rfl, ?_, rfl, rfl, rfl, rfl⟩
    simp [seekCalls_append, seekCalls_OnDemuxerError, seekCalls]
  · simp only [run, applyOp, h1, Result.some_andThen]
    simp only [StartSeek, hdemux, Bool.not_false, if_true, Result.some_andThen,
      Result.after_some]
    refine ⟨_, rfl, ?_⟩
    simp [seekCalls_append, seekCalls_OnDemuxerError, seekCalls]

/-- C11 as amended, on a delegate whose seek to 5s fails and is followed by a
request to seek to 7s: the request is executed when no superseding seek was
being executed, and ignored when one was. -/
theorem seek_failure_keeps_state_witness :
    (∃ d2 es,
      run (sampleDemuxer false false)
        [Op.OnDemuxerSeekDone 5000000 (PipelineStatus.error 1), Op.StartSeek 7000000 false]
        ({ initializedDelegate with is_seeking_ := true, seek_time_ := 5000000 }) =
        some (d2, es) ∧
      seekCalls es = [7000000] ∧ d2.seek_time_ = 7000000 ∧ d2.is_seeking_ = true) ∧
    (∃ d2 es,
      run (sampleDemuxer false false)
        [Op.OnDemuxerSeekDone 5000000 (PipelineStatus.error 1), Op.StartSeek 7000000 false]
        ({ initializedDelegate with
           is_seeking_ := true, seeking_pending_seek_ := true, seek_time_ := 5000000 }) =
        some (d2, es) ∧
      seekCalls es = [] ∧ d2.seek_time_ = 5000000 ∧ d2.is_seeking_ = true) :=
  have h1 := (seek_failure_keeps_state (sampleDemuxer false false) 5000000 7000000
    (PipelineStatus.error 1)
    ({ initializedDelegate with is_seeking_ := true, seek_time_ := 5000000 })
    (by decide)).2.1 rfl rfl
  have h2 := (seek_failure_keeps_state (sampleDemuxer false false) 5000000 7000000
    (PipelineStatus.error 1)
    ({ initializedDelegate with
       is_seeking_ := true, seeking_pending_seek_ := true, seek_time_ := 5000000 })
    (by decide)).2.2.1 rfl rfl
  ⟨h1, h2.imp fun _ h => h.imp fun _ h => ⟨h.1, h.2.1, h.2.2.1, h.2.2.2.1⟩⟩

/-- C11 as stated fails: after a seek started by StartSeek(5s, true) has failed,
`is_seeking_` is still true, and a later StartSeek(7s, false) is ignored (the
only Seek call made is the one to 5s) because `seeking_pending_seek_` is still
set. -/
theorem seek_failure_idle_counterexample :
    (run (sampleDemuxer false false)
      [Op.StartSeek 5000000 true, Op.OnDemuxerSeekDone 5000000 (PipelineStatus.error 1)]
      initializedDelegate).map (fun p => p.1.is_seeking_) = some true ∧
    (run (sampleDemuxer false false)
      [Op.StartSeek 5000000 true, Op.OnDemuxerSeekDone 5000000 (PipelineStatus.error 1),
       Op.StartSeek 7000000 false]
      initializedDelegate).map (fun p => (p.1.is_seeking_, seekCalls p.2)) =
      some (true, [5000000]) := by
  constructor <;> rfl

/-- C12 (a seek failure is surfaced, not retried). For every delegate state,
OnDemuxerSeekDone with a status other than PIPELINE_OK issues no Seek on the
underlying demuxer, sends no DemuxerSeekDone, changes no field (so
`pending_seek_`, `pending_seek_time_` and `seek_time_` are unchanged), and its
only call is one run of `update_network_state_cb_` with the network state of
that status, made when that callback is set. -/
theorem seek_failure_surfaced (t : TimeDelta) (status : PipelineStatus) (d : Delegate)
    (hstatus : status ≠ PipelineStatus.PIPELINE_OK) :
    ∃ d2 es, OnDemuxerSeekDone t status d = some (d2, es) ∧
      seekCalls es = [] ∧ seekDoneMessages es = [] ∧
      d2.pending_seek_ = d.pending_seek_ ∧ d2.pending_seek_time_ = d.pending_seek_time_ ∧
      d2.seek_time_ = d.seek_time_ ∧ d2 = d ∧
      es = (if d.update_network_state_cb_ then [Event.runUpdateNetworkState status] else []) := by
  refine ⟨d, OnDemuxerError status d, by simp [OnDemuxerSeekDone, hstatus], ?_, ?_,
    rfl, rfl, rfl, rfl, ?_⟩
  · exact seekCalls_OnDemuxerError status d
  · unfold OnDemuxerError
    split <;> rfl
  · cases h : d.update_network_state_cb_ <;> simp [OnDemuxerError, hstatus, h]

/-- C12 on a freshly initialized delegate with a queued seek target. -/
theorem seek_failure_surfaced_witness :
    OnDemuxerSeekDone 5000000 (PipelineStatus.error 1)
      ({ initializedDelegate with
         is_seeking_ := true, pending_seek_ := true, pending_seek_time_ := 9000000 }) =
      some ({ initializedDelegate with
              is_seeking_ := true, pending_seek_ := true, pending_seek_time_ := 9000000 },
            [Event.runUpdateNetworkState (PipelineStatus.error 1)]) := by
  obtain ⟨d2, es, h, _, _, _, _, _, hd, hes⟩ :=
    seek_failure_surfaced 5000000 (PipelineStatus.error 1)
      ({ initializedDelegate with
         is_seeking_ := true, pending_seek_ := true, pending_seek_time_ := 9000000 })
      (by decide)
  rw [h, hd, hes]
  rfl

/-- C18 (aborted reads are absorbed). For every delegate state and every buffer
pointer, OnBufferReady(kind, kAborted, _) clears the read-fired flag of that
kind, changes no other field and makes no call on any collaborator: no
ReadFromDemuxerAck and no other message is sent. -/
theorem aborted_read_absorbed (env : Demuxer) (buffer : Option DecoderBuffer)
    (d : Delegate) :
    OnBufferReady env StreamType.AUDIO StreamStatus.kAborted buffer d =
      some ({ d with is_audio_read_fired_ := false }, []) ∧
    OnBufferReady env StreamType.VIDEO StreamStatus.kAborted buffer d =
      some ({ d with is_video_read_fired_ := false }, []) := by
  constructor <;> simp [OnBufferReady]

theorem wrapInt32_of_lt (n : Nat) (h : n < 2147483648) : wrapInt32 n = n := by
  unfold wrapInt32
  omega

/-- C19 (buffer packaging). For every kind and every buffer (of less than 2^31
bytes, so that its size fits the `int` member of the metadata),
OnBufferReady(kind, kOk, buffer) with `demuxer_client_` set makes exactly one
call, a ReadFromDemuxerAck whose metadata has that kind and status kOk; for a
buffer that is not end-of-stream the metadata has `end_of_stream` false, the
size, timestamp and duration of the buffer, and the payload is the buffer's
bytes; for an end-of-stream buffer the metadata has `end_of_stream` true and
size 0 and the payload is empty. -/
theorem buffer_packaging (env : Demuxer) (type : StreamType) (b : DecoderBuffer)
    (d : Delegate) (hclient : d.demuxer_client_ = true)
    (hsize : b.data.length < 2147483648) :
    ∃ d2 stream_data meta_data,
      OnBufferReady env type StreamStatus.kOk (some b) d =
        some (d2, [Event.ReadFromDemuxerAck d.demuxer_client_id_ stream_data meta_data]) ∧
      meta_data.type = type ∧ meta_data.status = StreamStatus.kOk ∧
      (b.end_of_stream = false →
        meta_data.end_of_stream = false ∧ meta_data.size = b.data.length ∧
        meta_data.timestamp = b.timestamp ∧ meta_data.time_duration = b.duration ∧
        stream_data = b.data) ∧
      (b.end_of_stream = true →
        meta_data.end_of_stream = true ∧ meta_data.size = 0 ∧ stream_data = []) := by
  have hwrap := wrapInt32_of_lt b.data.length hsize
  cases type <;> cases heos : b.end_of_stream <;>
    simp [OnBufferReady, sendReadFromDemuxerAck, hclient, heos, DemuxedBufferMetaData.new,
      and_assoc, hwrap]

/-- C19 on a three-byte video buffer with timestamp 40ms and duration 20ms. -/
theorem buffer_packaging_witness :
    ∃ d2 stream_data meta_data,
      OnBufferReady (sampleDemuxer false false) StreamType.VIDEO StreamStatus.kOk
        (some { end_of_stream := false, data := [1, 2, 3], timestamp := 40000,
                duration := 20000 })
        initializedDelegate =
        some (d2, [Event.ReadFromDemuxerAck 1 stream_data meta_data]) ∧
      meta_data.type = StreamType.VIDEO ∧ meta_data.status = StreamStatus.kOk ∧
      meta_data.end_of_stream = false ∧ meta_data.size = 3 ∧
      meta_data.timestamp = 40000 ∧ meta_data.time_duration = 20000 ∧
      stream_data = [1, 2, 3] := by
  obtain ⟨d2, stream_data, meta_data, h, h1, h2, h3, _⟩ :=
    buffer_packaging (sampleDemuxer false false) StreamType.VIDEO
      { end_of_stream := false, data := [1, 2, 3], timestamp := 40000, duration := 20000 }
      initializedDelegate rfl (by decide)
  exact ⟨d2, stream_data, meta_data, h, h1, h2, h3 rfl⟩

/-! ### Readiness is never retracted -/

theorem ready_NotifyDemuxerReady (env : Demuxer) (b : Bool) (d d2 : Delegate)
    (es : List Event) (h : NotifyDemuxerReady env b d = some (d2, es)) :
    d2.is_demuxer_ready_ = true := by
  simp only [NotifyDemuxerReady] at h
  split at h
  · simp only [Option.some.injEq, Prod.mk.injEq] at h
    rw [← h.1]
  · split at h
    · simp at h
    · simp only [Option.some.injEq, Prod.mk.injEq] at h
      rw [← h.1]

theorem ready_after (es0 : List Event) (r : Result) (d2 : Delegate) (es : List Event)
    (h : Result.after es0 r = some (d2, es)) : ∃ es1, r = some (d2, es1) := by
  cases r with
  | none => simp [Result.after] at h
  | some p =>
    obtain ⟨d1, e1⟩ := p
    simp only [Result.after_some, Option.some.injEq, Prod.mk.injEq] at h
    exact ⟨e1, by rw [h.1]⟩

theorem ready_FinishResetting (d d2 : Delegate) (es : List Event)
    (h : FinishResettingDecryptingDemuxerStreams d = some (d2, es)) :
    d2.is_demuxer_ready_ = d.is_demuxer_ready_ := by
  simp only [FinishResettingDecryptingDemuxerStreams] at h
  split at h
  · simp only [Option.some.injEq, Prod.mk.injEq] at h
    rw [← h.1]
  · simp at h

theorem ready_ResetVideo (d d2 : Delegate) (es : List Event)
    (h : ResetVideoDecryptingDemuxerStream d = some (d2, es)) :
    d2.is_demuxer_ready_ = d.is_demuxer_ready_ := by
  simp only [ResetVideoDecryptingDemuxerStream] at h
  split at h
  · simp only [Option.some.injEq, Prod.mk.injEq] at h
    rw [← h.1]
  · exact (ready_FinishResetting _ _ _ h).trans rfl

theorem ready_ResetAudio (d d2 : Delegate) (es : List Event)
    (h : ResetAudioDecryptingDemuxerStream d = some (d2, es)) :
    d2.is_demuxer_ready_ = d.is_demuxer_ready_ := by
  simp only [ResetAudioDecryptingDemuxerStream] at h
  split at h
  · simp only [Option.some.injEq, Prod.mk.injEq] at h
    rw [← h.1]
  · exact (ready_ResetVideo _ _ _ h).trans rfl

theorem ready_SeekInternal (t : TimeDelta) (d d2 : Delegate) (es : List Event)
    (h : SeekInternal t d = some (d2, es)) :
    d2.is_demuxer_ready_ = d.is_demuxer_ready_ := by
  simp only [SeekInternal] at h
  split at h
  · simp only [Option.some.injEq, Prod.mk.injEq] at h
    rw [← h.1]
  · simp at h

theorem ready_StartSeek (t : TimeDelta) (b : Bool) (d d2 : Delegate) (es : List Event)
    (h : StartSeek t b d = some (d2, es)) :
    d2.is_demuxer_ready_ = d.is_demuxer_ready_ := by
  simp only [StartSeek] at h
  split at h
  · simp only [Option.some.injEq, Prod.mk.injEq] at h
    rw [← h.1]
  · split at h
    · exact (ready_SeekInternal _ _ _ _ h).trans rfl
    · split at h
      · simp only [Option.some.injEq, Prod.mk.injEq] at h
        rw [← h.1]
      · exact (ready_SeekInternal _ _ _ _ h).trans rfl

theorem ready_OnDemuxerSeekDone (t : TimeDelta) (status : PipelineStatus)
    (d d2 : Delegate) (es : List Event)
    (h : OnDemuxerSeekDone t status d = some (d2, es)) :
    d2.is_demuxer_ready_ = d.is_demuxer_ready_ := by
  simp only [OnDemuxerSeekDone] at h
  split at h
  · simp only [Option.some.injEq, Prod.mk.injEq] at h
    rw [← h.1]
  · split at h
    · exact (ready_StartSeek _ _ _ _ _ h).trans rfl
    · exact (ready_ResetAudio _ _ _ h).trans rfl

theorem ready_StartWaitingForSeek (t : TimeDelta) (d d2 : Delegate) (es : List Event)
    (h : StartWaitingForSeek t d = some (d2, es)) :
    d2.is_demuxer_ready_ = d.is_demuxer_ready_ := by
  simp only [StartWaitingForSeek] at h
  split at h <;>
    (simp only [Option.some.injEq, Prod.mk.injEq] at h; rw [← h.1])

theorem ready_CancelPendingSeek (t : TimeDelta) (d d2 : Delegate) (es : List Event)
    (h : CancelPendingSeek t d = some (d2, es)) :
    d2.is_demuxer_ready_ = d.is_demuxer_ready_ := by
  simp only [CancelPendingSeek] at h
  split at h
  · simp only [Option.some.injEq, Prod.mk.injEq] at h
    rw [← h.1]
  · split at h <;>
      (simp only [Option.some.injEq, Prod.mk.injEq] at h; rw [← h.1])

theorem ready_OnReadFromDemuxer (type : StreamType) (d : Delegate) :
    (OnReadFromDemuxer type d).1.is_demuxer_ready_ = d.is_demuxer_ready_ := by
  simp only [OnReadFromDemuxer]
  split
  · rfl
  · simp only
    split <;> split <;> (try split) <;> (try split) <;> rfl

theorem ready_sendReadFromDemuxerAck (data : List Nat) (m : DemuxedBufferMetaData)
    (d d2 : Delegate) (es : List Event)
    (h : sendReadFromDemuxerAck data m d = some (d2, es)) : d2 = d := by
  simp only [sendReadFromDemuxerAck] at h
  split at h <;>
    (simp only [Option.some.injEq, Prod.mk.injEq] at h; exact h.1.symm)

theorem ready_OnBufferReady (env : Demuxer) (type : StreamType) (status : StreamStatus)
    (buffer : Option DecoderBuffer) (d d2 : Delegate) (es : List Event)
    (hr : d.is_demuxer_ready_ = true)
    (h : OnBufferReady env type status buffer d = some (d2, es)) :
    d2.is_demuxer_ready_ = true := by
  cases status with
  | kAborted =>
    cases type <;>
      simp only [OnBufferReady, reduceCtorEq, if_true, if_false, Option.some.injEq,
        Prod.mk.injEq] at h <;>
      (rw [← h.1]; exact hr)
  | kConfigChanged =>
    cases type <;>
      simp only [OnBufferReady, reduceCtorEq, if_true, if_false] at h <;>
      split at h <;>
      first
      | (obtain ⟨es1, h1⟩ := ready_after _ _ _ _ h
         exact ready_NotifyDemuxerReady _ _ _ _ _ h1)
      | (split at h
         · simp only [Option.some.injEq, Prod.mk.injEq] at h
           rw [← h.1]
           exact hr
         · simp at h)
      | simp at h
  | kOk =>
    cases type <;>
      simp only [OnBufferReady, reduceCtorEq, if_true, if_false] at h <;>
      split at h <;>
      first
      | (split at h <;>
          (rw [ready_sendReadFromDemuxerAck _ _ _ _ _ h]; exact hr))
      | simp at h
  | kError =>
    cases type <;>
      simp only [OnBufferReady, reduceCtorEq, if_true, if_false] at h <;>
      (obtain ⟨es1, h1⟩ := ready_after _ _ _ _ h
       rw [ready_sendReadFromDemuxerAck _ _ _ _ _ h1]
       exact hr)

theorem ready_GetDemuxerStreamInfo (env : Demuxer) (d d2 : Delegate) (es : List Event)
    (hr : d.is_demuxer_ready_ = true)
    (h : GetDemuxerStreamInfo env d = some (d2, es)) :
    d2.is_demuxer_ready_ = true := by
  simp only [GetDemuxerStreamInfo] at h
  split at h
  · split at h
    · simp at h
    · split at h
      · simp only [Option.some.injEq, Prod.mk.injEq] at h
        rw [← h.1]
        exact hr
      · simp at h
    · obtain ⟨es1, h1⟩ := ready_after _ _ _ _ h
      exact ready_NotifyDemuxerReady _ _ _ _ _ h1
  · simp at h

theorem ready_SetCdm (env : Demuxer) (c cb : Bool) (d d2 : Delegate) (es : List Event)
    (h : SetCdm env c cb d = some (d2, es)) :
    d2.is_demuxer_ready_ = d.is_demuxer_ready_ := by
  simp only [SetCdm] at h
  split at h
  · simp at h
  · simp only [Option.some.injEq, Prod.mk.injEq] at h
    rw [← h.1]
    rfl
  · split at h
    · simp at h
    · simp only [Option.some.injEq, Prod.mk.injEq] at h
      rw [← h.1]
      rfl
    · simp only [Option.some.injEq, Prod.mk.injEq] at h
      rw [← h.1]

theorem ready_OnAudioInitDone (env : Demuxer) (status : PipelineStatus)
    (d d2 : Delegate) (es : List Event) (hr : d.is_demuxer_ready_ = true)
    (h : OnAudioDecryptingDemuxerStreamInitDone env status d = some (d2, es)) :
    d2.is_demuxer_ready_ = true := by
  simp only [OnAudioDecryptingDemuxerStreamInitDone] at h
  split at h
  · split at h
    · simp at h
    · obtain ⟨es1, h1⟩ := ready_after _ _ _ _ h
      exact ready_NotifyDemuxerReady _ _ _ _ _ h1
  · split at h
    · simp at h
    · simp only [Option.some.injEq, Prod.mk.injEq] at h
      rw [← h.1]
      exact hr
    · obtain ⟨es1, h1⟩ := ready_after _ _ _ _ h
      exact ready_NotifyDemuxerReady _ _ _ _ _ h1

/-- The video init-done callback, when it returns, has run NotifyDemuxerReady on a
state with the audio handle and audio read-fired flag it was called with, and
made no call but the ones of that notification and its own assertion. -/
theorem OnVideoInitDone_returns (env : Demuxer) (status : PipelineStatus)
    (d d2 : Delegate) (es : List Event)
    (h : OnVideoDecryptingDemuxerStreamInitDone env status d = some (d2, es)) :
    ∃ b dn es1, NotifyDemuxerReady env b dn = some (d2, es1) ∧
      es = dcheck Check.OnVideoDecryptingDemuxerStreamInitDone_chunk_demuxer
        d.chunk_demuxer_ ++ es1 ∧
      dn.audio_stream_ = d.audio_stream_ ∧
      dn.is_audio_read_fired_ = d.is_audio_read_fired_ := by
  simp only [OnVideoDecryptingDemuxerStreamInitDone] at h
  split at h
  · split at h
    · simp at h
    · obtain ⟨es1, h1⟩ := ready_after _ _ _ _ h
      rw [h1, Result.after_some] at h
      simp only [Option.some.injEq, Prod.mk.injEq, true_and] at h
      exact ⟨_, _, es1, h1, h.symm, rfl, rfl⟩
  · obtain ⟨es1, h1⟩ := ready_after _ _ _ _ h
    rw [h1, Result.after_some] at h
    simp only [Option.some.injEq, Prod.mk.injEq, true_and] at h
    exact ⟨_, _, es1, h1, h.symm, rfl, rfl⟩

theorem ready_OnVideoInitDone (env : Demuxer) (status : PipelineStatus)
    (d d2 : Delegate) (es : List Event)
    (h : OnVideoDecryptingDemuxerStreamInitDone env status d = some (d2, es)) :
    d2.is_demuxer_ready_ = true := by
  obtain ⟨b, dn, es1, h1, _⟩ := OnVideoInitDone_returns env status d d2 es h
  exact ready_NotifyDemuxerReady _ _ _ _ _ h1

/-- C17 (readiness is never retracted). For every call of the delegate - the
seek functions and their completions, read requests and read completions of
every status, the negotiation calls and callbacks, OnDemuxerInitDone, Stop and
StopDemuxer - with any arguments: if `is_demuxer_ready_` is true before the
call, it is true after it. -/
theorem readiness_monotone (env : Demuxer) (op : Op) (d d2 : Delegate) (es : List Event)
    (hr : d.is_demuxer_ready_ = true) (h : applyOp env op d = some (d2, es)) :
    d2.is_demuxer_ready_ = true := by
  cases op with
  | StartWaitingForSeek t => rw [ready_StartWaitingForSeek t d d2 es h, hr]
  | CancelPendingSeek t => rw [ready_CancelPendingSeek t d d2 es h, hr]
  | StartSeek t b => rw [ready_StartSeek t b d d2 es h, hr]
  | OnDemuxerSeekDone t status => rw [ready_OnDemuxerSeekDone t status d d2 es h, hr]
  | ResetVideoDecryptingDemuxerStream => rw [ready_ResetVideo d d2 es h, hr]
  | FinishResettingDecryptingDemuxerStreams => rw [ready_FinishResetting d d2 es h, hr]
  | OnReadFromDemuxer type =>
    simp only [applyOp, Option.some.injEq] at h
    rw [← hr, ← ready_OnReadFromDemuxer type d, h]
  | OnBufferReady type status buffer =>
    exact ready_OnBufferReady env type status buffer d d2 es hr h
  | GetDemuxerStreamInfo => exact ready_GetDemuxerStreamInfo env d d2 es hr h
  | SetCdm c cb => rw [ready_SetCdm env c cb d d2 es h, hr]
  | OnAudioDecryptingDemuxerStreamInitDone status =>
    exact ready_OnAudioInitDone env status d d2 es hr h
  | OnVideoDecryptingDemuxerStreamInitDone status =>
    exact ready_OnVideoInitDone env status d d2 es h
  | OnDemuxerInitDone status =>
    simp only [applyOp, OnDemuxerInitDone, Option.some.injEq] at h
    split at h <;> (simp only [Prod.mk.injEq] at h; rw [← h.1]; exact hr)
  | Stop =>
    simp only [applyOp, Stop, Option.some.injEq] at h
    split at h <;> (simp only [Prod.mk.injEq] at h; rw [← h.1]; exact hr)
  | StopDemuxer =>
    simp only [applyOp, StopDemuxer] at h
    split at h
    · simp only [Option.some.injEq, Prod.mk.injEq] at h
      rw [← h.1]
      exact hr
    · simp at h

/-- C17 on a ready delegate that holds both streams: a successful seek completion
with no queued target leaves `is_demuxer_ready_` true. -/
theorem readiness_monotone_witness :
    ∃ d2 es,
      applyOp (sampleDemuxer false false)
        (Op.OnDemuxerSeekDone 5000000 PipelineStatus.PIPELINE_OK)
        ({ initializedDelegate with is_demuxer_ready_ := true, is_seeking_ := true }) =
        some (d2, es) ∧
      d2.is_demuxer_ready_ = true :=
  ⟨_, _, rfl,
   readiness_monotone (sampleDemuxer false false)
     (Op.OnDemuxerSeekDone 5000000 PipelineStatus.PIPELINE_OK)
     ({ initializedDelegate with is_demuxer_ready_ := true, is_seeking_ := true }) _ _
     rfl rfl⟩

/-! ### Handle substitution -/

/-- NotifyDemuxerReady returns whenever the stream pointers are valid: it sets
`is_demuxer_ready_`, clears `pending_cdm_attached_cb_` and changes no other
field (with no client or no stream it reports an error instead of sending
DemuxerReady). -/
theorem NotifyDemuxerReady_defined (env : Demuxer) (b : Bool) (d : Delegate)
    (hvalid : streamsValid env d = true) :
    ∃ es, NotifyDemuxerReady env b d =
      some ({ d with is_demuxer_ready_ := true, pending_cdm_attached_cb_ := false }, es) := by
  by_cases h : (!d.demuxer_client_ || (d.audio_stream_.isNone && d.video_stream_.isNone)) = true
  · simp only [NotifyDemuxerReady]
    rw [if_pos h]
    exact ⟨_, rfl⟩
  · have hclient : d.demuxer_client_ = true := by
      cases hc : d.demuxer_client_ <;> simp [hc] at h ⊢
    have hstream : d.audio_stream_.isSome = true ∨ d.video_stream_.isSome = true := by
      cases ha : d.audio_stream_ <;> cases hv : d.video_stream_ <;>
        simp [ha, hv, hclient] at h ⊢
    obtain ⟨configs, hn⟩ := NotifyDemuxerReady_sends env b d hclient hvalid hstream
    exact ⟨_, hn⟩

theorem videoStreamIsEncrypted_defined (env : Demuxer) (d : Delegate)
    (hvalid : streamsValid env d = true) :
    ∃ x, videoStreamIsEncrypted env d = some x := by
  simp only [streamsValid, Bool.and_eq_true, Bool.or_eq_true] at hvalid
  obtain ⟨⟨_, _⟩, hv⟩ := hvalid
  cases hdv : d.video_stream_ with
  | none => simp [videoStreamIsEncrypted, hdv]
  | some s =>
    cases hev : env.video with
    | none => simp [hdv, hev] at hv
    | some c => cases s <;> simp [videoStreamIsEncrypted, hdv, hev, video_decoder_config]

theorem audioStreamIsEncrypted_defined (env : Demuxer) (d : Delegate)
    (hvalid : streamsValid env d = true) :
    ∃ x, audioStreamIsEncrypted env d = some x := by
  simp only [streamsValid, Bool.and_eq_true, Bool.or_eq_true] at hvalid
  obtain ⟨⟨_, ha⟩, _⟩ := hvalid
  cases hda : d.audio_stream_ with
  | none => simp [audioStreamIsEncrypted, hda]
  | some s =>
    cases hea : env.audio with
    | none => simp [hda, hea] at ha
    | some c => cases s <;> simp [audioStreamIsEncrypted, hda, hea, audio_decoder_config]

theorem streamsValid_audio_wrapper (env : Demuxer) (d : Delegate)
    (hvalid : streamsValid env d = true) (haudio : d.audio_stream_.isSome = true) :
    streamsValid env ({ d with is_audio_read_fired_ := false,
                               audio_stream_ := some StreamRef.decrypting }) = true := by
  simp only [streamsValid, Bool.and_eq_true, Bool.or_eq_true] at hvalid ⊢
  obtain ⟨⟨h1, h2⟩, h3⟩ := hvalid
  refine ⟨⟨h1, Or.inr ?_⟩, h3⟩
  rcases h2 with h2 | h2
  · simp [Option.isNone_iff_eq_none] at h2
    simp [h2] at haudio
  · exact h2

theorem streamsValid_video_wrapper (env : Demuxer) (d : Delegate)
    (hvalid : streamsValid env d = true) (hvideo : d.video_stream_.isSome = true) :
    streamsValid env ({ d with is_video_read_fired_ := false,
                               video_stream_ := some StreamRef.decrypting }) = true := by
  simp only [streamsValid, Bool.and_eq_true, Bool.or_eq_true] at hvalid ⊢
  obtain ⟨⟨h1, h2⟩, h3⟩ := hvalid
  refine ⟨⟨h1, h2⟩, Or.inr ?_⟩
  rcases h3 with h3 | h3
  · simp [Option.isNone_iff_eq_none] at h3
    simp [h3] at hvideo
  · exact h3

/-- The audio init-done callback with PIPELINE_OK returns and makes the audio
handle the decrypting wrapper. -/
theorem OnAudioInitDone_ok_handle (env : Demuxer) (d : Delegate)
    (hvalid : streamsValid env d = true) (haudio : d.audio_stream_.isSome = true)
    (hdds : d.audio_decrypting_demuxer_stream_ = true) :
    ∃ d2 es, OnAudioDecryptingDemuxerStreamInitDone env PipelineStatus.PIPELINE_OK d =
        some (d2, es) ∧
      d2.audio_stream_ = some StreamRef.decrypting := by
  obtain ⟨x, hx⟩ := videoStreamIsEncrypted_defined env d hvalid
  cases x with
  | true =>
    obtain ⟨es, h, _⟩ := OnAudioInitDone_ok_video env d hx
    exact ⟨_, _, h, by simp [hdds]⟩
  | false =>
    obtain ⟨es, hn⟩ := NotifyDemuxerReady_defined env true _
      (streamsValid_audio_wrapper env d hvalid haudio)
    simp only [videoStreamIsEncrypted] at hx
    simp only [OnAudioDecryptingDemuxerStreamInitDone, ne_eq, not_true_eq_false, if_false,
      videoStreamIsEncrypted, hx, if_pos hdds, hn, Result.after_some]
    exact ⟨_, _, rfl, rfl⟩

/-- The audio init-done callback with a failure status, on an audio handle that
is not the wrapper, returns, keeps the audio handle and drops the wrapper. -/
theorem OnAudioInitDone_failed_handle (env : Demuxer) (status : PipelineStatus)
    (d : Delegate) (hvalid : streamsValid env d = true)
    (hstatus : status ≠ PipelineStatus.PIPELINE_OK)
    (hown : d.audio_stream_ ≠ some StreamRef.decrypting) :
    ∃ d2 es, OnAudioDecryptingDemuxerStreamInitDone env status d = some (d2, es) ∧
      d2.audio_stream_ = d.audio_stream_ ∧ d2.audio_decrypting_demuxer_stream_ = false := by
  obtain ⟨es, hn⟩ := NotifyDemuxerReady_defined env false
    ({ d with is_audio_read_fired_ := false, audio_decrypting_demuxer_stream_ := false })
    hvalid
  simp only [OnAudioDecryptingDemuxerStreamInitDone, hstatus, ne_eq, not_false_eq_true,
    if_true, hown, false_and, if_false, hn, Result.after_some]
  exact ⟨_, _, rfl, rfl, rfl⟩

/-- The video init-done callback with PIPELINE_OK returns and makes the video
handle the decrypting wrapper. -/
theorem OnVideoInitDone_ok_handle (env : Demuxer) (d : Delegate)
    (hvalid : streamsValid env d = true) (hvideo : d.video_stream_.isSome = true)
    (hdds : d.video_decrypting_demuxer_stream_ = true) :
    ∃ d2 es, OnVideoDecryptingDemuxerStreamInitDone env PipelineStatus.PIPELINE_OK d =
        some (d2, es) ∧
      d2.video_stream_ = some StreamRef.decrypting := by
  obtain ⟨es, hn⟩ := NotifyDemuxerReady_defined env true _
    (streamsValid_video_wrapper env d hvalid hvideo)
  simp only [OnVideoDecryptingDemuxerStreamInitDone, decide_True, Bool.not_true,
    Bool.false_eq_true, if_false, if_pos hdds, hn, Result.after_some]
  exact ⟨_, _, rfl, rfl⟩

/-- The video init-done callback with a failure status, on a video handle that
is not the wrapper, returns, keeps the video handle and drops the wrapper. -/
theorem OnVideoInitDone_failed_handle (env : Demuxer) (status : PipelineStatus)
    (d : Delegate) (hvalid : streamsValid env d = true)
    (hstatus : status ≠ PipelineStatus.PIPELINE_OK)
    (hown : d.video_stream_ ≠ some StreamRef.decrypting) :
    ∃ d2 es, OnVideoDecryptingDemuxerStreamInitDone env status d = some (d2, es) ∧
      d2.video_stream_ = d.video_stream_ ∧ d2.video_decrypting_demuxer_stream_ = false := by
  obtain ⟨es, hn⟩ := NotifyDemuxerReady_defined env false
    ({ d with is_video_read_fired_ := false, video_decrypting_demuxer_stream_ := false })
    hvalid
  have hdec : decide (status = PipelineStatus.PIPELINE_OK) = false := by simp [hstatus]
  simp only [OnVideoDecryptingDemuxerStreamInitDone, hdec, Bool.not_false, if_true, hown,
    false_and, if_false, hn, Result.after_some]
  exact ⟨_, _, rfl, rfl, rfl⟩

/-- A failed initialization whose handle is the wrapper itself: after two
overlapping video negotiations the first callback, with PIPELINE_OK, makes the
wrapper the video handle; the second callback, with an error, destroys the
wrapper and NotifyDemuxerReady then reads the video configuration through the
handle that still points to it. The call has no defined result. -/
theorem video_init_failure_on_wrapper_handle :
    (run (sampleDemuxer false true)
      [Op.GetDemuxerStreamInfo, Op.SetCdm true true,
       Op.OnVideoDecryptingDemuxerStreamInitDone (PipelineStatus.error 1),
       Op.OnReadFromDemuxer StreamType.AUDIO, Op.OnReadFromDemuxer StreamType.VIDEO,
       Op.OnBufferReady StreamType.AUDIO StreamStatus.kConfigChanged none,
       Op.OnBufferReady StreamType.VIDEO StreamStatus.kConfigChanged none,
       Op.SetCdm true true, Op.SetCdm true true,
       Op.OnVideoDecryptingDemuxerStreamInitDone PipelineStatus.PIPELINE_OK]
      initializedDelegate).map (fun p => p.1.video_stream_) =
      some (some StreamRef.decrypting) ∧
    run (sampleDemuxer false true)
      [Op.GetDemuxerStreamInfo, Op.SetCdm true true,
       Op.OnVideoDecryptingDemuxerStreamInitDone (PipelineStatus.error 1),
       Op.OnReadFromDemuxer StreamType.AUDIO, Op.OnReadFromDemuxer StreamType.VIDEO,
       Op.OnBufferReady StreamType.AUDIO StreamStatus.kConfigChanged none,
       Op.OnBufferReady StreamType.VIDEO StreamStatus.kConfigChanged none,
       Op.SetCdm true true, Op.SetCdm true true,
       Op.OnVideoDecryptingDemuxerStreamInitDone PipelineStatus.PIPELINE_OK,
       Op.OnVideoDecryptingDemuxerStreamInitDone (PipelineStatus.error 1)]
      initializedDelegate = none := by
  constructor <;> rfl

/-- C16 (handle substitution). With valid stream pointers, each of
OnAudioDecryptingDemuxerStreamInitDone and OnVideoDecryptingDemuxerStreamInitDone
returns, and: on PIPELINE_OK (for a present stream whose wrapper was created by
the Init function) the stream handle of that kind is the decrypting wrapper
afterwards; on any other status, for a handle that is the original stream (not
the wrapper, which the callback destroys), the handle is the one from before
the call and the decrypting-stream pointer is null. -/
theorem handle_substitution (env : Demuxer) (status : PipelineStatus) (d : Delegate)
    (hvalid : streamsValid env d = true) :
    (d.audio_stream_.isSome = true → d.audio_decrypting_demuxer_stream_ = true →
      ∃ d2 es, OnAudioDecryptingDemuxerStreamInitDone env PipelineStatus.PIPELINE_OK d =
          some (d2, es) ∧
        d2.audio_stream_ = some StreamRef.decrypting) ∧
    (status ≠ PipelineStatus.PIPELINE_OK → d.audio_stream_ ≠ some StreamRef.decrypting →
      ∃ d2 es, OnAudioDecryptingDemuxerStreamInitDone env status d = some (d2, es) ∧
        d2.audio_stream_ = d.audio_stream_ ∧
        d2.audio_decrypting_demuxer_stream_ = false) ∧
    (d.video_stream_.isSome = true → d.video_decrypting_demuxer_stream_ = true →
      ∃ d2 es, OnVideoDecryptingDemuxerStreamInitDone env PipelineStatus.PIPELINE_OK d =
          some (d2, es) ∧
        d2.video_stream_ = some StreamRef.decrypting) ∧
    (status ≠ PipelineStatus.PIPELINE_OK → d.video_stream_ ≠ some StreamRef.decrypting →
      ∃ d2 es, OnVideoDecryptingDemuxerStreamInitDone env status d = some (d2, es) ∧
        d2.video_stream_ = d.video_stream_ ∧
        d2.video_decrypting_demuxer_stream_ = false) :=
  ⟨OnAudioInitDone_ok_handle env d hvalid,
   OnAudioInitDone_failed_handle env status d hvalid,
   OnVideoInitDone_ok_handle env d hvalid,
   OnVideoInitDone_failed_handle env status d hvalid⟩

/-- C16 on a delegate that holds both streams of a demuxer whose streams are both
encrypted, with both wrappers created: each callback substitutes its handle on
PIPELINE_OK and keeps the original stream on a decoder error. -/
theorem handle_substitution_witness :
    streamsValid (sampleDemuxer true true)
      { initializedDelegate with
        audio_stream_ := some StreamRef.chunk
        video_stream_ := some StreamRef.chunk
        audio_decrypting_demuxer_stream_ := true
        video_decrypting_demuxer_stream_ := true } = true ∧
    (∃ d2 es, OnAudioDecryptingDemuxerStreamInitDone (sampleDemuxer true true)
        PipelineStatus.PIPELINE_OK
        { initializedDelegate with
          audio_stream_ := some StreamRef.chunk
          video_stream_ := some StreamRef.chunk
          audio_decrypting_demuxer_stream_ := true
          video_decrypting_demuxer_stream_ := true } = some (d2, es) ∧
      d2.audio_stream_ = some StreamRef.decrypting) ∧
    (∃ d2 es, OnAudioDecryptingDemuxerStreamInitDone (sampleDemuxer true true)
        (PipelineStatus.error 1)
        { initializedDelegate with
          audio_stream_ := some StreamRef.chunk
          video_stream_ := some StreamRef.chunk
          audio_decrypting_demuxer_stream_ := true
          video_decrypting_demuxer_stream_ := true } = some (d2, es) ∧
      d2.audio_stream_ = some StreamRef.chunk ∧
      d2.audio_decrypting_demuxer_stream_ = false) ∧
    (∃ d2 es, OnVideoDecryptingDemuxerStreamInitDone (sampleDemuxer true true)
        PipelineStatus.PIPELINE_OK
        { initializedDelegate with
          audio_stream_ := some StreamRef.chunk
          video_stream_ := some StreamRef.chunk
          audio_decrypting_demuxer_stream_ := true
          video_decrypting_demuxer_stream_ := true } = some (d2, es) ∧
      d2.video_stream_ = some StreamRef.decrypting) ∧
    (∃ d2 es, OnVideoDecryptingDemuxerStreamInitDone (sampleDemuxer true true)
        (PipelineStatus.error 1)
        { initializedDelegate with
          audio_stream_ := some StreamRef.chunk
          video_stream_ := some StreamRef.chunk
          audio_decrypting_demuxer_stream_ := true
          video_decrypting_demuxer_stream_ := true } = some (d2, es) ∧
      d2.video_stream_ = some StreamRef.chunk ∧
      d2.video_decrypting_demuxer_stream_ = false) :=
  have h := handle_substitution (sampleDemuxer true true) (PipelineStatus.error 1)
    { initializedDelegate with
      audio_stream_ := some StreamRef.chunk
      video_stream_ := some StreamRef.chunk
      audio_decrypting_demuxer_stream_ := true
      video_decrypting_demuxer_stream_ := true } rfl
  ⟨rfl, h.1 rfl rfl, h.2.1 (by decide) (by decide), h.2.2.1 rfl rfl,
   h.2.2.2 (by decide) (by decide)⟩

/-! ### The DemuxerReady message -/

/-- The audio block of NotifyDemuxerReady: the audio fields are read from the
config of the handle, except the encrypted flag, which is read from the
demuxer's own audio stream; the other fields are not written. -/
theorem fillAudioConfigs_fields (env : Demuxer) (d : Delegate) (c0 c1 : DemuxerConfigs)
    (h : fillAudioConfigs env d c0 = some c1) :
    (∀ s, d.audio_stream_ = some s →
      ∃ c first, audio_decoder_config env s = some c ∧
        audio_decoder_config env StreamRef.chunk = some first ∧
        c1.audio_codec = c.codec ∧
        c1.audio_channels = env.ChannelLayoutToChannelCount c.channel_layout ∧
        c1.audio_sampling_rate = c.samples_per_second ∧
        c1.audio_extra_data = c.extra_data ∧
        c1.is_audio_encrypted = first.is_encrypted) ∧
    c1.video_codec = c0.video_codec ∧ c1.video_size = c0.video_size ∧
    c1.is_video_encrypted = c0.is_video_encrypted ∧
    c1.video_extra_data = c0.video_extra_data ∧
    c1.framerate_num = c0.framerate_num ∧ c1.framerate_den = c0.framerate_den ∧
    c1.is_framerate_changed = c0.is_framerate_changed := by
  simp only [fillAudioConfigs] at h
  split at h
  · rename_i hnone
    simp only [Option.some.injEq] at h
    subst h
    simp [hnone]
  · rename_i s hs
    split at h
    · rename_i c _ hc _
      split at h
      · rename_i first hfirst
        simp only [Option.some.injEq] at h
        subst h
        refine ⟨?_, rfl, rfl, rfl, rfl, rfl, rfl, rfl⟩
        intro s2 hs2
        rw [hs] at hs2
        simp only [Option.some.injEq] at hs2
        subst hs2
        exact ⟨c, first, hc, hfirst, rfl, rfl, rfl, rfl, rfl⟩
      · simp at h
    · simp at h

/-- The video block of NotifyDemuxerReady: the video fields are read from the
config of the handle, except the encrypted flag, which is read from the
demuxer's own video stream; the other fields are not written. -/
theorem fillVideoConfigs_fields (env : Demuxer) (d : Delegate) (c0 c1 : DemuxerConfigs)
    (h : fillVideoConfigs env d c0 = some c1) :
    (∀ s, d.video_stream_ = some s →
      ∃ c first, video_decoder_config env s = some c ∧
        video_decoder_config env StreamRef.chunk = some first ∧
        c1.video_codec = c.codec ∧
        c1.video_size = c.natural_size ∧
        c1.video_extra_data = c.extra_data ∧
        c1.is_video_encrypted = first.is_encrypted) ∧
    c1.audio_codec = c0.audio_codec ∧ c1.audio_channels = c0.audio_channels ∧
    c1.audio_sampling_rate = c0.audio_sampling_rate ∧
    c1.audio_extra_data = c0.audio_extra_data ∧
    c1.is_audio_encrypted = c0.is_audio_encrypted ∧
    c1.framerate_num = c0.framerate_num ∧ c1.framerate_den = c0.framerate_den ∧
    c1.is_framerate_changed = c0.is_framerate_changed := by
  simp only [fillVideoConfigs] at h
  split at h
  · rename_i hnone
    simp only [Option.some.injEq] at h
    subst h
    simp [hnone]
  · rename_i s hs
    split at h
    · rename_i c _ hc _
      split at h
      · rename_i first hfirst
        simp only [Option.some.injEq] at h
        subst h
        refine ⟨?_, rfl, rfl, rfl, rfl, rfl, rfl, rfl, rfl⟩
        intro s2 hs2
        rw [hs] at hs2
        simp only [Option.some.injEq] at hs2
        subst hs2
        exact ⟨c, first, hc, hfirst, rfl, rfl, rfl, rfl⟩
      · simp at h
    · simp at h

/-- The DemuxerReady message of a NotifyDemuxerReady call carries the configs
built by the audio block followed by the video block. -/
theorem NotifyDemuxerReady_configs (env : Demuxer) (b : Bool) (d d2 : Delegate)
    (es : List Event) (id : Int) (configs : DemuxerConfigs)
    (h : NotifyDemuxerReady env b d = some (d2, es))
    (hmem : Event.DemuxerReady id configs ∈ es) :
    ∃ c1, fillAudioConfigs env d DemuxerConfigs.new = some c1 ∧
      fillVideoConfigs env d c1 = some configs := by
  simp only [NotifyDemuxerReady] at h
  split at h
  · simp only [Option.some.injEq, Prod.mk.injEq] at h
    rw [← h.2] at hmem
    exfalso
    cases hr : d.is_demuxer_ready_ <;> cases hp : d.pending_cdm_attached_cb_ <;>
      cases hu : d.update_network_state_cb_ <;>
      simp [dcheck, OnDemuxerError, hr, hp, hu] at hmem
  · split at h
    · simp at h
    · rename_i c2 hc2
      simp only [Option.some.injEq, Prod.mk.injEq] at h
      rw [← h.2] at hmem
      have hcfg : configs = c2 := by
        cases hr : d.is_demuxer_ready_ <;> cases hp : d.pending_cdm_attached_cb_ <;>
          simp [dcheck, hr, hp] at hmem <;> exact hmem.2
      subst hcfg
      cases hf : fillAudioConfigs env
          { d with is_demuxer_ready_ := true, pending_cdm_attached_cb_ := false }
          DemuxerConfigs.new with
      | none => simp [hf] at hc2
      | some c1 =>
        simp only [hf, Option.some_bind] at hc2
        exact ⟨c1, hf, hc2⟩

/-- C20 as stated fails: with an encrypted audio stream whose initialization
succeeded, the audio handle is the decrypting wrapper when DemuxerReady is sent;
the message says `is_audio_encrypted = true` while the config of the handle
says not encrypted. -/
theorem demuxer_ready_round_trip_counterexample :
    (run (sampleDemuxer true false)
      [Op.GetDemuxerStreamInfo, Op.SetCdm true true,
       Op.OnAudioDecryptingDemuxerStreamInitDone PipelineStatus.PIPELINE_OK]
      initializedDelegate).map
      (fun p => (p.1.audio_stream_, (readyConfigs p.2).map fun c => c.is_audio_encrypted)) =
      some (some StreamRef.decrypting, [true]) ∧
    (audio_decoder_config (sampleDemuxer true false) StreamRef.decrypting).map
      (fun c => c.is_encrypted) = some false := by
  constructor <;> rfl

/-- C20, amended. For every call of NotifyDemuxerReady that sends DemuxerReady:
for a present audio stream the codec, channel count, sampling rate and extra
data of the message are those of the config of the current handle
(`audio_stream_`), and for a present video stream the codec, size and extra
data are those of the config of `video_stream_`; the two encrypted flags are
those of the configs of the demuxer's own streams (the ones GetStreamByType
returns), whatever the handles are; the frame rate fields are not taken from
any config: they keep the values of the DemuxerConfigs constructor. -/
theorem demuxer_ready_round_trip (env : Demuxer) (b : Bool) (d d2 : Delegate)
    (es : List Event) (id : Int) (configs : DemuxerConfigs)
    (h : NotifyDemuxerReady env b d = some (d2, es))
    (hmem : Event.DemuxerReady id configs ∈ es) :
    (∀ s, d.audio_stream_ = some s →
      ∃ c first, audio_decoder_config env s = some c ∧
        audio_decoder_config env StreamRef.chunk = some first ∧
        configs.audio_codec = c.codec ∧
        configs.audio_channels = env.ChannelLayoutToChannelCount c.channel_layout ∧
        configs.audio_sampling_rate = c.samples_per_second ∧
        configs.audio_extra_data = c.extra_data ∧
        configs.is_audio_encrypted = first.is_encrypted) ∧
    (∀ s, d.video_stream_ = some s →
      ∃ c first, video_decoder_config env s = some c ∧
        video_decoder_config env StreamRef.chunk = some first ∧
        configs.video_codec = c.codec ∧
        configs.video_size = c.natural_size ∧
        configs.video_extra_data = c.extra_data ∧
        configs.is_video_encrypted = first.is_encrypted) ∧
    configs.framerate_num = 0 ∧ configs.framerate_den = 0 ∧
    configs.is_framerate_changed = false := by
  obtain ⟨c1, hf1, hf2⟩ := NotifyDemuxerReady_configs env b d d2 es id configs h hmem
  obtain ⟨ha, _, _, _, _, an, ad, ac⟩ := fillAudioConfigs_fields env d _ c1 hf1
  obtain ⟨hv, v1, v2, v3, v4, v5, vn, vd, vc⟩ := fillVideoConfigs_fields env d c1 configs hf2
  refine ⟨?_, hv, ?_, ?_, ?_⟩
  · intro s hs
    obtain ⟨c, first, hc, hfirst, a1, a2, a3, a4, a5⟩ := ha s hs
    exact ⟨c, first, hc, hfirst, v1.trans a1, v2.trans a2, v3.trans a3, v4.trans a4,
      v5.trans a5⟩
  · exact vn.trans an
  · exact vd.trans ad
  · exact vc.trans ac

/-- C20, amended, on the notification sent after a successful audio
initialization: the audio handle is the decrypting wrapper, the sampling rate
of the message is the wrapper's and the encrypted flag is the one of the
demuxer's own audio stream. -/
theorem demuxer_ready_round_trip_witness :
    ∃ d2 es configs,
      NotifyDemuxerReady (sampleDemuxer true false) true
        { initializedDelegate with
          audio_stream_ := some StreamRef.decrypting
          video_stream_ := some StreamRef.chunk
          audio_decrypting_demuxer_stream_ := true } = some (d2, es) ∧
      Event.DemuxerReady 1 configs ∈ es ∧
      configs.audio_sampling_rate = 44100 ∧
      configs.is_audio_encrypted = true ∧
      configs.video_size = (640, 480) ∧
      configs.is_video_encrypted = false ∧
      configs.framerate_num = 0 := by
  obtain ⟨configs, h⟩ := NotifyDemuxerReady_sends (sampleDemuxer true false) true
    { initializedDelegate with
      audio_stream_ := some StreamRef.decrypting
      video_stream_ := some StreamRef.chunk
      audio_decrypting_demuxer_stream_ := true } rfl rfl (Or.inl rfl)
  refine ⟨_, _, configs, h, List.mem_append_right _ (List.mem_singleton.2 rfl), ?_⟩
  obtain ⟨ha, hv, hn, _⟩ := demuxer_ready_round_trip _ _ _ _ _ 1 configs h
    (List.mem_append_right _ (List.mem_singleton.2 rfl))
  obtain ⟨c, first, hc, hfirst, _, _, a3, _, a5⟩ := ha StreamRef.decrypting rfl
  obtain ⟨cv, firstv, hcv, hfirstv, _, v2, _, v4⟩ := hv StreamRef.chunk rfl
  simp only [audio_decoder_config, video_decoder_config, sampleDemuxer, Option.some.injEq]
    at hc hfirst hcv hfirstv
  subst hc hfirst hcv hfirstv
  exact ⟨a3, a5, v2, v4, hn⟩

/-! ### Re-negotiation after a config change -/

/-- C13 (the re-negotiation releases the read flag) fails on the code: the flag
set by OnBufferReady(kind, kConfigChanged, _) is cleared only by the init-done
callback of that same kind, and the negotiation may not initialize that kind.
First run: the video stream is encrypted and its initialization fails, the
audio stream is clear; after readiness an audio read returns kConfigChanged,
the negotiation initializes only the video stream and ends with DemuxerReady;
`is_audio_read_fired_` is still true with no audio Read outstanding, and the
next audio request issues no Read. Second run: both streams are encrypted and
the audio initialization fails; a video read returns kConfigChanged, the
negotiation ends in the audio callback, and `is_video_read_fired_` stays true
with no video Read outstanding. -/
theorem config_changed_flag_failing_input :
    (run (sampleDemuxer false true)
      [Op.GetDemuxerStreamInfo, Op.SetCdm true true,
       Op.OnVideoDecryptingDemuxerStreamInitDone (PipelineStatus.error 1),
       Op.OnReadFromDemuxer StreamType.AUDIO,
       Op.OnBufferReady StreamType.AUDIO StreamStatus.kConfigChanged none,
       Op.SetCdm true true,
       Op.OnVideoDecryptingDemuxerStreamInitDone (PipelineStatus.error 1),
       Op.OnReadFromDemuxer StreamType.AUDIO] initializedDelegate).map
      (fun p => (p.1.is_audio_read_fired_, p.1.audio_stream_, p.1.is_seeking_,
        readCalls StreamType.AUDIO p.2, initCalls p.2, readyCount p.2)) =
      some (true, some StreamRef.chunk, false, [StreamRef.chunk],
        [StreamType.VIDEO, StreamType.VIDEO], 2) ∧
    outstandingReads (sampleDemuxer false true) StreamType.AUDIO
      [Op.GetDemuxerStreamInfo, Op.SetCdm true true,
       Op.OnVideoDecryptingDemuxerStreamInitDone (PipelineStatus.error 1),
       Op.OnReadFromDemuxer StreamType.AUDIO,
       Op.OnBufferReady StreamType.AUDIO StreamStatus.kConfigChanged none,
       Op.SetCdm true true,
       Op.OnVideoDecryptingDemuxerStreamInitDone (PipelineStatus.error 1),
       Op.OnReadFromDemuxer StreamType.AUDIO] initializedDelegate = some 0 ∧
    (run (sampleDemuxer true true)
      [Op.GetDemuxerStreamInfo, Op.SetCdm true true,
       Op.OnAudioDecryptingDemuxerStreamInitDone (PipelineStatus.error 1),
       Op.OnReadFromDemuxer StreamType.VIDEO,
       Op.OnBufferReady StreamType.VIDEO StreamStatus.kConfigChanged none,
       Op.SetCdm true true,
       Op.OnAudioDecryptingDemuxerStreamInitDone (PipelineStatus.error 1),
       Op.OnReadFromDemuxer StreamType.VIDEO] initializedDelegate).map
      (fun p => (p.1.is_video_read_fired_, p.1.video_stream_, p.1.is_seeking_,
        readCalls StreamType.VIDEO p.2, initCalls p.2, readyCount p.2)) =
      some (true, some StreamRef.chunk, false, [StreamRef.chunk],
        [StreamType.AUDIO, StreamType.AUDIO], 2) ∧
    outstandingReads (sampleDemuxer true true) StreamType.VIDEO
      [Op.GetDemuxerStreamInfo, Op.SetCdm true true,
       Op.OnAudioDecryptingDemuxerStreamInitDone (PipelineStatus.error 1),
       Op.OnReadFromDemuxer StreamType.VIDEO,
       Op.OnBufferReady StreamType.VIDEO StreamStatus.kConfigChanged none,
       Op.SetCdm true true,
       Op.OnAudioDecryptingDemuxerStreamInitDone (PipelineStatus.error 1),
       Op.OnReadFromDemuxer StreamType.VIDEO] initializedDelegate = some 0 := by
  refine ⟨?_, ?_, ?_, ?_⟩ <;> rfl

/-- C15 (negotiations are never concurrent) fails on the code: the read-fired
flag set by a kConfigChanged result blocks only reads of the reporting kind, so
a kConfigChanged result of the other kind can arrive before the negotiation has
started and ask for the CDM a second time; each request is answered by a SetCdm
call and each SetCdm starts an initialization. Here the video stream is
encrypted and its first initialization failed; after readiness an audio and a
video read both return kConfigChanged and the two SetCdm calls that follow
start two video initializations: three were started in all, one init-done
callback has run, two are in progress. -/
theorem concurrent_negotiations_failing_input :
    (run (sampleDemuxer false true)
      [Op.GetDemuxerStreamInfo, Op.SetCdm true true,
       Op.OnVideoDecryptingDemuxerStreamInitDone (PipelineStatus.error 1),
       Op.OnReadFromDemuxer StreamType.AUDIO, Op.OnReadFromDemuxer StreamType.VIDEO,
       Op.OnBufferReady StreamType.AUDIO StreamStatus.kConfigChanged none,
       Op.OnBufferReady StreamType.VIDEO StreamStatus.kConfigChanged none,
       Op.SetCdm true true, Op.SetCdm true true] initializedDelegate).map
      (fun p => initCalls p.2) =
      some [StreamType.VIDEO, StreamType.VIDEO, StreamType.VIDEO] ∧
    initializationsInProgress (sampleDemuxer false true)
      [Op.GetDemuxerStreamInfo, Op.SetCdm true true,
       Op.OnVideoDecryptingDemuxerStreamInitDone (PipelineStatus.error 1),
       Op.OnReadFromDemuxer StreamType.AUDIO, Op.OnReadFromDemuxer StreamType.VIDEO,
       Op.OnBufferReady StreamType.AUDIO StreamStatus.kConfigChanged none,
       Op.OnBufferReady StreamType.VIDEO StreamStatus.kConfigChanged none,
       Op.SetCdm true true, Op.SetCdm true true] initializedDelegate = some 2 := by
  constructor <;> rfl

theorem audioStreamIsEncrypted_congr (env : Demuxer) (d d2 : Delegate)
    (h : d2.audio_stream_ = d.audio_stream_) :
    audioStreamIsEncrypted env d2 = audioStreamIsEncrypted env d := by
  simp only [audioStreamIsEncrypted, h]

theorem videoStreamIsEncrypted_congr (env : Demuxer) (d d2 : Delegate)
    (h : d2.video_stream_ = d.video_stream_) :
    videoStreamIsEncrypted env d2 = videoStreamIsEncrypted env d := by
  simp only [videoStreamIsEncrypted, h]

theorem streamsValid_congr (env : Demuxer) (d d2 : Delegate)
    (hc : d2.chunk_demuxer_ = d.chunk_demuxer_)
    (ha : d2.audio_stream_ = d.audio_stream_) (hv : d2.video_stream_ = d.video_stream_) :
    streamsValid env d2 = streamsValid env d := by
  simp only [streamsValid, hc, ha, hv]

theorem initCalls_OnDemuxerError (status : PipelineStatus) (d : Delegate) :
    initCalls (OnDemuxerError status d) = [] := by
  simp only [OnDemuxerError]
  split <;> rfl

/-- A readiness notification that returns sets `is_demuxer_ready_`, clears
`pending_cdm_attached_cb_`, changes no other field and starts no
initialization. -/
theorem NotifyDemuxerReady_frame (env : Demuxer) (b : Bool) (d d2 : Delegate)
    (es : List Event) (h : NotifyDemuxerReady env b d = some (d2, es)) :
    d2 = { d with is_demuxer_ready_ := true, pending_cdm_attached_cb_ := false } ∧
    initCalls es = [] := by
  simp only [NotifyDemuxerReady] at h
  split at h
  · simp only [Option.some.injEq, Prod.mk.injEq] at h
    refine ⟨h.1.symm, ?_⟩
    rw [← h.2]
    cases d.pending_cdm_attached_cb_ <;>
      simp [initCalls_append, initCalls_dcheck, initCalls_OnDemuxerError, initCalls]
  · split at h
    · simp at h
    · simp only [Option.some.injEq, Prod.mk.injEq] at h
      refine ⟨h.1.symm, ?_⟩
      rw [← h.2]
      cases d.pending_cdm_attached_cb_ <;>
        simp [initCalls_append, initCalls_dcheck, initCalls]

/-- The video init-done callback, when it returns, starts no initialization,
leaves the audio handle and the audio read-fired flag as they were and leaves
`is_demuxer_ready_` true. -/
theorem OnVideoInitDone_frame (env : Demuxer) (status : PipelineStatus) (d d2 : Delegate)
    (es : List Event)
    (h : OnVideoDecryptingDemuxerStreamInitDone env status d = some (d2, es)) :
    initCalls es = [] ∧ d2.audio_stream_ = d.audio_stream_ ∧
    d2.is_audio_read_fired_ = d.is_audio_read_fired_ ∧ d2.is_demuxer_ready_ = true := by
  obtain ⟨b, dn, es1, h1, he, ha, hf⟩ := OnVideoInitDone_returns env status d d2 es h
  obtain ⟨hd, hi⟩ := NotifyDemuxerReady_frame _ _ _ _ _ h1
  refine ⟨?_, ?_, ?_, ?_⟩
  · rw [he, initCalls_append, initCalls_dcheck, hi]
    rfl
  · rw [hd]
    exact ha
  · rw [hd]
    exact hf
  · rw [hd]

/-- The audio init-done callback, when it returns, leaves the video handle and
the video read-fired flag as they were. -/
theorem OnAudioInitDone_frame (env : Demuxer) (status : PipelineStatus) (d d2 : Delegate)
    (es : List Event)
    (h : OnAudioDecryptingDemuxerStreamInitDone env status d = some (d2, es)) :
    d2.video_stream_ = d.video_stream_ ∧
    d2.is_video_read_fired_ = d.is_video_read_fired_ := by
  simp only [OnAudioDecryptingDemuxerStreamInitDone] at h
  split at h
  · split at h
    · simp at h
    · obtain ⟨es1, h1⟩ := ready_after _ _ _ _ h
      obtain ⟨hd, _⟩ := NotifyDemuxerReady_frame _ _ _ _ _ h1
      rw [hd]
      exact ⟨rfl, rfl⟩
  · split at h
    · simp at h
    · simp only [InitVideoDecryptingDemuxerStream, Option.some.injEq, Prod.mk.injEq] at h
      rw [← h.1]
      exact ⟨rfl, rfl⟩
    · obtain ⟨es1, h1⟩ := ready_after _ _ _ _ h
      obtain ⟨hd, _⟩ := NotifyDemuxerReady_frame _ _ _ _ _ h1
      rw [hd]
      exact ⟨rfl, rfl⟩

/-- SetCdm, when it returns, changes no stream handle, no read-fired flag and not
`is_demuxer_ready_`, `demuxer_client_` or `chunk_demuxer_`. -/
theorem SetCdm_frame (env : Demuxer) (c cb : Bool) (d d2 : Delegate) (es : List Event)
    (h : SetCdm env c cb d = some (d2, es)) :
    d2.audio_stream_ = d.audio_stream_ ∧ d2.video_stream_ = d.video_stream_ ∧
    d2.is_audio_read_fired_ = d.is_audio_read_fired_ ∧
    d2.is_video_read_fired_ = d.is_video_read_fired_ ∧
    d2.is_demuxer_ready_ = d.is_demuxer_ready_ := by
  simp only [SetCdm] at h
  split at h
  · simp at h
  · simp only [Option.some.injEq, Prod.mk.injEq] at h
    rw [← h.1]
    exact ⟨rfl, rfl, rfl, rfl, rfl⟩
  · split at h
    · simp at h
    · simp only [Option.some.injEq, Prod.mk.injEq] at h
      rw [← h.1]
      exact ⟨rfl, rfl, rfl, rfl, rfl⟩
    · simp only [Option.some.injEq, Prod.mk.injEq] at h
      rw [← h.1]
      exact ⟨rfl, rfl, rfl, rfl, rfl⟩

theorem allEvents_one (c : InitCall) (es : List Event) : allEvents [(c, es)] = es := by
  simp [allEvents]

theorem allEvents_two (c1 c2 : InitCall) (es1 es2 : List Event) :
    allEvents [(c1, es1), (c2, es2)] = es1 ++ es2 := by
  simp [allEvents]

/-- The init-done callbacks of a negotiation leave alone the streams they do not
initialize: when no audio initialization was started, the audio handle and the
audio read-fired flag are unchanged; when no video initialization was started,
neither by the calls before nor by the audio callback, the video handle and
the video read-fired flag are unchanged. They never clear
`is_demuxer_ready_`. -/
theorem initDoneCallbacks_frame (env : Demuxer) (sa sv : PipelineStatus) (d d2 : Delegate)
    (es : List Event) (calls : List (InitCall × List Event))
    (h : initDoneCallbacks env sa sv d es = some (d2, calls)) :
    (StreamType.AUDIO ∉ initCalls es →
      d2.audio_stream_ = d.audio_stream_ ∧
      d2.is_audio_read_fired_ = d.is_audio_read_fired_) ∧
    (StreamType.VIDEO ∉ initCalls (es ++ allEvents calls) →
      d2.video_stream_ = d.video_stream_ ∧
      d2.is_video_read_fired_ = d.is_video_read_fired_) ∧
    (d.is_demuxer_ready_ = true → d2.is_demuxer_ready_ = true) := by
  simp only [initDoneCallbacks] at h
  by_cases m1 : Event.decryptingStreamInit StreamType.AUDIO ∈ es
  · rw [if_pos m1] at h
    cases hA : OnAudioDecryptingDemuxerStreamInitDone env sa d with
    | none => simp [hA] at h
    | some p =>
      obtain ⟨d1, es1⟩ := p
      simp only [hA] at h
      by_cases m2 : Event.decryptingStreamInit StreamType.VIDEO ∈ es1
      · rw [if_pos m2] at h
        cases hV : OnVideoDecryptingDemuxerStreamInitDone env sv d1 with
        | none => simp [hV] at h
        | some q =>
          obtain ⟨d3, es3⟩ := q
          simp only [hV, Option.some.injEq, Prod.mk.injEq] at h
          obtain ⟨hd, hc⟩ := h
          subst hd hc
          refine ⟨fun hn => absurd ((mem_initCalls _ _).1 m1) hn, fun hn => ?_, fun _ => ?_⟩
          · exfalso
            apply hn
            rw [allEvents_two, initCalls_append, initCalls_append]
            simp [(mem_initCalls _ _).1 m2]
          · exact (OnVideoInitDone_frame env sv d1 d3 es3 hV).2.2.2
      · rw [if_neg m2] at h
        simp only [Option.some.injEq, Prod.mk.injEq] at h
        obtain ⟨hd, hc⟩ := h
        subst hd hc
        refine ⟨fun hn => absurd ((mem_initCalls _ _).1 m1) hn, fun _ => ?_, fun hr => ?_⟩
        · exact OnAudioInitDone_frame env sa d d1 es1 hA
        · exact ready_OnAudioInitDone env sa d d1 es1 hr hA
  · rw [if_neg m1] at h
    by_cases m3 : Event.decryptingStreamInit StreamType.VIDEO ∈ es
    · rw [if_pos m3] at h
      cases hV : OnVideoDecryptingDemuxerStreamInitDone env sv d with
      | none => simp [hV] at h
      | some q =>
        obtain ⟨d3, es3⟩ := q
        simp only [hV, Option.some.injEq, Prod.mk.injEq] at h
        obtain ⟨hd, hc⟩ := h
        subst hd hc
        obtain ⟨_, f1, f2, f3⟩ := OnVideoInitDone_frame env sv d d3 es3 hV
        refine ⟨fun _ => ⟨f1, f2⟩, fun hn => ?_, fun _ => f3⟩
        exfalso
        apply hn
        rw [initCalls_append]
        simp [(mem_initCalls _ _).1 m3]
    · rw [if_neg m3] at h
      simp only [Option.some.injEq, Prod.mk.injEq] at h
      obtain ⟨hd, hc⟩ := h
      subst hd hc
      exact ⟨fun _ => ⟨rfl, rfl⟩, fun _ => ⟨rfl, rfl⟩, fun hr => hr⟩

/-- OnBufferReady with kConfigChanged when one of the handles has an encrypted
config: the CDM is asked for, no initialization is started yet, and only the
read-fired flags change. -/
theorem OnBufferReady_configChanged (env : Demuxer) (type : StreamType)
    (buffer : Option DecoderBuffer) (d0 : Delegate) (a v : Bool)
    (hcb : d0.set_cdm_ready_cb_ = true)
    (ha : audioStreamIsEncrypted env d0 = some a)
    (hv : videoStreamIsEncrypted env d0 = some v) (henc : (a || v) = true) :
    ∃ d es0, OnBufferReady env type StreamStatus.kConfigChanged buffer d0 = some (d, es0) ∧
      Event.runSetCdmReadyCb ∈ es0 ∧ initCalls es0 = [] ∧
      d.audio_stream_ = d0.audio_stream_ ∧ d.video_stream_ = d0.video_stream_ ∧
      d.is_demuxer_ready_ = d0.is_demuxer_ready_ ∧
      d.chunk_demuxer_ = d0.chunk_demuxer_ ∧ d.demuxer_client_ = d0.demuxer_client_ := by
  simp only [audioStreamIsEncrypted] at ha
  simp only [videoStreamIsEncrypted] at hv
  cases type <;> cases a <;> cases v <;>
    simp [OnBufferReady, HasEncryptedStream, audioStreamIsEncrypted, videoStreamIsEncrypted,
      ha, hv, hcb, HasEncryptedStream_dcheck, initCalls_append, initCalls_dcheck,
      initCalls, and_assoc] at henc ⊢

/-- The initializations started by a negotiation (SetCdm and the init-done
callbacks that follow): the audio one when the audio handle has an encrypted
config, and the video one when the video handle has an encrypted config and the
audio handle is not encrypted or its initialization succeeded. -/
theorem negotiation_inits (env : Demuxer) (c cb : Bool) (sa sv : PipelineStatus)
    (d : Delegate) (a v : Bool)
    (hclient : d.demuxer_client_ = true) (hvalid : streamsValid env d = true)
    (ha : audioStreamIsEncrypted env d = some a)
    (hv : videoStreamIsEncrypted env d = some v) (henc : (a || v) = true) :
    ∃ d1 es1 d2 calls, SetCdm env c cb d = some (d1, es1) ∧
      initDoneCallbacks env sa sv d1 es1 = some (d2, calls) ∧
      initCalls (es1 ++ allEvents calls) =
        (if a = true then [StreamType.AUDIO] else []) ++
        (if v = true ∧ (a = true → sa = PipelineStatus.PIPELINE_OK) then [StreamType.VIDEO]
         else []) := by
  cases a with
  | true =>
    by_cases hsa : sa = PipelineStatus.PIPELINE_OK
    · subst hsa
      cases v with
      | true =>
        obtain ⟨d1, es1, d2, es3, es4, h1, _, i1, _, h2, _, i3, _, _, i4, _⟩ :=
          negotiation_both env c cb sv d hclient hvalid ha hv
        refine ⟨d1, es1, d2, _, h1, h2, ?_⟩
        rw [initCalls_append, allEvents_two, initCalls_append, i1, i3, i4]
        simp
      | false =>
        obtain ⟨d1, es1, d2, es3, h1, _, i1, _, h2, _, i3, _⟩ :=
          negotiation_audio_only env c cb sv d hclient hvalid ha hv
        refine ⟨d1, es1, d2, _, h1, h2, ?_⟩
        rw [initCalls_append, allEvents_one, i1, i3]
        simp
    · obtain ⟨d1, es1, d2, es3, h1, _, i1, _, h2, _, i3, _⟩ :=
        negotiation_audio_failed env c cb sa sv d hclient hvalid ha hsa
      refine ⟨d1, es1, d2, _, h1, h2, ?_⟩
      rw [initCalls_append, allEvents_one, i1, i3]
      simp [hsa]
  | false =>
    cases v with
    | false => simp at henc
    | true =>
      obtain ⟨d1, es1, d2, es4, h1, _, i1, _, h2, _, i4, _⟩ :=
        negotiation_video_only env c cb sa sv d hclient hvalid ha hv
      refine ⟨d1, es1, d2, _, h1, h2, ?_⟩
      rw [initCalls_append, allEvents_one, i1, i4]
      simp

/-- C14, amended. After readiness has fired, when OnBufferReady(kind,
kConfigChanged, _) finds a handle with an encrypted config, it asks for the CDM,
and the negotiation that follows (SetCdm and its init-done callbacks, with any
outcomes) initializes a decrypting stream for every handle whose config is
encrypted, whichever kind reported: the audio one when the audio handle is
encrypted, then the video one when the video handle is encrypted and the audio
handle is not encrypted or its initialization succeeded. A stream for which no
initialization is started keeps its handle and its read-fired flag, and
`is_demuxer_ready_` is true after OnBufferReady, after SetCdm, after the audio
callback and at the end. -/
theorem renegotiation_scope (env : Demuxer) (type : StreamType)
    (buffer : Option DecoderBuffer) (c cb : Bool) (sa sv : PipelineStatus)
    (d0 : Delegate) (a v : Bool)
    (hready : d0.is_demuxer_ready_ = true) (hclient : d0.demuxer_client_ = true)
    (hvalid : streamsValid env d0 = true) (hcb : d0.set_cdm_ready_cb_ = true)
    (ha : audioStreamIsEncrypted env d0 = some a)
    (hv : videoStreamIsEncrypted env d0 = some v) (henc : (a || v) = true) :
    ∃ d es0 d1 es1 d2 calls,
      OnBufferReady env type StreamStatus.kConfigChanged buffer d0 = some (d, es0) ∧
      Event.runSetCdmReadyCb ∈ es0 ∧
      SetCdm env c cb d = some (d1, es1) ∧
      initDoneCallbacks env sa sv d1 es1 = some (d2, calls) ∧
      initCalls (es0 ++ es1 ++ allEvents calls) =
        (if a = true then [StreamType.AUDIO] else []) ++
        (if v = true ∧ (a = true → sa = PipelineStatus.PIPELINE_OK) then [StreamType.VIDEO]
         else []) ∧
      (a = false →
        d2.audio_stream_ = d.audio_stream_ ∧
        d2.is_audio_read_fired_ = d.is_audio_read_fired_) ∧
      (¬ (v = true ∧ (a = true → sa = PipelineStatus.PIPELINE_OK)) →
        d2.video_stream_ = d.video_stream_ ∧
        d2.is_video_read_fired_ = d.is_video_read_fired_) ∧
      d.is_demuxer_ready_ = true ∧ d1.is_demuxer_ready_ = true ∧
      d2.is_demuxer_ready_ = true ∧
      ∀ d3 es3, OnAudioDecryptingDemuxerStreamInitDone env sa d1 = some (d3, es3) →
        d3.is_demuxer_ready_ = true := by
  obtain ⟨d, es0, h0, hmem, i0, ka, kv, kr, kc, kl⟩ :=
    OnBufferReady_configChanged env type buffer d0 a v hcb ha hv henc
  have hready1 : d.is_demuxer_ready_ = true := kr.trans hready
  have hclient1 : d.demuxer_client_ = true := kl.trans hclient
  have hvalid1 : streamsValid env d = true := (streamsValid_congr env d0 d kc ka kv).trans hvalid
  have ha1 : audioStreamIsEncrypted env d = some a :=
    (audioStreamIsEncrypted_congr env d0 d ka).trans ha
  have hv1 : videoStreamIsEncrypted env d = some v :=
    (videoStreamIsEncrypted_congr env d0 d kv).trans hv
  obtain ⟨d1, es1, d2, calls, h1, h2, hi⟩ :=
    negotiation_inits env c cb sa sv d a v hclient1 hvalid1 ha1 hv1 henc
  obtain ⟨fa, fv, fa2, fv2, fr⟩ := SetCdm_frame env c cb d d1 es1 h1
  obtain ⟨ga, gv, gr⟩ := initDoneCallbacks_frame env sa sv d1 d2 es1 calls h2
  have hready2 : d1.is_demuxer_ready_ = true := fr.trans hready1
  refine ⟨d, es0, d1, es1, d2, calls, h0, hmem, h1, h2, ?_, ?_, ?_, hready1, hready2,
    gr hready2, ?_⟩
  · rw [List.append_assoc, initCalls_append, i0, List.nil_append, hi]
  · intro hfalse
    have hn : StreamType.AUDIO ∉ initCalls es1 := by
      intro hm
      have hm2 : StreamType.AUDIO ∈ initCalls (es1 ++ allEvents calls) := by
        rw [initCalls_append]
        exact List.mem_append_left _ hm
      rw [hi, hfalse] at hm2
      simp at hm2
    obtain ⟨g1, g2⟩ := ga hn
    exact ⟨g1.trans fa, g2.trans fa2⟩
  · intro hno
    have hn : StreamType.VIDEO ∉ initCalls (es1 ++ allEvents calls) := by
      rw [hi, if_neg hno]
      cases a <;> simp
    obtain ⟨g1, g2⟩ := gv hn
    exact ⟨g1.trans fv, g2.trans fv2⟩
  · intro d3 es3 h3
    exact ready_OnAudioInitDone env sa d1 d3 es3 hready2 h3

/-- C14 on a ready delegate whose video stream is encrypted and not wrapped (its
first initialization failed) and whose audio stream is clear, when a video read
reports kConfigChanged: only the video initialization is started, the audio
handle and the audio read-fired flag are as before, and `is_demuxer_ready_`
is true at the end. -/
theorem renegotiation_scope_witness :
    ∃ d es0 d1 es1 d2 calls,
      OnBufferReady (sampleDemuxer false true) StreamType.VIDEO StreamStatus.kConfigChanged
        none
        { initializedDelegate with
          audio_stream_ := some StreamRef.chunk
          video_stream_ := some StreamRef.chunk
          is_audio_read_fired_ := true
          is_demuxer_ready_ := true } = some (d, es0) ∧
      SetCdm (sampleDemuxer false true) true true d = some (d1, es1) ∧
      initDoneCallbacks (sampleDemuxer false true) PipelineStatus.PIPELINE_OK
        PipelineStatus.PIPELINE_OK d1 es1 = some (d2, calls) ∧
      initCalls (es0 ++ es1 ++ allEvents calls) = [StreamType.VIDEO] ∧
      d2.audio_stream_ = d.audio_stream_ ∧
      d2.is_audio_read_fired_ = d.is_audio_read_fired_ ∧
      d2.is_demuxer_ready_ = true := by
  obtain ⟨d, es0, d1, es1, d2, calls, h0, _, h1, h2, hi, hfa, _, _, _, hr, _⟩ :=
    renegotiation_scope (sampleDemuxer false true) StreamType.VIDEO none true true
      PipelineStatus.PIPELINE_OK PipelineStatus.PIPELINE_OK
      { initializedDelegate with
        audio_stream_ := some StreamRef.chunk
        video_stream_ := some StreamRef.chunk
        is_audio_read_fired_ := true
        is_demuxer_ready_ := true } false true rfl rfl rfl rfl rfl rfl rfl
  exact ⟨d, es0, d1, es1, d2, calls, h0, h1, h2, by simpa using hi, (hfa rfl).1,
    (hfa rfl).2, hr⟩

/-- C14 as stated fails: both streams are encrypted and the first audio
initialization failed, so that both handles are still the demuxer's streams
when readiness fires. An audio and a video read are then requested and the
video read reports kConfigChanged. The negotiation that follows starts with the
audio initialization (the second entry of the initializations started), not
only the video one, and after it the audio handle is the decrypting wrapper and
the audio read-fired flag has been cleared. -/
theorem renegotiation_scope_counterexample :
    (run (sampleDemuxer true true)
      [Op.GetDemuxerStreamInfo, Op.SetCdm true true,
       Op.OnAudioDecryptingDemuxerStreamInitDone (PipelineStatus.error 1),
       Op.OnReadFromDemuxer StreamType.AUDIO, Op.OnReadFromDemuxer StreamType.VIDEO,
       Op.OnBufferReady StreamType.VIDEO StreamStatus.kConfigChanged none]
      initializedDelegate).map
      (fun p => (p.1.is_demuxer_ready_, p.1.audio_stream_, p.1.is_audio_read_fired_,
        initCalls p.2)) =
      some (true, some StreamRef.chunk, true, [StreamType.AUDIO]) ∧
    (run (sampleDemuxer true true)
      [Op.GetDemuxerStreamInfo, Op.SetCdm true true,
       Op.OnAudioDecryptingDemuxerStreamInitDone (PipelineStatus.error 1),
       Op.OnReadFromDemuxer StreamType.AUDIO, Op.OnReadFromDemuxer StreamType.VIDEO,
       Op.OnBufferReady StreamType.VIDEO StreamStatus.kConfigChanged none,
       Op.SetCdm true true,
       Op.OnAudioDecryptingDemuxerStreamInitDone PipelineStatus.PIPELINE_OK,
       Op.OnVideoDecryptingDemuxerStreamInitDone PipelineStatus.PIPELINE_OK]
      initializedDelegate).map
      (fun p => (p.1.is_demuxer_ready_, p.1.audio_stream_, p.1.is_audio_read_fired_,
        initCalls p.2)) =
      some (true, some StreamRef.decrypting, false,
        [StreamType.AUDIO, StreamType.AUDIO, StreamType.VIDEO]) := by
  constructor <;> rfl

/-! ### Teardown -/

/-- Stop followed by StopDemuxer on a delegate with a live demuxer and a client:
the state they leave and the calls they make, in order. -/
theorem run_Stop_StopDemuxer (env : Demuxer) (d : Delegate)
    (hdemux : d.chunk_demuxer_ = true) (hclient : d.demuxer_client_ = true) :
    run env [Op.Stop, Op.StopDemuxer] d =
      some ({ d with
              duration_change_cb_ := false
              update_network_state_cb_ := false
              media_source_opened_cb_ := false
              main_weak_factory_ := d.main_weak_factory_ + 1
              demuxer_client_ := false
              audio_stream_ := none
              video_stream_ := none
              audio_decrypting_demuxer_stream_ := false
              video_decrypting_demuxer_stream_ := false
              media_weak_factory_ := d.media_weak_factory_ + 1
              chunk_demuxer_ := false },
            [Event.invalidateMainWeakPtrs, Event.demuxerShutdown, Event.postStopDemuxer,
             Event.RemoveDelegate d.demuxer_client_id_, Event.invalidateMediaWeakPtrs,
             Event.demuxerStop, Event.demuxerRelease, Event.runStopCb]) := by
  simp [run, applyOp, Stop, StopDemuxer, hdemux, hclient, Result.andThen, Result.after]

/-- C21 (teardown order and result). For a delegate with a live demuxer (and its
client), Stop followed by the StopDemuxer task it posts makes these calls in
this order: the main-thread weak pointers are invalidated, the demuxer is shut
down, StopDemuxer is posted; then the delegate is removed from the client, the
media-thread weak pointers are invalidated, Stop is called on the demuxer, the
demuxer is released and `stop_cb` is run, once and last. Afterwards
`chunk_demuxer_`, `demuxer_client_`, `audio_stream_`, `video_stream_` and both
decrypting streams are null and no assertion of the destructor fails. -/
theorem teardown_order_and_result (env : Demuxer) (d : Delegate)
    (hdemux : d.chunk_demuxer_ = true) (hclient : d.demuxer_client_ = true) :
    ∃ d2, run env [Op.Stop, Op.StopDemuxer] d =
        some (d2,
          [Event.invalidateMainWeakPtrs, Event.demuxerShutdown, Event.postStopDemuxer,
           Event.RemoveDelegate d.demuxer_client_id_, Event.invalidateMediaWeakPtrs,
           Event.demuxerStop, Event.demuxerRelease, Event.runStopCb]) ∧
      d2.media_weak_factory_ = d.media_weak_factory_ + 1 ∧
      d2.chunk_demuxer_ = false ∧ d2.demuxer_client_ = false ∧
      d2.audio_stream_ = none ∧ d2.video_stream_ = none ∧
      d2.audio_decrypting_demuxer_stream_ = false ∧
      d2.video_decrypting_demuxer_stream_ = false ∧
      d2.destructor = [] :=
  ⟨_, run_Stop_StopDemuxer env d hdemux hclient, rfl, rfl, rfl, rfl, rfl, rfl, rfl, rfl⟩

/-- C21 on a delegate that is ready, holds both streams and has wrapped the
audio stream. -/
theorem teardown_order_and_result_witness :
    ∃ d2, run (sampleDemuxer true false) [Op.Stop, Op.StopDemuxer]
        { initializedDelegate with
          audio_stream_ := some StreamRef.decrypting
          video_stream_ := some StreamRef.chunk
          audio_decrypting_demuxer_stream_ := true
          is_demuxer_ready_ := true } =
        some (d2,
          [Event.invalidateMainWeakPtrs, Event.demuxerShutdown, Event.postStopDemuxer,
           Event.RemoveDelegate 1, Event.invalidateMediaWeakPtrs,
           Event.demuxerStop, Event.demuxerRelease, Event.runStopCb]) ∧
      d2.chunk_demuxer_ = false ∧ d2.audio_stream_ = none ∧
      d2.audio_decrypting_demuxer_stream_ = false ∧ d2.destructor = [] := by
  obtain ⟨d2, h, _, h1, _, h2, _, h3, _, h4⟩ :=
    teardown_order_and_result (sampleDemuxer true false)
      { initializedDelegate with
        audio_stream_ := some StreamRef.decrypting
        video_stream_ := some StreamRef.chunk
        audio_decrypting_demuxer_stream_ := true
        is_demuxer_ready_ := true } rfl rfl
  exact ⟨d2, h, h1, h2, h3, h4⟩

theorem run_replicate_Stop (env : Demuxer) (s : Delegate)
    (hdemux : s.chunk_demuxer_ = false) (hclient : s.demuxer_client_ = false) (n : Nat) :
    run env (List.replicate n Op.Stop) s = some (s, []) := by
  induction n with
  | zero => rfl
  | succ n ih =>
    simp [List.replicate, run, applyOp, Stop, hdemux, hclient, dcheck, ih,
      Result.andThen, Result.after]

/-- C22, amended (Stop is idempotent once the delegate is stopped). From every
state with a live demuxer and client, Stop followed by its StopDemuxer task
returns and violates no assertion; on the stopped delegate they leave, Stop
changes no field and makes no call, so that any number of further Stop calls
leaves the same state and the same calls as the single Stop. (A second Stop
before the StopDemuxer task has run is another matter: see the
counterexample.) -/
theorem stop_idempotent (env : Demuxer) (d : Delegate) (n : Nat)
    (hdemux : d.chunk_demuxer_ = true) (hclient : d.demuxer_client_ = true) :
    ∃ d2 es, run env [Op.Stop, Op.StopDemuxer] d = some (d2, es) ∧
      failedChecks es = [] ∧
      d2.chunk_demuxer_ = false ∧ d2.demuxer_client_ = false ∧
      Stop d2 = (d2, []) ∧
      run env ([Op.Stop, Op.StopDemuxer] ++ List.replicate n Op.Stop) d = some (d2, es) := by
  refine ⟨_, _, run_Stop_StopDemuxer env d hdemux hclient, rfl, rfl, rfl, ?_, ?_⟩
  · simp [Stop, dcheck]
  · rw [run_append, run_Stop_StopDemuxer env d hdemux hclient, Result.some_andThen,
      run_replicate_Stop env _ rfl rfl n]
    simp [Result.after]

/-- C22, amended, on a freshly initialized delegate: Stop, StopDemuxer and three
more Stop calls. -/
theorem stop_idempotent_witness :
    run (sampleDemuxer false false)
      [Op.Stop, Op.StopDemuxer, Op.Stop, Op.Stop, Op.Stop] initializedDelegate =
      run (sampleDemuxer false false) [Op.Stop, Op.StopDemuxer] initializedDelegate := by
  obtain ⟨d2, es, h1, _, _, _, _, h2⟩ :=
    stop_idempotent (sampleDemuxer false false) initializedDelegate 3 rfl rfl
  rw [h1]
  exact h2

/-- C22 as stated fails for a second Stop before StopDemuxer has run: the second
Stop finds the demuxer still there, shuts it down again and posts a second
StopDemuxer task (first line); the first task releases the demuxer and clears
`demuxer_client_` (second line), and the second task then runs with
`chunk_demuxer_` null, against its assertion, and dereferences the null
`demuxer_client_` (third line: no defined result). -/
theorem double_stop_counterexample :
    (run (sampleDemuxer false false) [Op.Stop, Op.Stop] initializedDelegate).map
      (fun p => p.2) =
      some [Event.invalidateMainWeakPtrs, Event.demuxerShutdown, Event.postStopDemuxer,
            Event.invalidateMainWeakPtrs, Event.demuxerShutdown, Event.postStopDemuxer] ∧
    (run (sampleDemuxer false false) [Op.Stop, Op.Stop, Op.StopDemuxer]
      initializedDelegate).map (fun p => (p.1.chunk_demuxer_, p.1.demuxer_client_)) =
      some (false, false) ∧
    run (sampleDemuxer false false) [Op.Stop, Op.Stop, Op.StopDemuxer, Op.StopDemuxer]
      initializedDelegate = none := by
  refine ⟨?_, ?_, ?_⟩ <;> rfl

/-- C30 (after teardown, requests are inert). On a delegate for which Stop and
StopDemuxer have run, StartWaitingForSeek(t), CancelPendingSeek(t),
StartSeek(t, b) and OnReadFromDemuxer(kind), for every t, b and kind, return the
same fields and make no call on any collaborator. -/
theorem requests_inert_after_teardown (env : Demuxer) (d : Delegate)
    (hdemux : d.chunk_demuxer_ = true) (hclient : d.demuxer_client_ = true) :
    ∃ d2 es, run env [Op.Stop, Op.StopDemuxer] d = some (d2, es) ∧
      ∀ (t : TimeDelta) (b : Bool) (type : StreamType),
        StartWaitingForSeek t d2 = some (d2, []) ∧
        CancelPendingSeek t d2 = some (d2, []) ∧
        StartSeek t b d2 = some (d2, []) ∧
        OnReadFromDemuxer type d2 = (d2, []) := by
  refine ⟨_, _, run_Stop_StopDemuxer env d hdemux hclient, ?_⟩
  intro t b type
  refine ⟨by simp [StartWaitingForSeek], by simp [CancelPendingSeek], by simp [StartSeek], ?_⟩
  cases hs : d.is_seeking_ <;> simp [OnReadFromDemuxer, hs]

/-- C30 on a delegate that held both streams and had an audio read in flight
when it was torn down. -/
theorem requests_inert_after_teardown_witness :
    ∃ d2 es,
      run (sampleDemuxer false false) [Op.Stop, Op.StopDemuxer]
        { initializedDelegate with
          audio_stream_ := some StreamRef.chunk
          video_stream_ := some StreamRef.chunk
          is_audio_read_fired_ := true
          is_demuxer_ready_ := true } = some (d2, es) ∧
      StartWaitingForSeek 5000000 d2 = some (d2, []) ∧
      CancelPendingSeek 5000000 d2 = some (d2, []) ∧
      StartSeek 5000000 false d2 = some (d2, []) ∧
      OnReadFromDemuxer StreamType.VIDEO d2 = (d2, []) := by
  obtain ⟨d2, es, h, hall⟩ :=
    requests_inert_after_teardown (sampleDemuxer false false)
      { initializedDelegate with
        audio_stream_ := some StreamRef.chunk
        video_stream_ := some StreamRef.chunk
        is_audio_read_fired_ := true
        is_demuxer_ready_ := true } rfl rfl
  exact ⟨d2, es, h, hall 5000000 false StreamType.VIDEO⟩

/-! ### The seek functions one by one -/

/-- C27 (a demux-side seek request is ignored while a superseding seek is being
executed). For every delegate state with a live demuxer: with
`seeking_pending_seek_` true, StartSeek(t, false) makes no call (no
AbortPendingReads, no Seek) and changes only `is_seeking_` (to true) and
`is_demuxer_seek_done_` (to false), so `seek_time_`, `pending_seek_`,
`pending_seek_time_` and `seeking_pending_seek_` are unchanged; StartSeek(t,
true), and StartSeek(t, false) with `seeking_pending_seek_` false, set
`seek_time_` to t and call AbortPendingReads followed by Seek(t), once. -/
theorem start_seek_superseded (t : TimeDelta) (d : Delegate)
    (hdemux : d.chunk_demuxer_ = true) :
    (d.seeking_pending_seek_ = true →
      StartSeek t false d =
        some ({ d with is_seeking_ := true, is_demuxer_seek_done_ := false }, [])) ∧
    StartSeek t true d =
      some ({ d with is_seeking_ := true, is_demuxer_seek_done_ := false,
                     seeking_pending_seek_ := true, seek_time_ := t },
            [Event.demuxerAbortPendingReads, Event.demuxerSeek t]) ∧
    (d.seeking_pending_seek_ = false →
      StartSeek t false d =
        some ({ d with is_seeking_ := true, is_demuxer_seek_done_ := false,
                       seek_time_ := t },
              [Event.demuxerAbortPendingReads, Event.demuxerSeek t])) := by
  refine ⟨fun hsps => ?_, ?_, fun hsps => ?_⟩
  · simp [StartSeek, hdemux, hsps]
  · simp [StartSeek, SeekInternal, hdemux]
  · simp [StartSeek, SeekInternal, hdemux, hsps]

/-- C27 on a delegate executing a superseding seek to 9s: a request to seek to
5s is ignored, and the same request is executed once the flag is clear. -/
theorem start_seek_superseded_witness :
    StartSeek 5000000 false
      { initializedDelegate with
        is_seeking_ := true, seeking_pending_seek_ := true, seek_time_ := 9000000 } =
      some ({ initializedDelegate with
              is_seeking_ := true, seeking_pending_seek_ := true, seek_time_ := 9000000 },
            []) ∧
    StartSeek 5000000 false initializedDelegate =
      some ({ initializedDelegate with is_seeking_ := true, seek_time_ := 5000000 },
            [Event.demuxerAbortPendingReads, Event.demuxerSeek 5000000]) :=
  ⟨(start_seek_superseded 5000000
      { initializedDelegate with
        is_seeking_ := true, seeking_pending_seek_ := true, seek_time_ := 9000000 }
      rfl).1 rfl,
   (start_seek_superseded 5000000 initializedDelegate rfl).2.2 rfl⟩

/-- C26, amended. For every delegate state with a live demuxer,
CancelPendingSeek(t) leaves `is_seeking_` true and `pending_seek_time_` equal
to t. When `is_demuxer_seek_done_` is false it calls CancelPendingSeek(t) on the
underlying demuxer and sets `pending_seek_`; when `is_demuxer_seek_done_` is
true it does not: it calls StartWaitingForSeek(t) on the demuxer, posts
StartSeek(t, true), and clears `is_demuxer_seek_done_` and `pending_seek_`. -/
theorem cancel_pending_seek_calls (t : TimeDelta) (d : Delegate)
    (hdemux : d.chunk_demuxer_ = true) :
    ∃ d2 es, CancelPendingSeek t d = some (d2, es) ∧
      d2.is_seeking_ = true ∧ d2.pending_seek_time_ = t ∧
      (d.is_demuxer_seek_done_ = false →
        es = [Event.demuxerCancelPendingSeek t] ∧ d2.pending_seek_ = true) ∧
      (d.is_demuxer_seek_done_ = true →
        es = [Event.demuxerStartWaitingForSeek t, Event.postStartSeek t true] ∧
        d2.pending_seek_ = false ∧ d2.is_demuxer_seek_done_ = false) := by
  cases hd : d.is_demuxer_seek_done_ <;> simp [CancelPendingSeek, hdemux, hd, and_assoc]

/-- C26, amended, on a delegate whose seek is in progress on the demuxer. -/
theorem cancel_pending_seek_calls_witness :
    ∃ d2 es,
      CancelPendingSeek 7000000
        { initializedDelegate with is_seeking_ := true, seek_time_ := 5000000 } =
        some (d2, es) ∧
      d2.is_seeking_ = true ∧ es = [Event.demuxerCancelPendingSeek 7000000] ∧
      d2.pending_seek_ = true := by
  obtain ⟨d2, es, h, h1, _, h2, _⟩ :=
    cancel_pending_seek_calls 7000000
      { initializedDelegate with is_seeking_ := true, seek_time_ := 5000000 } rfl
  exact ⟨d2, es, h, h1, (h2 rfl).1, (h2 rfl).2⟩

/-- C26 as stated fails: after a seek to 5s has completed on the demuxer
(`is_demuxer_seek_done_` is true), CancelPendingSeek(7s) does not call
CancelPendingSeek on the underlying demuxer; its calls are
StartWaitingForSeek(7s) on the demuxer and the post of StartSeek(7s, true). -/
theorem cancel_pending_seek_counterexample :
    (run (sampleDemuxer false false)
      [Op.StartSeek 5000000 false, Op.OnDemuxerSeekDone 5000000 PipelineStatus.PIPELINE_OK]
      initializedDelegate).map (fun p => p.1.is_demuxer_seek_done_) = some true ∧
    ((run (sampleDemuxer false false)
      [Op.StartSeek 5000000 false, Op.OnDemuxerSeekDone 5000000 PipelineStatus.PIPELINE_OK]
      initializedDelegate).bind fun p => CancelPendingSeek 7000000 p.1).map
      (fun q => (q.1.is_seeking_, q.2)) =
      some (true, [Event.demuxerStartWaitingForSeek 7000000,
                   Event.postStartSeek 7000000 true]) := by
  constructor <;> rfl

/-- C25 (an initialization failure is fatal and reported once). For every
delegate state, OnDemuxerInitDone with a status other than PIPELINE_OK changes
no field (so `is_demuxer_ready_`, `audio_stream_` and `video_stream_` are
unchanged), runs `update_network_state_cb_` once with the network state of that
status when the callback is set, and makes no other call on a collaborator: it
does not post GetDemuxerStreamInfo and sends no DemuxerReady. -/
theorem init_failure_reported_once (status : PipelineStatus) (d : Delegate)
    (hstatus : status ≠ PipelineStatus.PIPELINE_OK) :
    (OnDemuxerInitDone status d).1 = d ∧
    (OnDemuxerInitDone status d).2 =
      dcheck Check.OnDemuxerInitDone_chunk_demuxer d.chunk_demuxer_ ++
      (if d.update_network_state_cb_ then [Event.runUpdateNetworkState status] else []) ∧
    Event.postGetDemuxerStreamInfo ∉ (OnDemuxerInitDone status d).2 ∧
    readyCount (OnDemuxerInitDone status d).2 = 0 := by
  cases hc : d.chunk_demuxer_ <;> cases hu : d.update_network_state_cb_ <;>
    simp [OnDemuxerInitDone, OnDemuxerError, hstatus, hc, hu, dcheck, readyCount]

/-- C25 on a freshly initialized delegate. -/
theorem init_failure_reported_once_witness :
    OnDemuxerInitDone (PipelineStatus.error 1) initializedDelegate =
      (initializedDelegate, [Event.runUpdateNetworkState (PipelineStatus.error 1)]) := by
  obtain ⟨h1, h2, _⟩ :=
    init_failure_reported_once (PipelineStatus.error 1) initializedDelegate (by decide)
  exact Prod.ext h1 h2

/-! ### The queued seek target -/

theorem isSeekOp_of_isSeekFunction (op : Op) (h : op.isSeekFunction = true) :
    op.isSeekOp = true := by
  cases op <;> simp [Op.isSeekFunction, Op.isSeekOp] at h ⊢

/-- FinishResettingDecryptingDemuxerStreams, when it returns, leaves
`is_seeking_` false and does not change `pending_seek_`. -/
theorem pending_FinishResetting (d d2 : Delegate) (es : List Event)
    (h : FinishResettingDecryptingDemuxerStreams d = some (d2, es)) :
    d2.is_seeking_ = false ∧ d2.pending_seek_ = d.pending_seek_ := by
  simp only [FinishResettingDecryptingDemuxerStreams] at h
  split at h
  · simp only [Option.some.injEq, Prod.mk.injEq] at h
    rw [← h.1]
    exact ⟨rfl, rfl⟩
  · simp at h

theorem pending_ResetVideo (d d2 : Delegate) (es : List Event)
    (h : ResetVideoDecryptingDemuxerStream d = some (d2, es)) :
    d2.pending_seek_ = d.pending_seek_ ∧
    (d2.is_seeking_ = false ∨ d2.is_seeking_ = d.is_seeking_) := by
  simp only [ResetVideoDecryptingDemuxerStream] at h
  split at h
  · simp only [Option.some.injEq, Prod.mk.injEq] at h
    rw [← h.1]
    exact ⟨rfl, Or.inr rfl⟩
  · obtain ⟨h1, h2⟩ := pending_FinishResetting d d2 es h
    exact ⟨h2, Or.inl h1⟩

theorem pending_ResetAudio (d d2 : Delegate) (es : List Event)
    (h : ResetAudioDecryptingDemuxerStream d = some (d2, es)) :
    d2.pending_seek_ = d.pending_seek_ := by
  simp only [ResetAudioDecryptingDemuxerStream] at h
  split at h
  · simp only [Option.some.injEq, Prod.mk.injEq] at h
    rw [← h.1]
  · exact (pending_ResetVideo d d2 es h).1

/-- StartSeek, when it returns, leaves `is_seeking_` true or changes no field;
it never changes `pending_seek_`. -/
theorem pending_StartSeek (t : TimeDelta) (b : Bool) (d d2 : Delegate) (es : List Event)
    (h : StartSeek t b d = some (d2, es)) :
    d2.pending_seek_ = d.pending_seek_ ∧ (d2.is_seeking_ = true ∨ d2 = d) := by
  simp only [StartSeek] at h
  split at h
  · simp only [Option.some.injEq, Prod.mk.injEq] at h
    rw [← h.1]
    exact ⟨rfl, Or.inr rfl⟩
  · split at h
    · simp only [SeekInternal] at h
      split at h
      · simp only [Option.some.injEq, Prod.mk.injEq] at h
        rw [← h.1]
        exact ⟨rfl, Or.inl rfl⟩
      · simp at h
    · split at h
      · simp only [Option.some.injEq, Prod.mk.injEq] at h
        rw [← h.1]
        exact ⟨rfl, Or.inl rfl⟩
      · simp only [SeekInternal] at h
        split at h
        · simp only [Option.some.injEq, Prod.mk.injEq] at h
          rw [← h.1]
          exact ⟨rfl, Or.inl rfl⟩
        · simp at h

/-- Each of the four seek functions keeps `pending_seek_` false whenever
`is_seeking_` is false. -/
theorem applyOp_queued_inv (env : Demuxer) (op : Op) (hop : op.isSeekFunction = true)
    (d d2 : Delegate) (es : List Event)
    (hinv : d.is_seeking_ = false → d.pending_seek_ = false)
    (h : applyOp env op d = some (d2, es)) :
    d2.is_seeking_ = false → d2.pending_seek_ = false := by
  cases op with
  | StartWaitingForSeek t =>
    simp only [applyOp, StartWaitingForSeek] at h
    split at h <;> simp only [Option.some.injEq, Prod.mk.injEq] at h <;> rw [← h.1]
    · exact hinv
    · intro hs
      simp at hs
  | CancelPendingSeek t =>
    simp only [applyOp, CancelPendingSeek] at h
    split at h
    · simp only [Option.some.injEq, Prod.mk.injEq] at h
      rw [← h.1]
      exact hinv
    · split at h <;> simp only [Option.some.injEq, Prod.mk.injEq] at h <;> rw [← h.1] <;>
        (intro hs; simp at hs)
  | StartSeek t b =>
    obtain ⟨h1, h2⟩ := pending_StartSeek t b d d2 es h
    rcases h2 with h2 | h2
    · intro hs
      rw [h2] at hs
      simp at hs
    · rw [h2]
      exact hinv
  | OnDemuxerSeekDone t status =>
    simp only [applyOp, OnDemuxerSeekDone] at h
    split at h
    · simp only [Option.some.injEq, Prod.mk.injEq] at h
      rw [← h.1]
      exact hinv
    · split at h
      · obtain ⟨h1, _⟩ := pending_StartSeek _ _ _ _ _ h
        intro _
        exact h1
      · rename_i hp
        have h1 := pending_ResetAudio _ _ _ h
        intro _
        rw [h1]
        simpa using hp
  | _ => simp [Op.isSeekFunction] at hop

theorem run_queued_inv (env : Demuxer) (ops : List Op)
    (hops : ∀ op ∈ ops, op.isSeekFunction = true) (d d2 : Delegate) (es : List Event)
    (hinv : d.is_seeking_ = false → d.pending_seek_ = false)
    (h : run env ops d = some (d2, es)) :
    d2.is_seeking_ = false → d2.pending_seek_ = false := by
  induction ops generalizing d es with
  | nil =>
    simp only [run, Option.some.injEq, Prod.mk.injEq] at h
    rw [← h.1]
    exact hinv
  | cons op rest ih =>
    simp only [run] at h
    cases h1 : applyOp env op d with
    | none => simp [h1] at h
    | some p =>
      obtain ⟨d1, e1⟩ := p
      rw [h1, Result.some_andThen] at h
      obtain ⟨e2, h2⟩ := ready_after _ _ _ _ h
      exact ih (fun o ho => hops o (List.mem_cons_of_mem _ ho)) d1 e2
        (applyOp_queued_inv env op (hops op (List.mem_cons_self _ _)) d d1 e1 hinv h1) h2

/-- C23, amended. On a delegate with a live demuxer and client in which
`pending_seek_` is false whenever `is_seeking_` is false (as in the initial
state), every sequence of StartWaitingForSeek, CancelPendingSeek, StartSeek and
OnDemuxerSeekDone calls (the reset chain running inside OnDemuxerSeekDone as far
as it is synchronous) returns and leaves `pending_seek_` false whenever
`is_seeking_` is false. A reset completion that runs as a separate step
afterwards does not change `pending_seek_`, and
FinishResettingDecryptingDemuxerStreams sets `is_seeking_` to false whatever
`pending_seek_` is: it keeps the property exactly when no target is queued at
that moment. -/
theorem queued_target_only_while_seeking (env : Demuxer) (ops : List Op) (d : Delegate)
    (hops : ∀ op ∈ ops, op.isSeekFunction = true)
    (hdemux : d.chunk_demuxer_ = true) (hclient : d.demuxer_client_ = true)
    (hinv : d.is_seeking_ = false → d.pending_seek_ = false) :
    ∃ d2 es, run env ops d = some (d2, es) ∧
      (d2.is_seeking_ = false → d2.pending_seek_ = false) ∧
      (∀ d3 es3, ResetVideoDecryptingDemuxerStream d2 = some (d3, es3) →
        d3.pending_seek_ = d2.pending_seek_) ∧
      ∀ d3 es3, FinishResettingDecryptingDemuxerStreams d2 = some (d3, es3) →
        d3.is_seeking_ = false ∧ d3.pending_seek_ = d2.pending_seek_ := by
  obtain ⟨d2, es, h, _⟩ := run_seek_inv env ops
    (fun op ho => isSeekOp_of_isSeekFunction op (hops op ho)) none d
    ⟨hdemux, hclient, by simp⟩
  exact ⟨d2, es, h, run_queued_inv env ops hops d d2 es hinv h,
    fun d3 es3 h3 => (pending_ResetVideo d2 d3 es3 h3).1,
    fun d3 es3 h3 => pending_FinishResetting d2 d3 es3 h3⟩

/-- C23, amended, on a seek to 5s that is superseded by a seek to 9s while it is
executed and then completes twice. -/
theorem queued_target_only_while_seeking_witness :
    ∃ d2 es,
      run (sampleDemuxer false false)
        [Op.StartWaitingForSeek 5000000, Op.StartSeek 5000000 false,
         Op.CancelPendingSeek 9000000,
         Op.OnDemuxerSeekDone 5000000 PipelineStatus.PIPELINE_OK,
         Op.OnDemuxerSeekDone 9000000 PipelineStatus.PIPELINE_OK]
        initializedDelegate = some (d2, es) ∧
      (d2.is_seeking_ = false → d2.pending_seek_ = false) := by
  obtain ⟨d2, es, h, hinv, _⟩ :=
    queued_target_only_while_seeking (sampleDemuxer false false)
      [Op.StartWaitingForSeek 5000000, Op.StartSeek 5000000 false,
       Op.CancelPendingSeek 9000000,
       Op.OnDemuxerSeekDone 5000000 PipelineStatus.PIPELINE_OK,
       Op.OnDemuxerSeekDone 9000000 PipelineStatus.PIPELINE_OK]
      initializedDelegate (by decide) rfl rfl (fun _ => rfl)
  exact ⟨d2, es, h, hinv⟩

/-- C23 as stated fails. The audio stream is encrypted and wrapped, so that the
reset chain of a seek completion is asynchronous. A seek to 5s completes on the
demuxer (the audio wrapper is asked to reset), two further seeks are requested
by CancelPendingSeek (the second one queues its target 9s), and then the reset
completes: FinishResettingDecryptingDemuxerStreams clears `is_seeking_` while
`pending_seek_` is true. The second line shows the same two steps
(CancelPendingSeek, then the completion) on a freshly initialized delegate. -/
theorem queued_target_counterexample :
    (run (sampleDemuxer true false)
      [Op.GetDemuxerStreamInfo, Op.SetCdm true true,
       Op.OnAudioDecryptingDemuxerStreamInitDone PipelineStatus.PIPELINE_OK,
       Op.StartWaitingForSeek 5000000, Op.StartSeek 5000000 false,
       Op.OnDemuxerSeekDone 5000000 PipelineStatus.PIPELINE_OK,
       Op.CancelPendingSeek 7000000, Op.CancelPendingSeek 9000000,
       Op.ResetVideoDecryptingDemuxerStream] initializedDelegate).map
      (fun p => (p.1.is_seeking_, p.1.pending_seek_, p.1.pending_seek_time_)) =
      some (false, true, 9000000) ∧
    (run (sampleDemuxer false false)
      [Op.CancelPendingSeek 9000000, Op.FinishResettingDecryptingDemuxerStreams]
      initializedDelegate).map
      (fun p => (p.1.is_seeking_, p.1.pending_seek_, p.1.pending_seek_time_)) =
      some (false, true, 9000000) := by
  constructor <;> rfl

/-! ### The player's seek -/

/-- C24, amended. For every player state with `is_seeking_` true:
a request for the time `seek_time_` with no media source delegate sends no
message and changes no field except `pending_seek_`, which becomes false (a
queued seek is dropped); with a media source delegate the request is not
suppressed: `pending_seek_` becomes true, `pending_seek_time_` becomes the
requested time and CancelPendingSeek is called on the delegate with it; a
request for a time different from `seek_time_` sets `pending_seek_`, overwrites
`pending_seek_time_` with the new time, calls CancelPendingSeek on the delegate
when there is one and sends no Seek message to the manager. -/
theorem player_seek_while_seeking (t : TimeDelta) (p : WebMediaPlayerCastanets)
    (hseeking : p.is_seeking_ = true) :
    (t = p.seek_time_ → p.media_source_delegate_ = false →
      p.Seek t = some ({ p with pending_seek_ := false }, [])) ∧
    (t = p.seek_time_ → p.media_source_delegate_ = true →
      p.Seek t =
        some ({ p with pending_seek_ := true, pending_seek_time_ := t },
              [PlayerEvent.delegateCancelPendingSeek t])) ∧
    (t ≠ p.seek_time_ →
      p.Seek t =
        some ({ p with pending_seek_ := true, pending_seek_time_ := t },
              if p.media_source_delegate_ then [PlayerEvent.delegateCancelPendingSeek t]
              else [])) := by
  refine ⟨fun ht hd => ?_, fun ht hd => ?_, fun ht => ?_⟩
  · simp [WebMediaPlayerCastanets.Seek, hseeking, ht, hd]
  · simp [WebMediaPlayerCastanets.Seek, hseeking, ht, hd]
  · simp [WebMediaPlayerCastanets.Seek, hseeking, ht]

/-- C24, amended, on a player with a media source delegate that is seeking to
5s: the same time is requested again, then 9s. -/
theorem player_seek_while_seeking_witness :
    WebMediaPlayerCastanets.Seek 5000000
      { manager_ := true, player_id_ := 3, media_source_delegate_ := true,
        is_seeking_ := true, seek_time_ := 5000000, pending_seek_ := false,
        pending_seek_time_ := 0 } =
      some ({ manager_ := true, player_id_ := 3, media_source_delegate_ := true,
              is_seeking_ := true, seek_time_ := 5000000, pending_seek_ := true,
              pending_seek_time_ := 5000000 },
            [PlayerEvent.delegateCancelPendingSeek 5000000]) ∧
    WebMediaPlayerCastanets.Seek 9000000
      { manager_ := true, player_id_ := 3, media_source_delegate_ := true,
        is_seeking_ := true, seek_time_ := 5000000, pending_seek_ := false,
        pending_seek_time_ := 0 } =
      some ({ manager_ := true, player_id_ := 3, media_source_delegate_ := true,
              is_seeking_ := true, seek_time_ := 5000000, pending_seek_ := true,
              pending_seek_time_ := 9000000 },
            [PlayerEvent.delegateCancelPendingSeek 9000000]) :=
  ⟨(player_seek_while_seeking 5000000
      { manager_ := true, player_id_ := 3, media_source_delegate_ := true,
        is_seeking_ := true, seek_time_ := 5000000, pending_seek_ := false,
        pending_seek_time_ := 0 } rfl).2.1 rfl rfl,
   (player_seek_while_seeking 9000000
      { manager_ := true, player_id_ := 3, media_source_delegate_ := true,
        is_seeking_ := true, seek_time_ := 5000000, pending_seek_ := false,
        pending_seek_time_ := 0 } rfl).2.2 (by decide)⟩

/-- C24 as stated fails: a player without a media source delegate is seeking to
5s and has a seek to 9s queued; a request for 5s again is not a no-op, it
clears `pending_seek_` (the queued seek to 9s is dropped). -/
theorem player_duplicate_seek_counterexample :
    WebMediaPlayerCastanets.Seek 5000000
      { manager_ := true, player_id_ := 3, media_source_delegate_ := false,
        is_seeking_ := true, seek_time_ := 5000000, pending_seek_ := true,
        pending_seek_time_ := 9000000 } =
      some ({ manager_ := true, player_id_ := 3, media_source_delegate_ := false,
              is_seeking_ := true, seek_time_ := 5000000, pending_seek_ := false,
              pending_seek_time_ := 9000000 }, []) ∧
    (WebMediaPlayerCastanets.Seek 9000000
      { manager_ := true, player_id_ := 3, media_source_delegate_ := false,
        is_seeking_ := true, seek_time_ := 5000000, pending_seek_ := false,
        pending_seek_time_ := 0 }).map (fun q => q.1.pending_seek_) = some true := by
  constructor <;> rfl

/-! ### Assertions -/

/-- C28 (the assertion at the top of NotifyDemuxerReady holds) fails on the code:
`is_demuxer_ready_` is false after construction and is set to true only by
NotifyDemuxerReady itself, after the assertion. First run: no stream is
encrypted and the first notification comes from GetDemuxerStreamInfo. Second
run: the video stream is encrypted and the first notification comes from the
video init-done callback. In both the assertion is the one that fails; a later
notification (third run, after a kConfigChanged result with no encrypted
handle) passes it. -/
theorem notify_ready_assertion_failing_input :
    (Delegate.new true 1).is_demuxer_ready_ = false ∧
    (run (sampleDemuxer false false)
      [Op.OnDemuxerInitDone PipelineStatus.PIPELINE_OK, Op.GetDemuxerStreamInfo]
      initializedDelegate).map (fun p => (failedChecks p.2, readyCount p.2)) =
      some ([Check.NotifyDemuxerReady_is_demuxer_ready], 1) ∧
    (run (sampleDemuxer false true)
      [Op.OnDemuxerInitDone PipelineStatus.PIPELINE_OK, Op.GetDemuxerStreamInfo,
       Op.SetCdm true true,
       Op.OnVideoDecryptingDemuxerStreamInitDone PipelineStatus.PIPELINE_OK]
      initializedDelegate).map (fun p => (failedChecks p.2, readyCount p.2)) =
      some ([Check.NotifyDemuxerReady_is_demuxer_ready], 1) ∧
    (run (sampleDemuxer false false)
      [Op.OnDemuxerInitDone PipelineStatus.PIPELINE_OK, Op.GetDemuxerStreamInfo,
       Op.OnReadFromDemuxer StreamType.AUDIO,
       Op.OnBufferReady StreamType.AUDIO StreamStatus.kConfigChanged none]
      initializedDelegate).map (fun p => (failedChecks p.2, readyCount p.2)) =
      some ([Check.NotifyDemuxerReady_is_demuxer_ready], 2) := by
  refine ⟨?_, ?_, ?_, ?_⟩ <;> rfl

/-- C29 (the assertion in FinishResettingDecryptingDemuxerStreams holds) fails on
the code: a successful OnDemuxerSeekDone with no pending seek sets `is_seeking_`
to false before it starts the reset chain. First run: no decrypting stream, the
chain is synchronous and the assertion fails inside OnDemuxerSeekDone, which
still sends DemuxerSeekDone. Second run: the audio stream is encrypted and
wrapped; OnDemuxerSeekDone asks the wrapper to reset and returns with
`is_seeking_` false and nothing sent. Third run: the second one followed by the
completion of that reset, which reaches
FinishResettingDecryptingDemuxerStreams with `is_seeking_` false (the other
failed assertion of that run is the one of the first readiness
notification). -/
theorem finish_resetting_assertion_failing_input :
    (run (sampleDemuxer false false)
      [Op.StartSeek 5000000 false, Op.OnDemuxerSeekDone 5000000 PipelineStatus.PIPELINE_OK]
      initializedDelegate).map (fun p => (failedChecks p.2, seekDoneMessages p.2)) =
      some ([Check.FinishResettingDecryptingDemuxerStreams_is_seeking], [5000000]) ∧
    (run (sampleDemuxer true false)
      [Op.GetDemuxerStreamInfo, Op.SetCdm true true,
       Op.OnAudioDecryptingDemuxerStreamInitDone PipelineStatus.PIPELINE_OK,
       Op.StartSeek 5000000 false, Op.OnDemuxerSeekDone 5000000 PipelineStatus.PIPELINE_OK]
      initializedDelegate).map
      (fun p => (p.1.is_seeking_, p.1.audio_decrypting_demuxer_stream_,
        seekDoneMessages p.2)) = some (false, true, []) ∧
    (run (sampleDemuxer true false)
      [Op.GetDemuxerStreamInfo, Op.SetCdm true true,
       Op.OnAudioDecryptingDemuxerStreamInitDone PipelineStatus.PIPELINE_OK,
       Op.StartSeek 5000000 false, Op.OnDemuxerSeekDone 5000000 PipelineStatus.PIPELINE_OK,
       Op.ResetVideoDecryptingDemuxerStream]
      initializedDelegate).map (fun p => (failedChecks p.2, seekDoneMessages p.2)) =
      some ([Check.NotifyDemuxerReady_is_demuxer_ready,
             Check.FinishResettingDecryptingDemuxerStreams_is_seeking], [5000000]) := by
  refine ⟨?_, ?_, ?_⟩ <;> rfl

end Castanets
